import Mathlib

/-!
PX4IO control mixer: arbitration, arming and mixer text loading.

A shallow embedding of `src/modules/iofirmware/mixer.cpp` (`mixer_tick`,
`mixer_callback`, `mixer_handle_text`, `mixer_set_failsafe`) together with the
properties its specification states about it.

Conventions of the embedding.

* The file-scope variables of `mixer.cpp` and the register pages it shares with
  the rest of the firmware are the fields of one record, `MixerState`; every
  operation is a function from state to state.
* The registers are `uint16_t`; they are natural numbers here, `|=` is `|||`
  and `&= ~m` is `&&& (0xFFFF ^^^ m)`.
* Arrays (register pages, `outputs`, `mixer_text`) are maps from index to
  element; the array sizes appear where the source uses them, as loop bounds and
  in the overflow check.
* Calls that leave the core (`up_pwm_servo_arm`, `up_pwm_servo_set`,
  `sbus1_output`, `sbus2_output`, `mixer_group.mix`, `mixer_group.reset`,
  `mixer_group.load_from_buf`) are recorded, in order, in the `trace` field.
  `isr_debug` only prints to the debug console and is left out.
* What `mixer.cpp` uses but does not define (array sizes, register offsets,
  `CONTROL_PAGE_INDEX`, `REG_TO_FLOAT`, single precision arithmetic, the
  `MixerGroup` class, `pwm_limit_calc`) is a field of the record `Platform`,
  over which every definition and theorem is parametric.
-/

namespace Mixer

/-! ## Register bits -/

/-- The mask with only bit `i` set, `(1 << i)`. -/
def BIT (i : Nat) : Nat := 1 <<< i

/-- The C test `reg & mask` used as a condition: true when the result is non-zero. -/
def hasFlag (reg mask : Nat) : Bool := (reg &&& mask) != 0

/-- The C statement `reg |= mask`. -/
def setFlag (reg mask : Nat) : Nat := reg ||| mask

/-- The C statement `reg &= ~mask` on a 16 bit register. -/
def clearFlag (reg mask : Nat) : Nat := reg &&& (0xFFFF ^^^ mask)

/-- Modelled from the spec: the masks of the status register are declared in
`protocol.h`, which is not among the sources. The spec describes the status
flags as a bitset of independent boolean conditions, so every flag is one bit of
its own; the positions are those of the PX4IO protocol. -/
def PX4IO_P_STATUS_FLAGS_OUTPUTS_ARMED : Nat := BIT 0

/-- Modelled from the spec: status bit "manual override requested" (see
`PX4IO_P_STATUS_FLAGS_OUTPUTS_ARMED` for what is missing). -/
def PX4IO_P_STATUS_FLAGS_OVERRIDE : Nat := BIT 1

/-- Modelled from the spec: status bit "RC input valid" (see
`PX4IO_P_STATUS_FLAGS_OUTPUTS_ARMED` for what is missing). -/
def PX4IO_P_STATUS_FLAGS_RC_OK : Nat := BIT 2

/-- Modelled from the spec: status bit "FMU data fresh" (see
`PX4IO_P_STATUS_FLAGS_OUTPUTS_ARMED` for what is missing). -/
def PX4IO_P_STATUS_FLAGS_FMU_OK : Nat := BIT 6

/-- Modelled from the spec: status bit "raw PWM mode" (see
`PX4IO_P_STATUS_FLAGS_OUTPUTS_ARMED` for what is missing). -/
def PX4IO_P_STATUS_FLAGS_RAW_PWM : Nat := BIT 7

/-- Modelled from the spec: status bit "mixer loaded" (see
`PX4IO_P_STATUS_FLAGS_OUTPUTS_ARMED` for what is missing). -/
def PX4IO_P_STATUS_FLAGS_MIXER_OK : Nat := BIT 8

/-- Modelled from the spec: status bit "initialised without error" (see
`PX4IO_P_STATUS_FLAGS_OUTPUTS_ARMED` for what is missing). -/
def PX4IO_P_STATUS_FLAGS_INIT_OK : Nat := BIT 10

/-- Modelled from the spec: status bit "outputs are the failsafe values" (see
`PX4IO_P_STATUS_FLAGS_OUTPUTS_ARMED` for what is missing). -/
def PX4IO_P_STATUS_FLAGS_FAILSAFE : Nat := BIT 11

/-- Modelled from the spec: status bit "safety switch off" (see
`PX4IO_P_STATUS_FLAGS_OUTPUTS_ARMED` for what is missing). -/
def PX4IO_P_STATUS_FLAGS_SAFETY_OFF : Nat := BIT 12

/-- Modelled from the spec: status bit "FMU data has been seen once" (see
`PX4IO_P_STATUS_FLAGS_OUTPUTS_ARMED` for what is missing). -/
def PX4IO_P_STATUS_FLAGS_FMU_INITIALIZED : Nat := BIT 13

/-- Modelled from the spec: alarm bit "FMU lost" of the alarms register, declared
in `protocol.h`, which is not among the sources. -/
def PX4IO_P_STATUS_ALARMS_FMU_LOST : Nat := BIT 4

/-- Modelled from the spec: the masks of the arming register are declared in
`protocol.h`, which is not among the sources. The spec describes the arming flags
as a bitset of independent boolean conditions, so every flag is one bit of its
own; the positions are those of the PX4IO protocol. -/
def PX4IO_P_SETUP_ARMING_FMU_ARMED : Nat := BIT 1

/-- Modelled from the spec: arming bit "custom failsafe values configured" (see
`PX4IO_P_SETUP_ARMING_FMU_ARMED` for what is missing). -/
def PX4IO_P_SETUP_ARMING_FAILSAFE_CUSTOM : Nat := BIT 3

/-- Modelled from the spec: arming bit "keep PWM enabled" (see
`PX4IO_P_SETUP_ARMING_FMU_ARMED` for what is missing). -/
def PX4IO_P_SETUP_ARMING_ALWAYS_PWM_ENABLE : Nat := BIT 5

/-- Modelled from the spec: arming bit "RC handling disabled" (see
`PX4IO_P_SETUP_ARMING_FMU_ARMED` for what is missing). -/
def PX4IO_P_SETUP_ARMING_RC_HANDLING_DISABLED : Nat := BIT 6

/-- Modelled from the spec: arming bit "lockdown" (see
`PX4IO_P_SETUP_ARMING_FMU_ARMED` for what is missing). -/
def PX4IO_P_SETUP_ARMING_LOCKDOWN : Nat := BIT 7

/-- Modelled from the spec: arming bit "force failsafe latched" (see
`PX4IO_P_SETUP_ARMING_FMU_ARMED` for what is missing). -/
def PX4IO_P_SETUP_ARMING_FORCE_FAILSAFE : Nat := BIT 8

/-- Modelled from the spec: arming bit "termination failsafe requested" (see
`PX4IO_P_SETUP_ARMING_FMU_ARMED` for what is missing). -/
def PX4IO_P_SETUP_ARMING_TERMINATION_FAILSAFE : Nat := BIT 9

/-- Modelled from the spec: feature bit "S.BUS1 output", declared in
`protocol.h`, which is not among the sources; one bit of its own. -/
def PX4IO_P_SETUP_FEATURES_SBUS1_OUT : Nat := BIT 0

/-- Modelled from the spec: feature bit "S.BUS2 output", declared in
`protocol.h`, which is not among the sources; one bit of its own. -/
def PX4IO_P_SETUP_FEATURES_SBUS2_OUT : Nat := BIT 1

/-- Maximum interval in microseconds before the FMU signal is considered lost. -/
def FMU_INPUT_DROP_LIMIT_US : Nat := 500000

/-- Modelled from the spec: `hrt_elapsed_time` belongs to the timer driver, which
is not among the sources. It is the time elapsed since the given instant, the
difference of two 64 bit microsecond counters. -/
def hrt_elapsed_time (now received : Nat) : Nat := (now + 2 ^ 64 - received % 2 ^ 64) % 2 ^ 64

/-! ## Data model -/

/-- Selected control values for mixing, `enum mixer_source`. -/
inductive mixer_source where
  | MIX_NONE
  | MIX_FMU
  | MIX_OVERRIDE
  | MIX_FAILSAFE
  | MIX_OVERRIDE_FMU_OK
  deriving DecidableEq, Repr

open mixer_source

/-- Calls that leave the core, in the order they are made. -/
inductive Event where
  | mix
  | reset
  | load_from_buf (text : List Nat) (length : Nat)
  | up_pwm_servo_arm (armed : Bool)
  | up_pwm_servo_set (channel value : Nat)
  | sbus1_output (values : List Nat)
  | sbus2_output (values : List Nat)
  deriving DecidableEq, Repr

/-- What `mixer.cpp` takes from headers and collaborators that are not among the
sources. `F` is the type of `float` values, `M` the state of the `MixerGroup`
object, `L` the state of the ramp limiter (`pwm_limit_t`). -/
structure Platform (F M L : Type) where
  /-- Number of output channels. -/
  PX4IO_SERVO_COUNT : Nat
  /-- Number of control channels of a group. -/
  PX4IO_CONTROL_CHANNELS : Nat
  /-- Number of control groups. -/
  PX4IO_CONTROL_GROUPS : Nat
  /-- Offset of the RC validity mask in the RC input page. -/
  PX4IO_P_RC_VALID : Nat
  /-- Offset of the first RC value in the RC input page. -/
  PX4IO_P_RC_BASE : Nat
  /-- The macro `CONTROL_PAGE_INDEX(group, channel)`. -/
  CONTROL_PAGE_INDEX : Nat → Nat → Nat
  /-- Constant `actuator_controls_s::GROUP_INDEX_ATTITUDE`. -/
  GROUP_INDEX_ATTITUDE : Nat
  /-- Constant `actuator_controls_s::INDEX_ROLL`. -/
  INDEX_ROLL : Nat
  /-- Constant `actuator_controls_s::INDEX_PITCH`. -/
  INDEX_PITCH : Nat
  /-- Constant `actuator_controls_s::INDEX_YAW`. -/
  INDEX_YAW : Nat
  /-- Constant `actuator_controls_s::INDEX_THROTTLE`. -/
  INDEX_THROTTLE : Nat
  /-- Size of the message header, `sizeof(px4io_mixdata)`. -/
  sizeof_px4io_mixdata : Nat
  /-- The field `action` of a message. -/
  msg_action : List Nat → Nat
  /-- The bytes of the field `text` of a message. -/
  msg_text : List Nat → List Nat
  /-- Constant `F2I_MIXER_ACTION_RESET`. -/
  F2I_MIXER_ACTION_RESET : Nat
  /-- Constant `F2I_MIXER_ACTION_APPEND`. -/
  F2I_MIXER_ACTION_APPEND : Nat
  /-- Conversion of an integer to `float`; also the literals `0.0f`, `1.0f`, `600.0f`. -/
  ofInt : Int → F
  /-- Sum of two `float`s. -/
  fadd : F → F → F
  /-- Product of two `float`s. -/
  fmul : F → F → F
  /-- Quotient of two `float`s. -/
  fdiv : F → F → F
  /-- Comparison `a < b` of two `float`s. -/
  flt : F → F → Bool
  /-- Conversion of a `float` to `uint16_t`. -/
  toU16 : F → Nat
  /-- The macro `REG_TO_FLOAT`. -/
  REG_TO_FLOAT : Nat → F
  /-- The macro `FLOAT_TO_REG`. -/
  FLOAT_TO_REG : F → Nat
  /-- The test `pwm_limit.state == PWM_LIMIT_STATE_RAMP`. -/
  pwm_limit_ramp : L → Bool
  /-- The ramp limiter `pwm_limit_calc(armed, pre_armed, num_channels, reverse_mask,
  disarmed_pwm, min_pwm, max_pwm, output, effective_pwm, limit)`: the new
  `effective_pwm` and the new limiter state. -/
  pwm_limit_calc : Bool → Bool → Nat → Nat → (Nat → Nat) → (Nat → Nat) → (Nat → Nat) →
    (Nat → F) → (Nat → Nat) → L → (Nat → Nat) × L
  /-- The method `MixerGroup::mix(outputs, space, status_reg)` of a group built on
  the given control callback: the content of `outputs` afterwards, the number of
  outputs mixed and the content of `*status_reg` afterwards. The callback takes
  group, index and the present content of the control variable and gives its
  return value and the new content of the variable. -/
  mix : M → (Nat → Nat → F → Int × F) → Nat → Nat → (Nat → F) × Nat × Nat
  /-- The method `MixerGroup::reset()`. -/
  reset : M → M
  /-- The method `MixerGroup::load_from_buf(buf, buflen)`, `buf` pointing to the
  array given: the new group and the new value of `buflen`, the number of bytes
  left unparsed. -/
  load_from_buf : M → (Nat → Nat) → Nat → M × Nat

/-- The file-scope variables of `mixer.cpp` and the registers it shares. -/
structure MixerState (F M L : Type) where
  /-- Time of the last FMU data, `system_state.fmu_data_received_time`. -/
  fmu_data_received_time : Nat
  r_status_flags : Nat
  r_status_alarms : Nat
  r_setup_arming : Nat
  r_setup_features : Nat
  r_setup_pwm_reverse : Nat
  r_setup_trim_roll : Nat
  r_setup_trim_pitch : Nat
  r_setup_trim_yaw : Nat
  r_mixer_limits : Nat
  r_page_servos : Nat → Nat
  r_page_servo_failsafe : Nat → Nat
  r_page_servo_disarmed : Nat → Nat
  r_page_servo_control_min : Nat → Nat
  r_page_servo_control_max : Nat → Nat
  r_page_actuators : Nat → Nat
  r_page_controls : Nat → Nat
  r_page_rc_input : Nat → Nat
  mixer_servos_armed : Bool
  should_arm : Bool
  should_arm_nothrottle : Bool
  should_always_enable_pwm : Bool
  in_mixer : Bool
  source : mixer_source
  pwm_limit : L
  mixer_group : M
  /-- The array `mixer_text`, a map from index to byte. -/
  mixer_text : Nat → Nat
  mixer_text_length : Nat
  /-- Calls made to the collaborators so far, oldest first. -/
  trace : List Event

/-- The constant `NAN_VALUE`, `(0.0f/0.0f)`. -/
def NAN_VALUE {F M L : Type} (pf : Platform F M L) : F := pf.fdiv (pf.ofInt 0) (pf.ofInt 0)

/-- The loop `for (unsigned i = lo; i < hi; i++) body`. -/
def forLoop {σ : Type} (lo hi : Nat) (body : Nat → σ → σ) (s : σ) : σ :=
  (List.range' lo (hi - lo)).foldl (fun acc i => body i acc) s

/-- The first `n` elements of an array, as passed to a collaborator. -/
def page_list (page : Nat → Nat) (n : Nat) : List Nat := (List.range n).map page

section Operations

variable {F M L : Type} (pf : Platform F M L)

/-! ## `mixer_tick` -/

/-- Lines 66-83 of `mixer_tick`: check that fresh data is arriving from the FMU. -/
def tick_fmu_freshness (now : Nat) (st : MixerState F M L) : MixerState F M L :=
  if st.fmu_data_received_time == 0 ||
      decide (hrt_elapsed_time now st.fmu_data_received_time > FMU_INPUT_DROP_LIMIT_US) then
    { st with
      r_status_flags := clearFlag st.r_status_flags PX4IO_P_STATUS_FLAGS_FMU_OK
      r_status_alarms := setFlag st.r_status_alarms PX4IO_P_STATUS_ALARMS_FMU_LOST }
  else
    { st with
      r_status_flags :=
        setFlag (setFlag st.r_status_flags PX4IO_P_STATUS_FLAGS_FMU_OK)
          PX4IO_P_STATUS_FLAGS_FMU_INITIALIZED }

/-- Lines 85-129 of `mixer_tick`: decide which set of controls is used. -/
def tick_select_source (st : MixerState F M L) : MixerState F M L :=
  let st : MixerState F M L := { st with source := MIX_FAILSAFE }
  if hasFlag st.r_status_flags PX4IO_P_STATUS_FLAGS_RAW_PWM &&
      hasFlag st.r_status_flags PX4IO_P_STATUS_FLAGS_FMU_OK then
    { st with source := MIX_NONE }
  else
    let st : MixerState F M L :=
      if !hasFlag st.r_status_flags PX4IO_P_STATUS_FLAGS_OVERRIDE &&
          hasFlag st.r_status_flags PX4IO_P_STATUS_FLAGS_FMU_OK &&
          hasFlag st.r_status_flags PX4IO_P_STATUS_FLAGS_MIXER_OK then
        { st with source := MIX_FMU }
      else st
    if hasFlag st.r_status_flags PX4IO_P_STATUS_FLAGS_OVERRIDE &&
        hasFlag st.r_status_flags PX4IO_P_STATUS_FLAGS_RC_OK &&
        hasFlag st.r_status_flags PX4IO_P_STATUS_FLAGS_MIXER_OK &&
        !hasFlag st.r_setup_arming PX4IO_P_SETUP_ARMING_RC_HANDLING_DISABLED &&
        !hasFlag st.r_status_flags PX4IO_P_STATUS_FLAGS_FMU_OK &&
        !hasFlag st.r_setup_arming PX4IO_P_SETUP_ARMING_TERMINATION_FAILSAFE then
      { st with source := MIX_OVERRIDE }
    else if hasFlag st.r_status_flags PX4IO_P_STATUS_FLAGS_OVERRIDE &&
        hasFlag st.r_status_flags PX4IO_P_STATUS_FLAGS_RC_OK &&
        hasFlag st.r_status_flags PX4IO_P_STATUS_FLAGS_MIXER_OK &&
        !hasFlag st.r_setup_arming PX4IO_P_SETUP_ARMING_RC_HANDLING_DISABLED &&
        hasFlag st.r_status_flags PX4IO_P_STATUS_FLAGS_FMU_OK then
      { st with source := MIX_OVERRIDE_FMU_OK }
    else st

/-- Lines 131-157 of `mixer_tick`: decide whether the servos should be armed. -/
def tick_should_arm (st : MixerState F M L) : MixerState F M L :=
  { st with
    should_arm :=
      hasFlag st.r_status_flags PX4IO_P_STATUS_FLAGS_INIT_OK &&
      hasFlag st.r_status_flags PX4IO_P_STATUS_FLAGS_SAFETY_OFF &&
      ((hasFlag st.r_setup_arming PX4IO_P_SETUP_ARMING_FMU_ARMED &&
          hasFlag st.r_status_flags PX4IO_P_STATUS_FLAGS_MIXER_OK) ||
        hasFlag st.r_status_flags PX4IO_P_STATUS_FLAGS_RAW_PWM ||
        (hasFlag st.r_setup_arming PX4IO_P_SETUP_ARMING_FAILSAFE_CUSTOM &&
          !hasFlag st.r_status_flags PX4IO_P_STATUS_FLAGS_FMU_OK))
    should_arm_nothrottle :=
      hasFlag st.r_status_flags PX4IO_P_STATUS_FLAGS_INIT_OK &&
      hasFlag st.r_status_flags PX4IO_P_STATUS_FLAGS_SAFETY_OFF &&
      hasFlag st.r_status_flags PX4IO_P_STATUS_FLAGS_MIXER_OK
    should_always_enable_pwm :=
      hasFlag st.r_setup_arming PX4IO_P_SETUP_ARMING_ALWAYS_PWM_ENABLE &&
      hasFlag st.r_status_flags PX4IO_P_STATUS_FLAGS_INIT_OK &&
      hasFlag st.r_status_flags PX4IO_P_STATUS_FLAGS_FMU_OK }

/-- Lines 159-173 of `mixer_tick`: set the force failsafe flag once entering the
first failsafe condition with termination failsafe requested. -/
def tick_latch_failsafe (st : MixerState F M L) : MixerState F M L :=
  if hasFlag st.r_setup_arming PX4IO_P_SETUP_ARMING_TERMINATION_FAILSAFE &&
      decide (st.source = MIX_FAILSAFE) &&
      st.should_arm &&
      hasFlag st.r_status_flags PX4IO_P_STATUS_FLAGS_FMU_INITIALIZED then
    { st with r_setup_arming := setFlag st.r_setup_arming PX4IO_P_SETUP_ARMING_FORCE_FAILSAFE }
  else st

/-- Lines 175-180 of `mixer_tick`: force failsafe if the flag is set. -/
def tick_force_failsafe (st : MixerState F M L) : MixerState F M L :=
  if hasFlag st.r_setup_arming PX4IO_P_SETUP_ARMING_FORCE_FAILSAFE then
    { st with source := MIX_FAILSAFE }
  else st

/-- Lines 182-190 of `mixer_tick`: set the failsafe status flag depending on the
mixing source. -/
def tick_failsafe_flag (st : MixerState F M L) : MixerState F M L :=
  if st.source = MIX_FAILSAFE then
    { st with r_status_flags := setFlag st.r_status_flags PX4IO_P_STATUS_FLAGS_FAILSAFE }
  else
    { st with r_status_flags := clearFlag st.r_status_flags PX4IO_P_STATUS_FLAGS_FAILSAFE }

/-! ## `mixer_callback` -/

/-- The test `r_page_rc_input[PX4IO_P_RC_VALID] & (1 << CONTROL_PAGE_INDEX(group, index))`
of `mixer_callback`: the RC input is marked valid for this control. -/
def rc_valid (st : MixerState F M L) (control_group control_index : Nat) : Bool :=
  hasFlag (st.r_page_rc_input pf.PX4IO_P_RC_VALID)
    (BIT (pf.CONTROL_PAGE_INDEX control_group control_index))

/-- Lines 304-339 of `mixer_callback`, the `switch (source)`: `Except.ok` is a
`break` with the new content of `control`, `Except.error` is a `return` with the
return value and the content of `control` at that point. -/
def callback_switch (st : MixerState F M L) (control_group control_index : Nat) (control : F) :
    Except (Int × F) F :=
  match st.source with
  | MIX_FMU =>
    if control_index < pf.PX4IO_CONTROL_CHANNELS && control_group < pf.PX4IO_CONTROL_GROUPS then
      .ok (pf.REG_TO_FLOAT (st.r_page_controls (pf.CONTROL_PAGE_INDEX control_group control_index)))
    else .error (-1, control)
  | MIX_OVERRIDE =>
    if rc_valid pf st control_group control_index then
      .ok (pf.REG_TO_FLOAT (st.r_page_rc_input (pf.PX4IO_P_RC_BASE + control_index)))
    else .error (-1, control)
  | MIX_OVERRIDE_FMU_OK =>
    if rc_valid pf st control_group control_index then
      .ok (pf.REG_TO_FLOAT (st.r_page_rc_input (pf.PX4IO_P_RC_BASE + control_index)))
    else if control_index < pf.PX4IO_CONTROL_CHANNELS &&
        control_group < pf.PX4IO_CONTROL_GROUPS then
      .ok (pf.REG_TO_FLOAT (st.r_page_controls (pf.CONTROL_PAGE_INDEX control_group control_index)))
    else .error (-1, control)
  | MIX_FAILSAFE => .error (-1, pf.ofInt 0)
  | MIX_NONE => .error (-1, pf.ofInt 0)

/-- Lines 341-355 of `mixer_callback`: apply trim offsets for override channels. -/
def callback_trim (st : MixerState F M L) (control_group control_index : Nat) (control : F) : F :=
  if st.source = MIX_OVERRIDE ∨ st.source = MIX_OVERRIDE_FMU_OK then
    if control_group = pf.GROUP_INDEX_ATTITUDE ∧ control_index = pf.INDEX_ROLL then
      pf.fadd control (pf.REG_TO_FLOAT st.r_setup_trim_roll)
    else if control_group = pf.GROUP_INDEX_ATTITUDE ∧ control_index = pf.INDEX_PITCH then
      pf.fadd control (pf.REG_TO_FLOAT st.r_setup_trim_pitch)
    else if control_group = pf.GROUP_INDEX_ATTITUDE ∧ control_index = pf.INDEX_YAW then
      pf.fadd control (pf.REG_TO_FLOAT st.r_setup_trim_yaw)
    else control
  else control

/-- Lines 357-363 of `mixer_callback`: limit the output; `control > 1.0f` is
`1.0f < control`. -/
def callback_limit (control : F) : F :=
  if pf.flt (pf.ofInt 1) control then pf.ofInt 1
  else if pf.flt control (pf.ofInt (-1)) then pf.ofInt (-1)
  else control

/-- Lines 365-374 of `mixer_callback`: lock the throttle to zero in the motor
spinup phase. -/
def callback_spinup (st : MixerState F M L) (control_group control_index : Nat) (control : F) : F :=
  if pf.pwm_limit_ramp st.pwm_limit || (st.should_arm_nothrottle && !st.should_arm) then
    if control_group = pf.GROUP_INDEX_ATTITUDE ∧ control_index = pf.INDEX_THROTTLE then pf.ofInt 0
    else control
  else control

/-- Lines 376-383 of `mixer_callback`: only safety off, but not armed; the
throttle is set as invalid. -/
def callback_invalid (st : MixerState F M L) (control_group control_index : Nat) (control : F) : F :=
  if st.should_arm_nothrottle && !st.should_arm then
    if control_group = pf.GROUP_INDEX_ATTITUDE ∧ control_index = pf.INDEX_THROTTLE then
      NAN_VALUE pf
    else control
  else control

/-- Lines 341-383 of `mixer_callback`, what follows the `switch`: trim, limit,
throttle lock during spinup, invalid throttle. -/
def callback_shape (st : MixerState F M L) (control_group control_index : Nat) (control : F) : F :=
  let control := callback_trim pf st control_group control_index control
  let control := callback_limit pf control
  let control := callback_spinup pf st control_group control_index control
  callback_invalid pf st control_group control_index control

/-- The function `mixer_callback(handle, control_group, control_index, control)`:
the return value and the content of the reference parameter `control` on return,
from the group, the index and the content of `control` on entry. -/
def mixer_callback (st : MixerState F M L) (control_group control_index : Nat) (control : F) :
    Int × F :=
  if control_group ≥ pf.PX4IO_CONTROL_GROUPS then (-1, control)
  else
    match callback_switch pf st control_group control_index control with
    | .error r => r
    | .ok control => (0, callback_shape pf st control_group control_index control)

/-! ## `mixer_tick`, continued -/

/-- Lines 198-203 of `mixer_tick`, the body of the loop copying the failsafe values
to the servo outputs. -/
def failsafe_copy_body (i : Nat) (st : MixerState F M L) : MixerState F M L :=
  let st : MixerState F M L := { st with r_page_servos := Function.update st.r_page_servos i (st.r_page_servo_failsafe i) }
  { st with
    r_page_actuators := Function.update st.r_page_actuators i
      (pf.FLOAT_TO_REG (pf.fdiv (pf.ofInt ((st.r_page_servos i : Int) - 1500)) (pf.ofInt 600))) }

/-- Lines 224-227 of `mixer_tick`, the body of the loop clamping unused outputs to
zero; the loop runs on the servo page and on the local array `outputs`. -/
def clamp_unused_body (i : Nat) (acc : MixerState F M L × (Nat → F)) :
    MixerState F M L × (Nat → F) :=
  ({ acc.1 with r_page_servos := Function.update acc.1.r_page_servos i 0 },
    Function.update acc.2 i (pf.ofInt 0))

/-- Lines 230-232 of `mixer_tick`, the body of the loop storing the normalized
outputs. -/
def store_actuators_body (outputs : Nat → F) (i : Nat) (st : MixerState F M L) :
    MixerState F M L :=
  { st with r_page_actuators := Function.update st.r_page_actuators i (pf.FLOAT_TO_REG (outputs i)) }

/-- Lines 192-233 of `mixer_tick`: run the mixers. -/
def tick_run_mixers (st : MixerState F M L) : MixerState F M L :=
  if st.source = MIX_FAILSAFE then
    forLoop 0 pf.PX4IO_SERVO_COUNT (failsafe_copy_body pf) st
  else if decide (st.source ≠ MIX_NONE) &&
      hasFlag st.r_status_flags PX4IO_P_STATUS_FLAGS_MIXER_OK &&
      !hasFlag st.r_setup_arming PX4IO_P_SETUP_ARMING_LOCKDOWN then
    let st : MixerState F M L := { st with in_mixer := true }
    let r := pf.mix st.mixer_group (mixer_callback pf st) pf.PX4IO_SERVO_COUNT st.r_mixer_limits
    let outputs := r.1
    let mixed := r.2.1
    let st : MixerState F M L := { st with r_mixer_limits := r.2.2, trace := st.trace ++ [Event.mix] }
    let st : MixerState F M L := { st with in_mixer := false }
    let p := pf.pwm_limit_calc st.should_arm st.should_arm_nothrottle mixed st.r_setup_pwm_reverse
      st.r_page_servo_disarmed st.r_page_servo_control_min st.r_page_servo_control_max outputs
      st.r_page_servos st.pwm_limit
    let st : MixerState F M L := { st with r_page_servos := p.1, pwm_limit := p.2 }
    let acc := forLoop mixed pf.PX4IO_SERVO_COUNT (clamp_unused_body pf) (st, outputs)
    forLoop 0 pf.PX4IO_SERVO_COUNT (store_actuators_body pf acc.2) acc.1
  else st

/-- Lines 235-256 of `mixer_tick`: set arming. -/
def tick_set_arming (st : MixerState F M L) : MixerState F M L :=
  let needs_to_arm := st.should_arm || st.should_arm_nothrottle || st.should_always_enable_pwm
  let needs_to_arm :=
    if hasFlag st.r_setup_arming PX4IO_P_SETUP_ARMING_LOCKDOWN then true else needs_to_arm
  if needs_to_arm && !st.mixer_servos_armed then
    { st with
      trace := st.trace ++ [Event.up_pwm_servo_arm true]
      mixer_servos_armed := true
      r_status_flags := setFlag st.r_status_flags PX4IO_P_STATUS_FLAGS_OUTPUTS_ARMED }
  else if !needs_to_arm && st.mixer_servos_armed then
    { st with
      trace := st.trace ++ [Event.up_pwm_servo_arm false]
      mixer_servos_armed := false
      r_status_flags := clearFlag st.r_status_flags PX4IO_P_STATUS_FLAGS_OUTPUTS_ARMED }
  else st

/-- Lines 261-263 of `mixer_tick`, the body of the loop updating the servo outputs. -/
def servo_set_body (i : Nat) (st : MixerState F M L) : MixerState F M L :=
  { st with trace := st.trace ++ [Event.up_pwm_servo_set i (st.r_page_servos i)] }

/-- Lines 277-281 of `mixer_tick`, the body of the loop setting the disarmed servo
outputs and copying them into the reporting register. -/
def servo_disarmed_body (i : Nat) (st : MixerState F M L) : MixerState F M L :=
  { st with
    trace := st.trace ++ [Event.up_pwm_servo_set i (st.r_page_servo_disarmed i)]
    r_page_servos := Function.update st.r_page_servos i (st.r_page_servo_disarmed i) }

/-- Lines 258-291 of `mixer_tick`: write the outputs. -/
def tick_write_outputs (st : MixerState F M L) : MixerState F M L :=
  if st.mixer_servos_armed && (st.should_arm || st.should_arm_nothrottle) &&
      !hasFlag st.r_setup_arming PX4IO_P_SETUP_ARMING_LOCKDOWN then
    let st : MixerState F M L := forLoop 0 pf.PX4IO_SERVO_COUNT servo_set_body st
    if hasFlag st.r_setup_features PX4IO_P_SETUP_FEATURES_SBUS2_OUT then
      { st with
        trace := st.trace ++ [Event.sbus2_output (page_list st.r_page_servos pf.PX4IO_SERVO_COUNT)] }
    else if hasFlag st.r_setup_features PX4IO_P_SETUP_FEATURES_SBUS1_OUT then
      { st with
        trace := st.trace ++ [Event.sbus1_output (page_list st.r_page_servos pf.PX4IO_SERVO_COUNT)] }
    else st
  else if st.mixer_servos_armed &&
      (st.should_always_enable_pwm || hasFlag st.r_setup_arming PX4IO_P_SETUP_ARMING_LOCKDOWN) then
    let st : MixerState F M L := forLoop 0 pf.PX4IO_SERVO_COUNT servo_disarmed_body st
    let st : MixerState F M L :=
      if hasFlag st.r_setup_features PX4IO_P_SETUP_FEATURES_SBUS1_OUT then
        { st with
          trace := st.trace ++
            [Event.sbus1_output (page_list st.r_page_servo_disarmed pf.PX4IO_SERVO_COUNT)] }
      else st
    if hasFlag st.r_setup_features PX4IO_P_SETUP_FEATURES_SBUS2_OUT then
      { st with
        trace := st.trace ++
          [Event.sbus2_output (page_list st.r_page_servo_disarmed pf.PX4IO_SERVO_COUNT)] }
    else st
  else st

/-- The state of `mixer_tick` after line 157: freshness checked, source selected by
the arbiter, arming decisions taken; the force failsafe latch comes next. -/
def tick_arbitrated (now : Nat) (st : MixerState F M L) : MixerState F M L :=
  tick_should_arm (tick_select_source (tick_fmu_freshness now st))

/-- The state of `mixer_tick` after line 190: the force failsafe latch is handled,
the source is final and the FAILSAFE status flag mirrors it; the mixers run next. -/
def tick_before_mixing (now : Nat) (st : MixerState F M L) : MixerState F M L :=
  tick_failsafe_flag (tick_force_failsafe (tick_latch_failsafe (tick_arbitrated now st)))

/-- The function `mixer_tick()`, run at time `now` of the high resolution timer. -/
def mixer_tick (now : Nat) (st : MixerState F M L) : MixerState F M L :=
  let st : MixerState F M L := tick_fmu_freshness now st
  let st : MixerState F M L := tick_select_source st
  let st : MixerState F M L := tick_should_arm st
  let st : MixerState F M L := tick_latch_failsafe st
  let st : MixerState F M L := tick_force_failsafe st
  let st : MixerState F M L := tick_failsafe_flag st
  let st : MixerState F M L := tick_run_mixers pf st
  let st : MixerState F M L := tick_set_arming st
  tick_write_outputs pf st

/-! ## `mixer_handle_text` -/

/-- The size of the array `mixer_text`, `sizeof(mixer_text)`. -/
def sizeof_mixer_text : Nat := 200

/-- The libc call `memcpy(&buf[dst], src, n)` from memory outside `buf`, a byte
by byte copy. -/
def memcpy (buf : Nat → Nat) (dst : Nat) (src : Nat → Nat) (n : Nat) : Nat → Nat :=
  forLoop 0 n (fun i b => Function.update b (dst + i) (src i)) buf

/-- The libc call `memcpy(&buf[dst], &buf[src], n)` inside one array, a byte by
byte copy from the lowest address on. -/
def memcpy_within (buf : Nat → Nat) (dst src n : Nat) : Nat → Nat :=
  forLoop 0 n (fun i b => Function.update b (dst + i) (b (src + i))) buf

/-- Lines 433-465 of `mixer_handle_text`, the case `F2I_MIXER_ACTION_APPEND`,
which the case `F2I_MIXER_ACTION_RESET` falls through to. `unsigned` is 32 bits
wide. -/
def handle_text_append (buffer : List Nat) (text_length : Nat) (st : MixerState F M L) :
    Int × MixerState F M L :=
  if (st.mixer_text_length + text_length + 1) % 2 ^ 32 > sizeof_mixer_text then
    (0, { st with r_status_flags := clearFlag st.r_status_flags PX4IO_P_STATUS_FLAGS_MIXER_OK })
  else
    let st : MixerState F M L := { st with
      mixer_text := memcpy st.mixer_text st.mixer_text_length
        (fun i => (pf.msg_text buffer).getD i 0) text_length }
    let st : MixerState F M L := { st with
      mixer_text_length := (st.mixer_text_length + text_length) % 2 ^ 32 }
    let st : MixerState F M L := { st with
      mixer_text := Function.update st.mixer_text st.mixer_text_length 0 }
    let resid := st.mixer_text_length
    let r := pf.load_from_buf st.mixer_group st.mixer_text resid
    let st : MixerState F M L := { st with
      mixer_group := r.1
      trace := st.trace ++ [Event.load_from_buf (page_list st.mixer_text (resid + 1)) resid] }
    let resid := r.2
    if resid ≠ st.mixer_text_length then
      let st : MixerState F M L :=
        if resid > 0 then
          { st with
            mixer_text := memcpy_within st.mixer_text 0
              ((st.mixer_text_length + 2 ^ 32 - resid) % 2 ^ 32) resid }
        else st
      (0, { st with mixer_text_length := resid })
    else (0, st)

/-- The function `mixer_handle_text(buffer, length)`: the return value and the new
state. `length` is the length of the whole message, header included. -/
def mixer_handle_text (buffer : List Nat) (length : Nat) (st : MixerState F M L) :
    Int × MixerState F M L :=
  if hasFlag st.r_status_flags PX4IO_P_STATUS_FLAGS_SAFETY_OFF &&
      hasFlag st.r_setup_arming PX4IO_P_SETUP_ARMING_FMU_ARMED then
    (1, st)
  else
    let st : MixerState F M L := { st with
      r_status_flags := clearFlag st.r_status_flags PX4IO_P_STATUS_FLAGS_MIXER_OK }
    if st.in_mixer then (1, st)
    else if length < pf.sizeof_px4io_mixdata then (0, st)
    else
      let text_length := (length - pf.sizeof_px4io_mixdata) % 2 ^ 32
      if pf.msg_action buffer = pf.F2I_MIXER_ACTION_RESET then
        let st : MixerState F M L := { st with
          mixer_group := pf.reset st.mixer_group
          trace := st.trace ++ [Event.reset] }
        let st : MixerState F M L := { st with mixer_text_length := 0 }
        handle_text_append pf buffer text_length st
      else if pf.msg_action buffer = pf.F2I_MIXER_ACTION_APPEND then
        handle_text_append pf buffer text_length st
      else (0, st)

/-! ## `mixer_set_failsafe` -/

/-- Lines 492-497 of `mixer_set_failsafe`, the body of the loop scaling the
outputs to PWM. -/
def failsafe_scale_body (outputs : Nat → F) (i : Nat) (st : MixerState F M L) :
    MixerState F M L :=
  { st with
    r_page_servo_failsafe := Function.update st.r_page_servo_failsafe i
      (pf.toU16 (pf.fadd (pf.fmul (outputs i) (pf.ofInt 600)) (pf.ofInt 1500))) }

/-- Lines 500-502 of `mixer_set_failsafe`, the body of the loop disabling the rest
of the outputs. -/
def failsafe_disable_body (i : Nat) (st : MixerState F M L) : MixerState F M L :=
  { st with r_page_servo_failsafe := Function.update st.r_page_servo_failsafe i 0 }

/-- The function `mixer_set_failsafe()`. -/
def mixer_set_failsafe (st : MixerState F M L) : MixerState F M L :=
  if hasFlag st.r_setup_arming PX4IO_P_SETUP_ARMING_FAILSAFE_CUSTOM ||
      !hasFlag st.r_status_flags PX4IO_P_STATUS_FLAGS_MIXER_OK then
    st
  else
    let r := pf.mix st.mixer_group (mixer_callback pf st) pf.PX4IO_SERVO_COUNT st.r_mixer_limits
    let outputs := r.1
    let mixed := r.2.1
    let st : MixerState F M L := { st with
      r_mixer_limits := r.2.2
      trace := st.trace ++ [Event.mix] }
    let st : MixerState F M L := forLoop 0 mixed (failsafe_scale_body pf outputs) st
    forLoop mixed pf.PX4IO_SERVO_COUNT failsafe_disable_body st

end Operations

/-! ## The arbitration order as the specification words it -/

/-- The condition under which the specification selects `MIX_OVERRIDE`. -/
def spec_override_condition (status arming : Nat) : Bool :=
  hasFlag status PX4IO_P_STATUS_FLAGS_OVERRIDE &&
  hasFlag status PX4IO_P_STATUS_FLAGS_RC_OK &&
  hasFlag status PX4IO_P_STATUS_FLAGS_MIXER_OK &&
  !hasFlag arming PX4IO_P_SETUP_ARMING_RC_HANDLING_DISABLED &&
  !hasFlag status PX4IO_P_STATUS_FLAGS_FMU_OK &&
  !hasFlag arming PX4IO_P_SETUP_ARMING_TERMINATION_FAILSAFE

/-- The condition under which the specification selects `MIX_OVERRIDE_FMU_OK`. -/
def spec_override_fmu_ok_condition (status arming : Nat) : Bool :=
  hasFlag status PX4IO_P_STATUS_FLAGS_OVERRIDE &&
  hasFlag status PX4IO_P_STATUS_FLAGS_RC_OK &&
  hasFlag status PX4IO_P_STATUS_FLAGS_MIXER_OK &&
  !hasFlag arming PX4IO_P_SETUP_ARMING_RC_HANDLING_DISABLED &&
  hasFlag status PX4IO_P_STATUS_FLAGS_FMU_OK

/-- The source the specification selects from the status and arming flags: the
first of NONE, FMU, OVERRIDE, OVERRIDE_FMU_OK whose condition holds, FAILSAFE when
none does. -/
def spec_select_source (status arming : Nat) : mixer_source :=
  if hasFlag status PX4IO_P_STATUS_FLAGS_RAW_PWM && hasFlag status PX4IO_P_STATUS_FLAGS_FMU_OK then
    MIX_NONE
  else if !hasFlag status PX4IO_P_STATUS_FLAGS_OVERRIDE &&
      hasFlag status PX4IO_P_STATUS_FLAGS_FMU_OK &&
      hasFlag status PX4IO_P_STATUS_FLAGS_MIXER_OK then
    MIX_FMU
  else if spec_override_condition status arming then MIX_OVERRIDE
  else if spec_override_fmu_ok_condition status arming then MIX_OVERRIDE_FMU_OK
  else MIX_FAILSAFE

/-! ## Sequences of operations -/

/-- The latch FMU_INITIALIZED of the status register is set. -/
def fmu_initialized {F M L : Type} (st : MixerState F M L) : Bool :=
  hasFlag st.r_status_flags PX4IO_P_STATUS_FLAGS_FMU_INITIALIZED

/-- The latch FORCE_FAILSAFE of the arming register is set. -/
def force_failsafe {F M L : Type} (st : MixerState F M L) : Bool :=
  hasFlag st.r_setup_arming PX4IO_P_SETUP_ARMING_FORCE_FAILSAFE

/-- An operation of the core, or a write by the rest of the firmware between two
operations of the core. -/
inductive CoreOp where
  | tick (now : Nat)
  | handle_text (buffer : List Nat) (length : Nat)
  | set_failsafe
  | environment (status arming received_time : Nat)

/-- A write by the rest of the firmware: the FMU timestamp and every bit of the
status and arming registers take the new values given, except the two latches
FMU_INITIALIZED and FORCE_FAILSAFE, which keep their value. -/
def environment_write {F M L : Type} (status arming received_time : Nat)
    (st : MixerState F M L) : MixerState F M L :=
  { st with
    fmu_data_received_time := received_time
    r_status_flags :=
      if fmu_initialized st then setFlag status PX4IO_P_STATUS_FLAGS_FMU_INITIALIZED
      else clearFlag status PX4IO_P_STATUS_FLAGS_FMU_INITIALIZED
    r_setup_arming :=
      if force_failsafe st then setFlag arming PX4IO_P_SETUP_ARMING_FORCE_FAILSAFE
      else clearFlag arming PX4IO_P_SETUP_ARMING_FORCE_FAILSAFE }

/-- The state after one operation. -/
def run_op {F M L : Type} (pf : Platform F M L) (op : CoreOp) (st : MixerState F M L) :
    MixerState F M L :=
  match op with
  | .tick now => mixer_tick pf now st
  | .handle_text buffer length => (mixer_handle_text pf buffer length st).2
  | .set_failsafe => mixer_set_failsafe pf st
  | .environment status arming received_time => environment_write status arming received_time st

/-- The state after a sequence of operations, run from left to right. -/
def run_ops {F M L : Type} (pf : Platform F M L) (ops : List CoreOp) (st : MixerState F M L) :
    MixerState F M L :=
  ops.foldl (fun s op => run_op pf op s) st

/-! ## A reference platform

A small concrete platform on which the operations can be evaluated: `float`
values are exact multiples of 1/10000 or NaN, the mixer group is the list of the
controls it reads and passes through, the limiter has no state. -/

/-- A `float` of the reference platform: `none` is NaN, `some n` is `n / 10000`. -/
abbrev RefFloat : Type := Option Int

/-- Lifting of an integer operation to `RefFloat`; NaN is absorbing. -/
def refLift (f : Int → Int → Int) (a b : RefFloat) : RefFloat :=
  match a, b with
  | some x, some y => some (f x y)
  | _, _ => none

/-- The reference platform. -/
def refPlatform : Platform RefFloat (List (Nat × Nat)) Bool where
  PX4IO_SERVO_COUNT := 8
  PX4IO_CONTROL_CHANNELS := 8
  PX4IO_CONTROL_GROUPS := 4
  PX4IO_P_RC_VALID := 1
  PX4IO_P_RC_BASE := 6
  CONTROL_PAGE_INDEX := fun g c => g * 8 + c
  GROUP_INDEX_ATTITUDE := 0
  INDEX_ROLL := 0
  INDEX_PITCH := 1
  INDEX_YAW := 2
  INDEX_THROTTLE := 3
  sizeof_px4io_mixdata := 3
  msg_action := fun b => b.getD 2 0
  msg_text := fun b => b.drop 3
  F2I_MIXER_ACTION_RESET := 0
  F2I_MIXER_ACTION_APPEND := 1
  ofInt := fun n => some (n * 10000)
  fadd := refLift (fun x y => x + y)
  fmul := refLift (fun x y => x * y / 10000)
  fdiv := fun a b =>
    match a, b with
    | some x, some y => if y = 0 then none else some (x * 10000 / y)
    | _, _ => none
  flt := fun a b =>
    match a, b with
    | some x, some y => decide (x < y)
    | _, _ => false
  toU16 := fun a =>
    match a with
    | some x => (x / 10000).toNat % 65536
    | none => 0
  REG_TO_FLOAT := fun r => some (if r % 65536 < 32768 then (r % 65536 : Int) else (r % 65536 : Int) - 65536)
  FLOAT_TO_REG := fun a =>
    match a with
    | some x => (x % 65536).toNat
    | none => 0
  pwm_limit_ramp := fun l => l
  pwm_limit_calc := fun _ _ _ _ _ _ _ _ eff l => (eff, l)
  mix := fun m cb space limits =>
    (fun i => ((m.getD i (0, 0)) |> fun gc => (cb gc.1 gc.2 (some 0)).2), min m.length space, limits)
  reset := fun _ => []
  load_from_buf := fun m _ n => (m, n)

/-- A state of the reference platform with the given flag registers, everything
else zero. -/
def refState (status arming : Nat) : MixerState RefFloat (List (Nat × Nat)) Bool where
  fmu_data_received_time := 0
  r_status_flags := status
  r_status_alarms := 0
  r_setup_arming := arming
  r_setup_features := 0
  r_setup_pwm_reverse := 0
  r_setup_trim_roll := 0
  r_setup_trim_pitch := 0
  r_setup_trim_yaw := 0
  r_mixer_limits := 0
  r_page_servos := fun _ => 0
  r_page_servo_failsafe := fun _ => 0
  r_page_servo_disarmed := fun _ => 0
  r_page_servo_control_min := fun _ => 0
  r_page_servo_control_max := fun _ => 0
  r_page_actuators := fun _ => 0
  r_page_controls := fun _ => 0
  r_page_rc_input := fun _ => 0
  mixer_servos_armed := false
  should_arm := false
  should_arm_nothrottle := false
  should_always_enable_pwm := false
  in_mixer := false
  source := MIX_NONE
  pwm_limit := false
  mixer_group := []
  mixer_text := fun _ => 0
  mixer_text_length := 0
  trace := []

/-- The calls `later` makes on top of those of `earlier` all satisfy `P`: the trace
of `later` is the trace of `earlier` followed by events satisfying `P`. -/
def TraceAdds {F M L : Type} (P : Event → Prop) (earlier later : MixerState F M L) : Prop :=
  ∃ evs : List Event, later.trace = earlier.trace ++ evs ∧ ∀ e ∈ evs, P e

/-- A state of the reference platform in lockdown, with failsafe values 1000 and
disarmed values 900 on every channel. -/
def refLockdownState : MixerState RefFloat (List (Nat × Nat)) Bool :=
  { refState 0 PX4IO_P_SETUP_ARMING_LOCKDOWN with
    r_page_servo_failsafe := fun _ => 1000
    r_page_servo_disarmed := fun _ => 900 }

/-- A state of the reference platform with the failsafe values 1000 on every
channel and all flags clear. -/
def refFailsafeState : MixerState RefFloat (List (Nat × Nat)) Bool :=
  { refState 0 0 with r_page_servo_failsafe := fun _ => 1000 }

/-- A state of the reference platform with FORCE_FAILSAFE latched, the mixer
loaded and FMU data received at time 100. -/
def refForcedState : MixerState RefFloat (List (Nat × Nat)) Bool :=
  { refState PX4IO_P_STATUS_FLAGS_MIXER_OK PX4IO_P_SETUP_ARMING_FORCE_FAILSAFE with
    fmu_data_received_time := 100 }

/-- A state of the reference platform with the mixer loaded, nothing armed and FMU
data received at time 100. -/
def refFreshState : MixerState RefFloat (List (Nat × Nat)) Bool :=
  { refState PX4IO_P_STATUS_FLAGS_MIXER_OK 0 with fmu_data_received_time := 100 }

/-- A state of the reference platform in flight: safety off and FMU armed, with
the mixer loaded. -/
def refInFlightState : MixerState RefFloat (List (Nat × Nat)) Bool :=
  refState (PX4IO_P_STATUS_FLAGS_SAFETY_OFF ||| PX4IO_P_STATUS_FLAGS_MIXER_OK)
    PX4IO_P_SETUP_ARMING_FMU_ARMED

/-- A state of the reference platform with the mixer loaded and a mix executing. -/
def refMixingState : MixerState RefFloat (List (Nat × Nat)) Bool :=
  { refState PX4IO_P_STATUS_FLAGS_MIXER_OK 0 with in_mixer := true }

/-! ## Messages of the mixer text loader -/

/-- The message passes the guards of `mixer_handle_text` (lines 401-420): the
hardware is not safety off with the FMU armed, no mix is executing and the
message holds a whole header. -/
def passes_guards {F M L : Type} (pf : Platform F M L) (length : Nat) (st : MixerState F M L) :
    Prop :=
  ¬ (hasFlag st.r_status_flags PX4IO_P_STATUS_FLAGS_SAFETY_OFF = true ∧
      hasFlag st.r_setup_arming PX4IO_P_SETUP_ARMING_FMU_ARMED = true) ∧
  st.in_mixer = false ∧ pf.sizeof_px4io_mixdata ≤ length

/-- The length of the payload of a message of the given length, `text_length` of
line 422. -/
def payload_length {F M L : Type} (pf : Platform F M L) (length : Nat) : Nat :=
  (length - pf.sizeof_px4io_mixdata) % 2 ^ 32

/-- The payload of a message: the first `text_length` bytes of its field `text`. -/
def payload {F M L : Type} (pf : Platform F M L) (buffer : List Nat) (length : Nat) : List Nat :=
  (List.range (payload_length pf length)).map (fun i => (pf.msg_text buffer).getD i 0)

/-- A message of the reference platform with the given action and payload: two
bytes of magic, the action, the text. -/
def refMessage (action : Nat) (text : List Nat) : List Nat := [0, 0, action] ++ text

/-- A state of the reference platform with the mixer loaded and 150 bytes of
text, all `B`, waiting in the text buffer. -/
def refBufferedState : MixerState RefFloat (List (Nat × Nat)) Bool :=
  { refState PX4IO_P_STATUS_FLAGS_MIXER_OK 0 with
    mixer_text := fun i => if i < 150 then 66 else 0
    mixer_text_length := 150 }

/-- The array `mixer_text` as the parser receives it (lines 443-445), when the
payload fits: the first `text_length` bytes of the text of the message copied
behind the text waiting in the buffer, then the terminator. -/
def parser_text {F M L : Type} (pf : Platform F M L) (buffer : List Nat) (text_length : Nat)
    (st : MixerState F M L) : Nat → Nat :=
  Function.update
    (memcpy st.mixer_text st.mixer_text_length (fun i => (pf.msg_text buffer).getD i 0)
      text_length)
    (st.mixer_text_length + text_length) 0

/-- The text waiting in the buffer: the first `mixer_text_length` bytes of
`mixer_text`. -/
def buffer_text {F M L : Type} (st : MixerState F M L) : List Nat :=
  page_list st.mixer_text st.mixer_text_length

/-- The call of the parser at line 450 for a message whose payload fits, and its
result: the new mixer group and the number of bytes left unparsed. -/
def parse_result {F M L : Type} (pf : Platform F M L) (buffer : List Nat) (length : Nat)
    (st : MixerState F M L) : M × Nat :=
  pf.load_from_buf st.mixer_group (parser_text pf buffer (payload_length pf length) st)
    (st.mixer_text_length + payload_length pf length)

/-! ## The calls an operation makes -/

/-- The calls to the collaborators that `mixer_tick` makes: what it adds to the
trace. -/
def tick_events {F M L : Type} (pf : Platform F M L) (now : Nat) (st : MixerState F M L) :
    List Event :=
  (mixer_tick pf now st).trace.drop st.trace.length

/-- The arguments of the calls of `up_pwm_servo_arm` among the events, in order. -/
def arm_calls (evs : List Event) : List Bool :=
  evs.filterMap (fun e => match e with
    | .up_pwm_servo_arm armed => some armed
    | _ => none)

/-- The channel and value of the calls of `up_pwm_servo_set` among the events, in
order. -/
def servo_writes (evs : List Event) : List (Nat × Nat) :=
  evs.filterMap (fun e => match e with
    | .up_pwm_servo_set channel value => some (channel, value)
    | _ => none)

/-- The values passed to the calls of `sbus1_output` among the events, in order. -/
def sbus1_calls (evs : List Event) : List (List Nat) :=
  evs.filterMap (fun e => match e with
    | .sbus1_output values => some values
    | _ => none)

/-- The values passed to the calls of `sbus2_output` among the events, in order. -/
def sbus2_calls (evs : List Event) : List (List Nat) :=
  evs.filterMap (fun e => match e with
    | .sbus2_output values => some values
    | _ => none)

/-- The number of calls of `mixer_group.mix` among the events. -/
def mix_calls (evs : List Event) : Nat := evs.count Event.mix

/-- The text lengths passed to the calls of `load_from_buf` among the events, in
order; each is also the index at which the terminator was written. -/
def parser_calls (evs : List Event) : List Nat :=
  evs.filterMap (fun e => match e with
    | .load_from_buf _ length => some length
    | _ => none)

/-- The calls `tick_run_mixers` makes: one call of `mix` when the mixers run. -/
def run_mixers_events {F M L : Type} (st : MixerState F M L) : List Event :=
  if st.source ≠ MIX_FAILSAFE ∧
      (decide (st.source ≠ MIX_NONE) &&
        hasFlag st.r_status_flags PX4IO_P_STATUS_FLAGS_MIXER_OK &&
        !hasFlag st.r_setup_arming PX4IO_P_SETUP_ARMING_LOCKDOWN) = true then
    [Event.mix]
  else []

/-- The calls `tick_set_arming` makes: one call of `up_pwm_servo_arm` on an edge. -/
def set_arming_events {F M L : Type} (st : MixerState F M L) : List Event :=
  if ((if hasFlag st.r_setup_arming PX4IO_P_SETUP_ARMING_LOCKDOWN then true
        else st.should_arm || st.should_arm_nothrottle || st.should_always_enable_pwm) &&
      !st.mixer_servos_armed) = true then
    [Event.up_pwm_servo_arm true]
  else if (!(if hasFlag st.r_setup_arming PX4IO_P_SETUP_ARMING_LOCKDOWN then true
        else st.should_arm || st.should_arm_nothrottle || st.should_always_enable_pwm) &&
      st.mixer_servos_armed) = true then
    [Event.up_pwm_servo_arm false]
  else []

/-- The calls `tick_write_outputs` makes. -/
def write_outputs_events {F M L : Type} (pf : Platform F M L) (st : MixerState F M L) :
    List Event :=
  if (st.mixer_servos_armed && (st.should_arm || st.should_arm_nothrottle) &&
      !hasFlag st.r_setup_arming PX4IO_P_SETUP_ARMING_LOCKDOWN) = true then
    (List.range pf.PX4IO_SERVO_COUNT).map (fun i => Event.up_pwm_servo_set i (st.r_page_servos i))
      ++ (if hasFlag st.r_setup_features PX4IO_P_SETUP_FEATURES_SBUS2_OUT then
            [Event.sbus2_output (page_list st.r_page_servos pf.PX4IO_SERVO_COUNT)]
          else if hasFlag st.r_setup_features PX4IO_P_SETUP_FEATURES_SBUS1_OUT then
            [Event.sbus1_output (page_list st.r_page_servos pf.PX4IO_SERVO_COUNT)]
          else [])
  else if (st.mixer_servos_armed &&
      (st.should_always_enable_pwm ||
        hasFlag st.r_setup_arming PX4IO_P_SETUP_ARMING_LOCKDOWN)) = true then
    (List.range pf.PX4IO_SERVO_COUNT).map
        (fun i => Event.up_pwm_servo_set i (st.r_page_servo_disarmed i))
      ++ (if hasFlag st.r_setup_features PX4IO_P_SETUP_FEATURES_SBUS1_OUT then
            [Event.sbus1_output (page_list st.r_page_servo_disarmed pf.PX4IO_SERVO_COUNT)]
          else [])
      ++ (if hasFlag st.r_setup_features PX4IO_P_SETUP_FEATURES_SBUS2_OUT then
            [Event.sbus2_output (page_list st.r_page_servo_disarmed pf.PX4IO_SERVO_COUNT)]
          else [])
  else []

/-! ## The bound of the text buffer -/

/-- The parser never reports more unconsumed bytes than it was given. -/
def parser_bounded {F M L : Type} (pf : Platform F M L) : Prop :=
  ∀ (m : M) (text : Nat → Nat) (n : Nat), (pf.load_from_buf m text n).2 ≤ n

/-- The sum of line 437 cannot wrap for the message of a `handle_text` operation,
whatever the buffer holds: the payload length `text_length` of line 422 plus the
size of the array is below 2^32. -/
def op_fits {F M L : Type} (pf : Platform F M L) (op : CoreOp) : Prop :=
  match op with
  | .handle_text _ length => payload_length pf length + sizeof_mixer_text < 2 ^ 32
  | _ => True

/-- The bound of the text buffer: the length leaves room for the terminator
inside the array, the bytes behind the array are those of `outside`, and every
call of the parser so far was made with its terminator inside the array. -/
def TextBufferBound {F M L : Type} (outside : Nat → Nat) (st : MixerState F M L) : Prop :=
  st.mixer_text_length + 1 ≤ sizeof_mixer_text ∧
  (∀ i : Nat, sizeof_mixer_text ≤ i → st.mixer_text i = outside i) ∧
  ∀ n ∈ parser_calls st.trace, n + 1 ≤ sizeof_mixer_text

/-- The state after the reset of lines 429-430: the mixer group emptied by
`mixer_group.reset()`, the call logged, and the buffer length set to 0. -/
def reset_state {F M L : Type} (pf : Platform F M L) (st : MixerState F M L) :
    MixerState F M L :=
  { st with
    mixer_group := pf.reset st.mixer_group
    trace := st.trace ++ [Event.reset]
    mixer_text_length := 0 }

/-- A sequence of operations on the reference platform: a RESET message with two
bytes, a tick, an APPEND message of 250 bytes, which overflows, a failsafe
precomputation and an APPEND message with 100 bytes. -/
def refLoadOps : List CoreOp :=
  [.handle_text (refMessage 0 [65, 66]) 5, .tick 3,
    .handle_text (refMessage 1 (List.replicate 250 67)) 253, .set_failsafe,
    .handle_text (refMessage 1 (List.replicate 100 68)) 103]

/-- The reference platform with a parser that consumes all but the last two
bytes of the text it is given. -/
def refParsingPlatform : Platform RefFloat (List (Nat × Nat)) Bool :=
  { refPlatform with load_from_buf := fun m _ n => (m ++ [(0, 0)], min n 2) }

/-- A state of the reference platform with the mixer loaded and the two bytes
`BB` waiting in the text buffer. -/
def refTwoBytesState : MixerState RefFloat (List (Nat × Nat)) Bool :=
  { refState PX4IO_P_STATUS_FLAGS_MIXER_OK 0 with
    mixer_text := fun i => if i < 2 then 66 else 0
    mixer_text_length := 2 }

/-! ## Failsafe precomputation -/

/-- The call of `mixer_group.mix` at line 489 of `mixer_set_failsafe` and its
result: the outputs, the number of outputs mixed and the limits register. -/
def failsafe_mix {F M L : Type} (pf : Platform F M L) (st : MixerState F M L) :
    (Nat → F) × Nat × Nat :=
  pf.mix st.mixer_group (mixer_callback pf st) pf.PX4IO_SERVO_COUNT st.r_mixer_limits

/-- The expression `(output * 600.0f) + 1500` of line 495, converted to the
`uint16_t` of the failsafe page. -/
def scale_to_pwm {F M L : Type} (pf : Platform F M L) (output : F) : Nat :=
  pf.toU16 (pf.fadd (pf.fmul output (pf.ofInt 600)) (pf.ofInt 1500))

/-- A state of the reference platform before a tick: the mixer loaded with one
mixer that passes control 0 of group 0 through, FMU data received at time 100,
and the given FMU demand on that control. -/
def refPassThroughState (demand : Nat) : MixerState RefFloat (List (Nat × Nat)) Bool :=
  { refState PX4IO_P_STATUS_FLAGS_MIXER_OK 0 with
    fmu_data_received_time := 100
    mixer_group := [(0, 0)]
    r_page_controls := fun i => if i = 0 then demand else 0 }

/-- A state of the reference platform in lockdown with both S.BUS output features
selected, failsafe values 1000 and disarmed values 900 on every channel. -/
def refBothSbusLockdownState : MixerState RefFloat (List (Nat × Nat)) Bool :=
  { refLockdownState with
    r_setup_features := PX4IO_P_SETUP_FEATURES_SBUS1_OUT ||| PX4IO_P_SETUP_FEATURES_SBUS2_OUT }

/-- A state of the reference platform that a tick arms with throttle (initialized,
safety off, mixer loaded, armed by the FMU), with both S.BUS output features
selected. -/
def refBothSbusArmedState : MixerState RefFloat (List (Nat × Nat)) Bool :=
  { refState (PX4IO_P_STATUS_FLAGS_INIT_OK ||| PX4IO_P_STATUS_FLAGS_SAFETY_OFF |||
      PX4IO_P_STATUS_FLAGS_MIXER_OK) PX4IO_P_SETUP_ARMING_FMU_ARMED with
    r_setup_features := PX4IO_P_SETUP_FEATURES_SBUS1_OUT ||| PX4IO_P_SETUP_FEATURES_SBUS2_OUT }

/-! ## Frames: what a step leaves as it is -/

/-- The part of the state that the mixing and output steps of `mixer_tick` leave
as it is. -/
structure SameSetup {F M L : Type} (s t : MixerState F M L) : Prop where
  source : t.source = s.source
  r_setup_arming : t.r_setup_arming = s.r_setup_arming
  r_setup_features : t.r_setup_features = s.r_setup_features
  should_arm : t.should_arm = s.should_arm
  should_arm_nothrottle : t.should_arm_nothrottle = s.should_arm_nothrottle
  should_always_enable_pwm : t.should_always_enable_pwm = s.should_always_enable_pwm
  r_page_servo_failsafe : t.r_page_servo_failsafe = s.r_page_servo_failsafe
  r_page_servo_disarmed : t.r_page_servo_disarmed = s.r_page_servo_disarmed
  fmu_data_received_time : t.fmu_data_received_time = s.fmu_data_received_time
  r_status_alarms : t.r_status_alarms = s.r_status_alarms
  mixer_group : t.mixer_group = s.mixer_group
  mixer_text : t.mixer_text = s.mixer_text
  mixer_text_length : t.mixer_text_length = s.mixer_text_length
  r_page_controls : t.r_page_controls = s.r_page_controls
  r_page_rc_input : t.r_page_rc_input = s.r_page_rc_input

/-- The status register and the hardware arm state, which the mixing step and
the output step of `mixer_tick` leave as they are. -/
structure SameStatus {F M L : Type} (s t : MixerState F M L) : Prop where
  r_status_flags : t.r_status_flags = s.r_status_flags
  mixer_servos_armed : t.mixer_servos_armed = s.mixer_servos_armed

/-- The part of the state that the steps of `mixer_tick` before the mixing step
leave as it is. -/
structure SameOutputs {F M L : Type} (s t : MixerState F M L) : Prop where
  trace : t.trace = s.trace
  r_page_servos : t.r_page_servos = s.r_page_servos
  r_page_servo_failsafe : t.r_page_servo_failsafe = s.r_page_servo_failsafe
  r_page_servo_disarmed : t.r_page_servo_disarmed = s.r_page_servo_disarmed
  mixer_servos_armed : t.mixer_servos_armed = s.mixer_servos_armed
  r_setup_features : t.r_setup_features = s.r_setup_features
  r_page_actuators : t.r_page_actuators = s.r_page_actuators
  pwm_limit : t.pwm_limit = s.pwm_limit
  r_mixer_limits : t.r_mixer_limits = s.r_mixer_limits
  in_mixer : t.in_mixer = s.in_mixer
  mixer_group : t.mixer_group = s.mixer_group
  mixer_text : t.mixer_text = s.mixer_text
  mixer_text_length : t.mixer_text_length = s.mixer_text_length

/-! ## Register bit lemmas -/

theorem hasFlag_BIT (r i : Nat) : hasFlag r (BIT i) = r.testBit i := by
  unfold hasFlag BIT
  rw [Nat.one_shiftLeft, Nat.and_two_pow]
  cases h : r.testBit i <;> simp [h]

theorem testBit_setFlag_BIT (r i j : Nat) :
    (setFlag r (BIT i)).testBit j = (r.testBit j || decide (i = j)) := by
  unfold setFlag BIT
  rw [Nat.one_shiftLeft, Nat.testBit_or, Nat.testBit_two_pow]

theorem testBit_clearFlag_BIT (r i j : Nat) :
    (clearFlag r (BIT i)).testBit j = (r.testBit j && (decide (j < 16) != decide (i = j))) := by
  unfold clearFlag BIT
  have h : (0xFFFF : Nat) = 2 ^ 16 - 1 := by norm_num
  rw [Nat.one_shiftLeft, Nat.testBit_and, Nat.testBit_xor, h, Nat.testBit_two_pow_sub_one,
    Nat.testBit_two_pow]

theorem hasFlag_setFlag_BIT (r i j : Nat) :
    hasFlag (setFlag r (BIT i)) (BIT j) = (hasFlag r (BIT j) || decide (i = j)) := by
  rw [hasFlag_BIT, hasFlag_BIT, testBit_setFlag_BIT]

theorem hasFlag_clearFlag_BIT (r i j : Nat) :
    hasFlag (clearFlag r (BIT i)) (BIT j) =
      (hasFlag r (BIT j) && (decide (j < 16) != decide (i = j))) := by
  rw [hasFlag_BIT, hasFlag_BIT, testBit_clearFlag_BIT]

/-! ## Loops -/

theorem forLoop_preserves {σ α : Type} (proj : σ → α) (body : Nat → σ → σ)
    (h : ∀ i s, proj (body i s) = proj s) (lo hi : Nat) (s : σ) :
    proj (forLoop lo hi body s) = proj s := by
  unfold forLoop
  generalize List.range' lo (hi - lo) = l
  induction l generalizing s with
  | nil => rfl
  | cons a l ih => rw [List.foldl_cons, ih, h]

/-! ## Source arbitration -/

theorem select_source_eq_spec {F M L : Type} (st : MixerState F M L) :
    (tick_select_source st).source = spec_select_source st.r_status_flags st.r_setup_arming := by
  cases ha : hasFlag st.r_status_flags PX4IO_P_STATUS_FLAGS_RAW_PWM <;>
  cases hb : hasFlag st.r_status_flags PX4IO_P_STATUS_FLAGS_FMU_OK <;>
  cases hc : hasFlag st.r_status_flags PX4IO_P_STATUS_FLAGS_OVERRIDE <;>
  cases hd : hasFlag st.r_status_flags PX4IO_P_STATUS_FLAGS_MIXER_OK <;>
  cases he : hasFlag st.r_status_flags PX4IO_P_STATUS_FLAGS_RC_OK <;>
  cases hf : hasFlag st.r_setup_arming PX4IO_P_SETUP_ARMING_RC_HANDLING_DISABLED <;>
  cases hg : hasFlag st.r_setup_arming PX4IO_P_SETUP_ARMING_TERMINATION_FAILSAFE <;>
  simp [tick_select_source, spec_select_source, spec_override_condition,
    spec_override_fmu_ok_condition, ha, hb, hc, hd, he, hf, hg]

/-! ## Frame of the mixing and output steps -/

theorem sameSetup_refl {F M L : Type} (s : MixerState F M L) : SameSetup s s := by
  constructor <;> rfl

theorem sameSetup_trans {F M L : Type} {s t u : MixerState F M L} (h₁ : SameSetup s t)
    (h₂ : SameSetup t u) : SameSetup s u := by
  constructor
  · exact h₂.source.trans h₁.source
  · exact h₂.r_setup_arming.trans h₁.r_setup_arming
  · exact h₂.r_setup_features.trans h₁.r_setup_features
  · exact h₂.should_arm.trans h₁.should_arm
  · exact h₂.should_arm_nothrottle.trans h₁.should_arm_nothrottle
  · exact h₂.should_always_enable_pwm.trans h₁.should_always_enable_pwm
  · exact h₂.r_page_servo_failsafe.trans h₁.r_page_servo_failsafe
  · exact h₂.r_page_servo_disarmed.trans h₁.r_page_servo_disarmed
  · exact h₂.fmu_data_received_time.trans h₁.fmu_data_received_time
  · exact h₂.r_status_alarms.trans h₁.r_status_alarms
  · exact h₂.mixer_group.trans h₁.mixer_group
  · exact h₂.mixer_text.trans h₁.mixer_text
  · exact h₂.mixer_text_length.trans h₁.mixer_text_length
  · exact h₂.r_page_controls.trans h₁.r_page_controls
  · exact h₂.r_page_rc_input.trans h₁.r_page_rc_input

theorem sameSetup_set_trace {F M L : Type} {s t : MixerState F M L} (h : SameSetup s t)
    (v : List Event) : SameSetup s { t with trace := v } :=
  sameSetup_trans h (by constructor <;> rfl)

theorem forLoop_rel {σ : Type} (R : σ → σ → Prop) (hrefl : ∀ s, R s s)
    (htrans : ∀ s t u, R s t → R t u → R s u) (body : Nat → σ → σ)
    (h : ∀ i s, R s (body i s)) (lo hi : Nat) (s : σ) : R s (forLoop lo hi body s) := by
  unfold forLoop
  generalize List.range' lo (hi - lo) = l
  induction l generalizing s with
  | nil => exact hrefl s
  | cons a l ih => exact htrans _ _ _ (h a s) (ih (body a s))

theorem forLoop_same {F M L : Type} (body : Nat → MixerState F M L → MixerState F M L)
    (h : ∀ i s, SameSetup s (body i s)) (lo hi : Nat) (s : MixerState F M L) :
    SameSetup s (forLoop lo hi body s) :=
  forLoop_rel SameSetup sameSetup_refl (fun _ _ _ h₁ h₂ => sameSetup_trans h₁ h₂) body h lo hi s

theorem forLoop_same_fst {F M L α : Type}
    (body : Nat → MixerState F M L × α → MixerState F M L × α)
    (h : ∀ i s, SameSetup s.1 (body i s).1) (lo hi : Nat) (s : MixerState F M L × α) :
    SameSetup s.1 (forLoop lo hi body s).1 :=
  forLoop_rel (fun a b => SameSetup a.1 b.1) (fun a => sameSetup_refl a.1)
    (fun a b c (h₁ : SameSetup a.1 b.1) (h₂ : SameSetup b.1 c.1) => sameSetup_trans h₁ h₂) body h lo hi s

theorem tick_run_mixers_same {F M L : Type} (pf : Platform F M L) (st : MixerState F M L) :
    SameSetup st (tick_run_mixers pf st) := by
  unfold tick_run_mixers
  split_ifs
  · exact forLoop_same _ (fun _ _ => by constructor <;> rfl) _ _ _
  · refine sameSetup_trans ?_ (forLoop_same _ (fun _ _ => by constructor <;> rfl) _ _ _)
    refine sameSetup_trans ?_ (forLoop_same_fst _ (fun _ _ => by constructor <;> rfl) _ _ _)
    constructor <;> rfl
  · exact sameSetup_refl st

theorem tick_set_arming_same {F M L : Type} (st : MixerState F M L) :
    SameSetup st (tick_set_arming st) := by
  unfold tick_set_arming
  dsimp only
  split_ifs <;> constructor <;> rfl

theorem tick_write_outputs_same {F M L : Type} (pf : Platform F M L) (st : MixerState F M L) :
    SameSetup st (tick_write_outputs pf st) := by
  have h₁ : SameSetup st (forLoop 0 pf.PX4IO_SERVO_COUNT servo_set_body st) :=
    forLoop_same _ (fun _ _ => by constructor <;> rfl) _ _ _
  have h₂ : SameSetup st (forLoop 0 pf.PX4IO_SERVO_COUNT servo_disarmed_body st) :=
    forLoop_same _ (fun _ _ => by constructor <;> rfl) _ _ _
  unfold tick_write_outputs
  dsimp only
  split_ifs
  all_goals first
    | exact sameSetup_refl st
    | exact h₁
    | exact h₂
    | exact sameSetup_set_trace h₁ _
    | exact sameSetup_set_trace h₂ _

theorem sameStatus_refl {F M L : Type} (s : MixerState F M L) : SameStatus s s := by
  constructor <;> rfl

theorem sameStatus_trans {F M L : Type} {s t u : MixerState F M L} (h₁ : SameStatus s t)
    (h₂ : SameStatus t u) : SameStatus s u := by
  constructor
  · exact h₂.r_status_flags.trans h₁.r_status_flags
  · exact h₂.mixer_servos_armed.trans h₁.mixer_servos_armed

theorem sameStatus_set_trace {F M L : Type} {s t : MixerState F M L} (h : SameStatus s t)
    (v : List Event) : SameStatus s { t with trace := v } :=
  sameStatus_trans h (by constructor <;> rfl)

theorem forLoop_status {F M L : Type} (body : Nat → MixerState F M L → MixerState F M L)
    (h : ∀ i s, SameStatus s (body i s)) (lo hi : Nat) (s : MixerState F M L) :
    SameStatus s (forLoop lo hi body s) :=
  forLoop_rel SameStatus sameStatus_refl (fun _ _ _ h₁ h₂ => sameStatus_trans h₁ h₂) body h lo hi s

theorem forLoop_status_fst {F M L α : Type}
    (body : Nat → MixerState F M L × α → MixerState F M L × α)
    (h : ∀ i s, SameStatus s.1 (body i s).1) (lo hi : Nat) (s : MixerState F M L × α) :
    SameStatus s.1 (forLoop lo hi body s).1 :=
  forLoop_rel (fun a b => SameStatus a.1 b.1) (fun a => sameStatus_refl a.1)
    (fun a b c (h₁ : SameStatus a.1 b.1) (h₂ : SameStatus b.1 c.1) => sameStatus_trans h₁ h₂) body h lo hi s

theorem tick_run_mixers_status {F M L : Type} (pf : Platform F M L) (st : MixerState F M L) :
    SameStatus st (tick_run_mixers pf st) := by
  unfold tick_run_mixers
  split_ifs
  · exact forLoop_status _ (fun _ _ => by constructor <;> rfl) _ _ _
  · refine sameStatus_trans ?_ (forLoop_status _ (fun _ _ => by constructor <;> rfl) _ _ _)
    refine sameStatus_trans ?_ (forLoop_status_fst _ (fun _ _ => by constructor <;> rfl) _ _ _)
    constructor <;> rfl
  · exact sameStatus_refl st

theorem tick_write_outputs_status {F M L : Type} (pf : Platform F M L) (st : MixerState F M L) :
    SameStatus st (tick_write_outputs pf st) := by
  have h₁ : SameStatus st (forLoop 0 pf.PX4IO_SERVO_COUNT servo_set_body st) :=
    forLoop_status _ (fun _ _ => by constructor <;> rfl) _ _ _
  have h₂ : SameStatus st (forLoop 0 pf.PX4IO_SERVO_COUNT servo_disarmed_body st) :=
    forLoop_status _ (fun _ _ => by constructor <;> rfl) _ _ _
  unfold tick_write_outputs
  dsimp only
  split_ifs
  all_goals first
    | exact sameStatus_refl st
    | exact h₁
    | exact h₂
    | exact sameStatus_set_trace h₁ _
    | exact sameStatus_set_trace h₂ _

/-- The flags of the status register other than OUTPUTS_ARMED are not touched by
the arming step. -/
theorem tick_set_arming_hasFlag {F M L : Type} (st : MixerState F M L) (j : Nat) (hj : j < 16)
    (h0 : j ≠ 0) :
    hasFlag (tick_set_arming st).r_status_flags (BIT j) = hasFlag st.r_status_flags (BIT j) := by
  have h0' : ¬ (0 = j) := fun h => h0 h.symm
  unfold tick_set_arming
  dsimp only
  split_ifs <;>
    simp [PX4IO_P_STATUS_FLAGS_OUTPUTS_ARMED, hasFlag_setFlag_BIT, hasFlag_clearFlag_BIT, hj, h0']

/-! ## The steps of `mixer_tick` in sequence -/

theorem mixer_tick_eq {F M L : Type} (pf : Platform F M L) (now : Nat) (st : MixerState F M L) :
    mixer_tick pf now st =
      tick_write_outputs pf (tick_set_arming (tick_run_mixers pf (tick_failsafe_flag
        (tick_force_failsafe (tick_latch_failsafe (tick_arbitrated now st)))))) := rfl

theorem mixer_tick_same {F M L : Type} (pf : Platform F M L) (now : Nat) (st : MixerState F M L) :
    SameSetup (tick_failsafe_flag (tick_force_failsafe (tick_latch_failsafe
      (tick_arbitrated now st)))) (mixer_tick pf now st) := by
  rw [mixer_tick_eq]
  exact sameSetup_trans (sameSetup_trans (tick_run_mixers_same pf _) (tick_set_arming_same _))
    (tick_write_outputs_same pf _)

theorem tick_failsafe_flag_source {F M L : Type} (st : MixerState F M L) :
    (tick_failsafe_flag st).source = st.source := by
  unfold tick_failsafe_flag
  split_ifs <;> rfl

theorem tick_failsafe_flag_r_setup_arming {F M L : Type} (st : MixerState F M L) :
    (tick_failsafe_flag st).r_setup_arming = st.r_setup_arming := by
  unfold tick_failsafe_flag
  split_ifs <;> rfl

theorem tick_force_failsafe_r_setup_arming {F M L : Type} (st : MixerState F M L) :
    (tick_force_failsafe st).r_setup_arming = st.r_setup_arming := by
  unfold tick_force_failsafe
  split_ifs <;> rfl

theorem tick_force_failsafe_source {F M L : Type} (st : MixerState F M L) :
    (tick_force_failsafe st).source =
      if hasFlag st.r_setup_arming PX4IO_P_SETUP_ARMING_FORCE_FAILSAFE then MIX_FAILSAFE
      else st.source := by
  unfold tick_force_failsafe
  split_ifs <;> rfl

theorem tick_latch_failsafe_source {F M L : Type} (st : MixerState F M L) :
    (tick_latch_failsafe st).source = st.source := by
  unfold tick_latch_failsafe
  split_ifs <;> rfl

theorem tick_arbitrated_source {F M L : Type} (now : Nat) (st : MixerState F M L) :
    (tick_arbitrated now st).source = (tick_select_source (tick_fmu_freshness now st)).source :=
  rfl

theorem tick_select_source_r_status_flags {F M L : Type} (st : MixerState F M L) :
    (tick_select_source st).r_status_flags = st.r_status_flags := by
  unfold tick_select_source
  dsimp only
  split_ifs <;> rfl

theorem tick_select_source_r_setup_arming {F M L : Type} (st : MixerState F M L) :
    (tick_select_source st).r_setup_arming = st.r_setup_arming := by
  unfold tick_select_source
  dsimp only
  split_ifs <;> rfl

theorem tick_fmu_freshness_r_setup_arming {F M L : Type} (now : Nat) (st : MixerState F M L) :
    (tick_fmu_freshness now st).r_setup_arming = st.r_setup_arming := by
  unfold tick_fmu_freshness
  split_ifs <;> rfl

theorem tick_arbitrated_r_setup_arming {F M L : Type} (now : Nat) (st : MixerState F M L) :
    (tick_arbitrated now st).r_setup_arming = st.r_setup_arming := by
  show (tick_select_source (tick_fmu_freshness now st)).r_setup_arming = _
  rw [tick_select_source_r_setup_arming, tick_fmu_freshness_r_setup_arming]

theorem tick_arbitrated_r_status_flags {F M L : Type} (now : Nat) (st : MixerState F M L) :
    (tick_arbitrated now st).r_status_flags = (tick_fmu_freshness now st).r_status_flags := by
  show (tick_select_source (tick_fmu_freshness now st)).r_status_flags = _
  rw [tick_select_source_r_status_flags]

theorem mixer_tick_source {F M L : Type} (pf : Platform F M L) (now : Nat)
    (st : MixerState F M L) :
    (mixer_tick pf now st).source =
      if hasFlag (tick_latch_failsafe (tick_arbitrated now st)).r_setup_arming
          PX4IO_P_SETUP_ARMING_FORCE_FAILSAFE then MIX_FAILSAFE
      else (tick_select_source (tick_fmu_freshness now st)).source := by
  rw [(mixer_tick_same pf now st).source, tick_failsafe_flag_source, tick_force_failsafe_source,
    tick_latch_failsafe_source, tick_arbitrated_source]

theorem mixer_tick_r_setup_arming {F M L : Type} (pf : Platform F M L) (now : Nat)
    (st : MixerState F M L) :
    (mixer_tick pf now st).r_setup_arming =
      (tick_latch_failsafe (tick_arbitrated now st)).r_setup_arming := by
  rw [(mixer_tick_same pf now st).r_setup_arming, tick_failsafe_flag_r_setup_arming,
    tick_force_failsafe_r_setup_arming]

theorem tick_latch_failsafe_r_setup_arming {F M L : Type} (st : MixerState F M L) (j : Nat) :
    hasFlag (tick_latch_failsafe st).r_setup_arming (BIT j) =
      (hasFlag st.r_setup_arming (BIT j) ||
        (decide (j = 8) &&
          (hasFlag st.r_setup_arming PX4IO_P_SETUP_ARMING_TERMINATION_FAILSAFE &&
            decide (st.source = MIX_FAILSAFE) && st.should_arm &&
            hasFlag st.r_status_flags PX4IO_P_STATUS_FLAGS_FMU_INITIALIZED))) := by
  unfold tick_latch_failsafe
  split_ifs with h
  · simp only [PX4IO_P_SETUP_ARMING_FORCE_FAILSAFE, hasFlag_setFlag_BIT, h, Bool.and_true]
    by_cases hj : j = 8
    · simp [hj]
    · have : ¬ (8 = j) := fun e => hj e.symm
      simp [hj, this]
  · simp only [Bool.not_eq_true] at h
    simp [h]

/-! ## The arbiter, the force failsafe latch and the freshness step -/

/-- C1: the source selected by the arbiter of `mixer_tick`, before the force
failsafe step, is the first in the order NONE, FMU, OVERRIDE, OVERRIDE_FMU_OK whose
condition holds on the status and arming flags as they are after the freshness
update, and FAILSAFE when none holds. This holds for every state, hence for
every combination of flags. The conditions of OVERRIDE and OVERRIDE_FMU_OK never
hold together, and the final source of the tick is that source unless
FORCE_FAILSAFE is set. -/
theorem C1_source_arbitration {F M L : Type} (pf : Platform F M L) (now : Nat)
    (st : MixerState F M L) :
    (∀ s : MixerState F M L,
      (tick_select_source s).source = spec_select_source s.r_status_flags s.r_setup_arming) ∧
    (tick_arbitrated now st).source =
      spec_select_source (tick_fmu_freshness now st).r_status_flags
        (tick_fmu_freshness now st).r_setup_arming ∧
    (∀ status arming : Nat,
      ¬ (spec_override_condition status arming = true ∧
          spec_override_fmu_ok_condition status arming = true)) ∧
    (mixer_tick pf now st).source =
      if hasFlag (mixer_tick pf now st).r_setup_arming PX4IO_P_SETUP_ARMING_FORCE_FAILSAFE then
        MIX_FAILSAFE
      else
        spec_select_source (tick_fmu_freshness now st).r_status_flags
          (tick_fmu_freshness now st).r_setup_arming := by
  refine ⟨select_source_eq_spec, ?_, ?_, ?_⟩
  · rw [tick_arbitrated_source, select_source_eq_spec]
  · intro status arming
    unfold spec_override_condition spec_override_fmu_ok_condition
    cases hasFlag status PX4IO_P_STATUS_FLAGS_FMU_OK <;> simp
  · rw [mixer_tick_source, mixer_tick_r_setup_arming, select_source_eq_spec]

/-- C2: FORCE_FAILSAFE is set after `mixer_tick` exactly when it was set before the
tick, or TERMINATION_FAILSAFE is requested and the source chosen by the arbiter
in this tick is FAILSAFE and `should_arm` as computed in this tick is true and
FMU_INITIALIZED is set after the freshness update of this tick. -/
theorem C2_force_failsafe_latch {F M L : Type} (pf : Platform F M L) (now : Nat)
    (st : MixerState F M L) :
    hasFlag (mixer_tick pf now st).r_setup_arming PX4IO_P_SETUP_ARMING_FORCE_FAILSAFE = true ↔
      (hasFlag st.r_setup_arming PX4IO_P_SETUP_ARMING_FORCE_FAILSAFE = true ∨
        (hasFlag st.r_setup_arming PX4IO_P_SETUP_ARMING_TERMINATION_FAILSAFE = true ∧
          (tick_arbitrated now st).source = MIX_FAILSAFE ∧
          (tick_arbitrated now st).should_arm = true ∧
          hasFlag (tick_fmu_freshness now st).r_status_flags
            PX4IO_P_STATUS_FLAGS_FMU_INITIALIZED = true)) := by
  rw [mixer_tick_r_setup_arming]
  have h := tick_latch_failsafe_r_setup_arming (tick_arbitrated now st) 8
  rw [tick_arbitrated_r_setup_arming, tick_arbitrated_r_status_flags] at h
  unfold PX4IO_P_SETUP_ARMING_FORCE_FAILSAFE
  rw [h]
  simp [and_assoc]

/-- C4: when FORCE_FAILSAFE is set at the point of the check of `mixer_tick` (set
by this tick or before it), the final source of the tick is FAILSAFE whatever the
arbiter chose; and after the tick the FAILSAFE status flag is set exactly when
the final source is FAILSAFE. -/
theorem C4_forced_failsafe_and_status {F M L : Type} (pf : Platform F M L) (now : Nat)
    (st : MixerState F M L) :
    (hasFlag (tick_latch_failsafe (tick_arbitrated now st)).r_setup_arming
        PX4IO_P_SETUP_ARMING_FORCE_FAILSAFE = true →
      (mixer_tick pf now st).source = MIX_FAILSAFE) ∧
    (hasFlag st.r_setup_arming PX4IO_P_SETUP_ARMING_FORCE_FAILSAFE = true →
      (mixer_tick pf now st).source = MIX_FAILSAFE) ∧
    (hasFlag (mixer_tick pf now st).r_status_flags PX4IO_P_STATUS_FLAGS_FAILSAFE = true ↔
      (mixer_tick pf now st).source = MIX_FAILSAFE) := by
  refine ⟨?_, ?_, ?_⟩
  · intro h
    rw [mixer_tick_source, if_pos h]
  · intro h
    have h' : hasFlag (tick_latch_failsafe (tick_arbitrated now st)).r_setup_arming
        PX4IO_P_SETUP_ARMING_FORCE_FAILSAFE = true := by
      unfold PX4IO_P_SETUP_ARMING_FORCE_FAILSAFE at h ⊢
      rw [tick_latch_failsafe_r_setup_arming, tick_arbitrated_r_setup_arming, h, Bool.true_or]
    rw [mixer_tick_source, if_pos h']
  · rw [mixer_tick_eq, (tick_write_outputs_status pf _).r_status_flags]
    unfold PX4IO_P_STATUS_FLAGS_FAILSAFE
    rw [tick_set_arming_hasFlag _ 11 (by norm_num) (by norm_num),
      (tick_run_mixers_status pf _).r_status_flags, ← mixer_tick_eq,
      (mixer_tick_same pf now st).source]
    generalize tick_force_failsafe (tick_latch_failsafe (tick_arbitrated now st)) = s
    rw [tick_failsafe_flag_source]
    unfold tick_failsafe_flag
    split_ifs with hs
    · simp [PX4IO_P_STATUS_FLAGS_FAILSAFE, hasFlag_setFlag_BIT, hs]
    · simp [PX4IO_P_STATUS_FLAGS_FAILSAFE, hasFlag_clearFlag_BIT, hs]

/-- C5: the freshness step of `mixer_tick` clears FMU_OK and raises the FMU_LOST
alarm exactly when the FMU timestamp is 0 or the elapsed time is strictly greater
than 500000 microseconds; otherwise, an elapsed time of exactly 500000 included,
it sets FMU_OK and FMU_INITIALIZED and leaves the alarms alone. No other status
flag is changed, and in the stale case FMU_INITIALIZED stays as it was. -/
theorem C5_fmu_freshness {F M L : Type} (now : Nat) (st : MixerState F M L) :
    ((st.fmu_data_received_time = 0 ∨
        hrt_elapsed_time now st.fmu_data_received_time > 500000) →
      hasFlag (tick_fmu_freshness now st).r_status_flags PX4IO_P_STATUS_FLAGS_FMU_OK = false ∧
      hasFlag (tick_fmu_freshness now st).r_status_alarms PX4IO_P_STATUS_ALARMS_FMU_LOST = true ∧
      hasFlag (tick_fmu_freshness now st).r_status_flags PX4IO_P_STATUS_FLAGS_FMU_INITIALIZED =
        hasFlag st.r_status_flags PX4IO_P_STATUS_FLAGS_FMU_INITIALIZED) ∧
    (¬ (st.fmu_data_received_time = 0 ∨
        hrt_elapsed_time now st.fmu_data_received_time > 500000) →
      hasFlag (tick_fmu_freshness now st).r_status_flags PX4IO_P_STATUS_FLAGS_FMU_OK = true ∧
      hasFlag (tick_fmu_freshness now st).r_status_flags
        PX4IO_P_STATUS_FLAGS_FMU_INITIALIZED = true ∧
      (tick_fmu_freshness now st).r_status_alarms = st.r_status_alarms) ∧
    (∀ j : Nat, j < 16 → BIT j ≠ PX4IO_P_STATUS_FLAGS_FMU_OK →
      BIT j ≠ PX4IO_P_STATUS_FLAGS_FMU_INITIALIZED →
      hasFlag (tick_fmu_freshness now st).r_status_flags (BIT j) =
        hasFlag st.r_status_flags (BIT j)) := by
  refine ⟨?_, ?_, ?_⟩
  · intro h
    have hc : (st.fmu_data_received_time == 0 ||
        decide (hrt_elapsed_time now st.fmu_data_received_time > FMU_INPUT_DROP_LIMIT_US)) =
        true := by
      simpa [FMU_INPUT_DROP_LIMIT_US] using h
    unfold tick_fmu_freshness
    rw [if_pos hc]
    simp [PX4IO_P_STATUS_FLAGS_FMU_OK, PX4IO_P_STATUS_ALARMS_FMU_LOST,
      PX4IO_P_STATUS_FLAGS_FMU_INITIALIZED, hasFlag_setFlag_BIT, hasFlag_clearFlag_BIT]
  · intro h
    have hc : ¬ (st.fmu_data_received_time == 0 ||
        decide (hrt_elapsed_time now st.fmu_data_received_time > FMU_INPUT_DROP_LIMIT_US)) =
        true := by
      simpa [FMU_INPUT_DROP_LIMIT_US] using h
    unfold tick_fmu_freshness
    rw [if_neg hc]
    simp [PX4IO_P_STATUS_FLAGS_FMU_OK, PX4IO_P_STATUS_FLAGS_FMU_INITIALIZED,
      hasFlag_setFlag_BIT]
  · intro j hj h6 h13
    have h6' : ¬ (6 = j) := fun e => h6 (by rw [← e]; rfl)
    have h13' : ¬ (13 = j) := fun e => h13 (by rw [← e]; rfl)
    unfold tick_fmu_freshness
    split_ifs <;>
      simp [PX4IO_P_STATUS_FLAGS_FMU_OK, PX4IO_P_STATUS_FLAGS_FMU_INITIALIZED,
        hasFlag_setFlag_BIT, hasFlag_clearFlag_BIT, hj, h6', h13']

theorem tick_latched_arm_decision {F M L : Type} (s : MixerState F M L) :
    (tick_failsafe_flag (tick_force_failsafe (tick_latch_failsafe s))).should_arm =
        s.should_arm ∧
    (tick_failsafe_flag (tick_force_failsafe (tick_latch_failsafe s))).should_arm_nothrottle =
        s.should_arm_nothrottle ∧
    (tick_failsafe_flag (tick_force_failsafe (tick_latch_failsafe s))).should_always_enable_pwm =
        s.should_always_enable_pwm := by
  unfold tick_failsafe_flag tick_force_failsafe tick_latch_failsafe
  refine ⟨?_, ?_, ?_⟩ <;> split_ifs <;> rfl

/-- C6: the three arming booleans computed by `mixer_tick` are
`should_arm` = INIT_OK and SAFETY_OFF and ((FMU_ARMED and MIXER_OK) or RAW_PWM or
(FAILSAFE_CUSTOM and not FMU_OK)), `should_arm_nothrottle` = INIT_OK and
SAFETY_OFF and MIXER_OK, `should_always_enable_pwm` = ALWAYS_PWM_ENABLE and
INIT_OK and FMU_OK, on the status flags as they are after the freshness update of
this tick and the arming flags; nothing else of the state enters. -/
theorem C6_arming_booleans {F M L : Type} (pf : Platform F M L) (now : Nat)
    (st : MixerState F M L) :
    (mixer_tick pf now st).should_arm =
      (hasFlag (tick_fmu_freshness now st).r_status_flags PX4IO_P_STATUS_FLAGS_INIT_OK &&
        hasFlag (tick_fmu_freshness now st).r_status_flags PX4IO_P_STATUS_FLAGS_SAFETY_OFF &&
        ((hasFlag st.r_setup_arming PX4IO_P_SETUP_ARMING_FMU_ARMED &&
            hasFlag (tick_fmu_freshness now st).r_status_flags PX4IO_P_STATUS_FLAGS_MIXER_OK) ||
          hasFlag (tick_fmu_freshness now st).r_status_flags PX4IO_P_STATUS_FLAGS_RAW_PWM ||
          (hasFlag st.r_setup_arming PX4IO_P_SETUP_ARMING_FAILSAFE_CUSTOM &&
            !hasFlag (tick_fmu_freshness now st).r_status_flags PX4IO_P_STATUS_FLAGS_FMU_OK))) ∧
    (mixer_tick pf now st).should_arm_nothrottle =
      (hasFlag (tick_fmu_freshness now st).r_status_flags PX4IO_P_STATUS_FLAGS_INIT_OK &&
        hasFlag (tick_fmu_freshness now st).r_status_flags PX4IO_P_STATUS_FLAGS_SAFETY_OFF &&
        hasFlag (tick_fmu_freshness now st).r_status_flags PX4IO_P_STATUS_FLAGS_MIXER_OK) ∧
    (mixer_tick pf now st).should_always_enable_pwm =
      (hasFlag st.r_setup_arming PX4IO_P_SETUP_ARMING_ALWAYS_PWM_ENABLE &&
        hasFlag (tick_fmu_freshness now st).r_status_flags PX4IO_P_STATUS_FLAGS_INIT_OK &&
        hasFlag (tick_fmu_freshness now st).r_status_flags PX4IO_P_STATUS_FLAGS_FMU_OK) := by
  have hs := mixer_tick_same pf now st
  have hl := tick_latched_arm_decision (tick_arbitrated now st)
  rw [hs.should_arm, hs.should_arm_nothrottle, hs.should_always_enable_pwm, hl.1, hl.2.1,
    hl.2.2]
  have hf := tick_select_source_r_status_flags (tick_fmu_freshness now st)
  have ha : (tick_select_source (tick_fmu_freshness now st)).r_setup_arming =
      st.r_setup_arming := by
    rw [tick_select_source_r_setup_arming, tick_fmu_freshness_r_setup_arming]
  unfold tick_arbitrated tick_should_arm
  simp only [hf, ha, and_self]

/-! ## Status and arming registers across the operations -/

theorem tick_failsafe_flag_hasFlag {F M L : Type} (st : MixerState F M L) (j : Nat) (hj : j < 16)
    (h11 : j ≠ 11) :
    hasFlag (tick_failsafe_flag st).r_status_flags (BIT j) = hasFlag st.r_status_flags (BIT j) := by
  have h11' : ¬ (11 = j) := fun h => h11 h.symm
  unfold tick_failsafe_flag
  split_ifs <;>
    simp [PX4IO_P_STATUS_FLAGS_FAILSAFE, hasFlag_setFlag_BIT, hasFlag_clearFlag_BIT, hj, h11']

theorem tick_latched_r_status_flags {F M L : Type} (s : MixerState F M L) :
    (tick_force_failsafe (tick_latch_failsafe s)).r_status_flags = s.r_status_flags := by
  unfold tick_force_failsafe tick_latch_failsafe
  split_ifs <;> rfl

/-- Every status flag other than OUTPUTS_ARMED and FAILSAFE has after `mixer_tick`
the value the freshness step gave it. -/
theorem mixer_tick_status_hasFlag {F M L : Type} (pf : Platform F M L) (now : Nat)
    (st : MixerState F M L) (j : Nat) (hj : j < 16) (h0 : j ≠ 0) (h11 : j ≠ 11) :
    hasFlag (mixer_tick pf now st).r_status_flags (BIT j) =
      hasFlag (tick_fmu_freshness now st).r_status_flags (BIT j) := by
  rw [mixer_tick_eq, (tick_write_outputs_status pf _).r_status_flags,
    tick_set_arming_hasFlag _ j hj h0, (tick_run_mixers_status pf _).r_status_flags,
    tick_failsafe_flag_hasFlag _ j hj h11, tick_latched_r_status_flags,
    tick_arbitrated_r_status_flags]

theorem tick_fmu_freshness_initialized {F M L : Type} (now : Nat) (st : MixerState F M L)
    (h : fmu_initialized st = true) : fmu_initialized (tick_fmu_freshness now st) = true := by
  unfold fmu_initialized at *
  unfold tick_fmu_freshness
  split_ifs <;>
    simp [PX4IO_P_STATUS_FLAGS_FMU_OK, PX4IO_P_STATUS_FLAGS_FMU_INITIALIZED,
      hasFlag_setFlag_BIT, hasFlag_clearFlag_BIT]
  simpa [PX4IO_P_STATUS_FLAGS_FMU_INITIALIZED] using h

theorem mixer_tick_initialized {F M L : Type} (pf : Platform F M L) (now : Nat)
    (st : MixerState F M L) (h : fmu_initialized st = true) :
    fmu_initialized (mixer_tick pf now st) = true := by
  have h₁ := tick_fmu_freshness_initialized now st h
  unfold fmu_initialized at *
  unfold PX4IO_P_STATUS_FLAGS_FMU_INITIALIZED at *
  rw [mixer_tick_status_hasFlag pf now st 13 (by norm_num) (by norm_num) (by norm_num)]
  exact h₁

theorem mixer_tick_force_failsafe {F M L : Type} (pf : Platform F M L) (now : Nat)
    (st : MixerState F M L) (h : force_failsafe st = true) :
    force_failsafe (mixer_tick pf now st) = true := by
  unfold force_failsafe at *
  unfold PX4IO_P_SETUP_ARMING_FORCE_FAILSAFE at *
  rw [mixer_tick_r_setup_arming, tick_latch_failsafe_r_setup_arming,
    tick_arbitrated_r_setup_arming, h, Bool.true_or]

theorem handle_text_append_registers {F M L : Type} (pf : Platform F M L) (buffer : List Nat)
    (text_length : Nat) (st : MixerState F M L) :
    (handle_text_append pf buffer text_length st).2.r_setup_arming = st.r_setup_arming ∧
    ∀ j : Nat, j < 16 → j ≠ 8 →
      hasFlag (handle_text_append pf buffer text_length st).2.r_status_flags (BIT j) =
        hasFlag st.r_status_flags (BIT j) := by
  unfold handle_text_append
  dsimp only
  constructor
  · split_ifs <;> rfl
  · intro j hj h8
    have h8' : ¬ (8 = j) := fun h => h8 h.symm
    split_ifs <;>
      simp [PX4IO_P_STATUS_FLAGS_MIXER_OK, hasFlag_clearFlag_BIT, hj, h8']

theorem mixer_handle_text_registers {F M L : Type} (pf : Platform F M L) (buffer : List Nat)
    (length : Nat) (st : MixerState F M L) :
    (mixer_handle_text pf buffer length st).2.r_setup_arming = st.r_setup_arming ∧
    ∀ j : Nat, j < 16 → j ≠ 8 →
      hasFlag (mixer_handle_text pf buffer length st).2.r_status_flags (BIT j) =
        hasFlag st.r_status_flags (BIT j) := by
  unfold mixer_handle_text
  dsimp only
  constructor
  · split_ifs
    any_goals rfl
    all_goals rw [(handle_text_append_registers pf _ _ _).1]
  · intro j hj h8
    have h8' : ¬ (8 = j) := fun h => h8 h.symm
    split_ifs
    any_goals rw [(handle_text_append_registers pf _ _ _).2 j hj h8]
    all_goals simp [PX4IO_P_STATUS_FLAGS_MIXER_OK, hasFlag_clearFlag_BIT, hj, h8']

theorem mixer_set_failsafe_registers {F M L : Type} (pf : Platform F M L)
    (st : MixerState F M L) :
    (mixer_set_failsafe pf st).r_setup_arming = st.r_setup_arming ∧
    (mixer_set_failsafe pf st).r_status_flags = st.r_status_flags := by
  unfold mixer_set_failsafe
  dsimp only
  split_ifs
  · exact ⟨rfl, rfl⟩
  · constructor
    · exact (forLoop_preserves (fun s : MixerState F M L => s.r_setup_arming)
        failsafe_disable_body (fun _ _ => rfl) _ _ _).trans
        (forLoop_preserves (fun s : MixerState F M L => s.r_setup_arming)
          (failsafe_scale_body pf _) (fun _ _ => rfl) _ _ _)
    · exact (forLoop_preserves (fun s : MixerState F M L => s.r_status_flags)
        failsafe_disable_body (fun _ _ => rfl) _ _ _).trans
        (forLoop_preserves (fun s : MixerState F M L => s.r_status_flags)
          (failsafe_scale_body pf _) (fun _ _ => rfl) _ _ _)

theorem run_op_initialized {F M L : Type} (pf : Platform F M L) (op : CoreOp)
    (st : MixerState F M L) (h : fmu_initialized st = true) :
    fmu_initialized (run_op pf op st) = true := by
  cases op with
  | tick now => exact mixer_tick_initialized pf now st h
  | handle_text buffer length =>
    unfold fmu_initialized at *
    unfold PX4IO_P_STATUS_FLAGS_FMU_INITIALIZED at *
    show hasFlag (mixer_handle_text pf buffer length st).2.r_status_flags (BIT 13) = true
    rw [(mixer_handle_text_registers pf buffer length st).2 13 (by norm_num) (by norm_num)]
    exact h
  | set_failsafe =>
    unfold fmu_initialized at *
    show hasFlag (mixer_set_failsafe pf st).r_status_flags _ = true
    rw [(mixer_set_failsafe_registers pf st).2]
    exact h
  | environment status arming received_time =>
    unfold fmu_initialized
    show hasFlag (environment_write status arming received_time st).r_status_flags _ = true
    unfold environment_write
    simp [h, PX4IO_P_STATUS_FLAGS_FMU_INITIALIZED, hasFlag_setFlag_BIT]

theorem run_op_force_failsafe {F M L : Type} (pf : Platform F M L) (op : CoreOp)
    (st : MixerState F M L) (h : force_failsafe st = true) :
    force_failsafe (run_op pf op st) = true := by
  cases op with
  | tick now => exact mixer_tick_force_failsafe pf now st h
  | handle_text buffer length =>
    unfold force_failsafe at *
    show hasFlag (mixer_handle_text pf buffer length st).2.r_setup_arming _ = true
    rw [(mixer_handle_text_registers pf buffer length st).1]
    exact h
  | set_failsafe =>
    unfold force_failsafe at *
    show hasFlag (mixer_set_failsafe pf st).r_setup_arming _ = true
    rw [(mixer_set_failsafe_registers pf st).1]
    exact h
  | environment status arming received_time =>
    unfold force_failsafe
    show hasFlag (environment_write status arming received_time st).r_setup_arming _ = true
    unfold environment_write
    simp [h, PX4IO_P_SETUP_ARMING_FORCE_FAILSAFE, hasFlag_setFlag_BIT]

theorem run_ops_latches {F M L : Type} (pf : Platform F M L) (ops : List CoreOp)
    (st : MixerState F M L) :
    (fmu_initialized st = true → fmu_initialized (run_ops pf ops st) = true) ∧
    (force_failsafe st = true → force_failsafe (run_ops pf ops st) = true) := by
  unfold run_ops
  induction ops generalizing st with
  | nil => exact ⟨id, id⟩
  | cons op ops ih =>
    rw [List.foldl_cons]
    exact ⟨fun h => (ih _).1 (run_op_initialized pf op st h),
      fun h => (ih _).2 (run_op_force_failsafe pf op st h)⟩

/-- C3: FMU_INITIALIZED and FORCE_FAILSAFE are monotonic latches. In every state in
which one of them is set, it is still set after `mixer_tick` at any time, after
`mixer_handle_text` on any message and after `mixer_set_failsafe`; hence it is
still set after every sequence of these operations, with arbitrary writes to the
other flags and to the FMU timestamp in between. -/
theorem C3_latches_monotonic {F M L : Type} (pf : Platform F M L) (st : MixerState F M L) :
    (fmu_initialized st = true →
      (∀ now : Nat, fmu_initialized (mixer_tick pf now st) = true) ∧
      (∀ (buffer : List Nat) (length : Nat),
        fmu_initialized (mixer_handle_text pf buffer length st).2 = true) ∧
      fmu_initialized (mixer_set_failsafe pf st) = true ∧
      ∀ ops : List CoreOp, fmu_initialized (run_ops pf ops st) = true) ∧
    (force_failsafe st = true →
      (∀ now : Nat, force_failsafe (mixer_tick pf now st) = true) ∧
      (∀ (buffer : List Nat) (length : Nat),
        force_failsafe (mixer_handle_text pf buffer length st).2 = true) ∧
      force_failsafe (mixer_set_failsafe pf st) = true ∧
      ∀ ops : List CoreOp, force_failsafe (run_ops pf ops st) = true) := by
  constructor
  · intro h
    exact ⟨fun now => run_op_initialized pf (.tick now) st h,
      fun buffer length => run_op_initialized pf (.handle_text buffer length) st h,
      run_op_initialized pf .set_failsafe st h,
      fun ops => (run_ops_latches pf ops st).1 h⟩
  · intro h
    exact ⟨fun now => run_op_force_failsafe pf (.tick now) st h,
      fun buffer length => run_op_force_failsafe pf (.handle_text buffer length) st h,
      run_op_force_failsafe pf .set_failsafe st h,
      fun ops => (run_ops_latches pf ops st).2 h⟩

/-- The witness of C3: on the reference platform, from a state with both latches
set, a sequence of ticks, writes by the firmware, a mixer text message and a
failsafe precomputation leaves both latches set. -/
theorem C3_latches_monotonic_witness :
    fmu_initialized (refState 8192 256) = true ∧ force_failsafe (refState 8192 256) = true ∧
    fmu_initialized (run_ops refPlatform
      [.tick 5, .environment 0 0 0, .handle_text [0, 0, 1, 65] 4, .set_failsafe, .tick 700000]
      (refState 8192 256)) = true ∧
    force_failsafe (run_ops refPlatform
      [.tick 5, .environment 0 0 0, .handle_text [0, 0, 1, 65] 4, .set_failsafe, .tick 700000]
      (refState 8192 256)) = true :=
  ⟨by decide, by decide,
    ((C3_latches_monotonic refPlatform (refState 8192 256)).1 (by decide)).2.2.2 _,
    ((C3_latches_monotonic refPlatform (refState 8192 256)).2 (by decide)).2.2.2 _⟩

/-! ## Loops with an invariant, traces -/

theorem forLoop_invariant {σ : Type} (I : Nat → σ → Prop) (body : Nat → σ → σ) (lo hi : Nat)
    (hle : lo ≤ hi) (s : σ) (h0 : I lo s)
    (hstep : ∀ i t, lo ≤ i → i < hi → I i t → I (i + 1) (body i t)) :
    I hi (forLoop lo hi body s) := by
  unfold forLoop
  obtain ⟨n, rfl⟩ : ∃ n, hi = lo + n := ⟨hi - lo, by omega⟩
  have hn : lo + n - lo = n := by omega
  rw [hn]
  clear hle hn
  induction n generalizing lo s with
  | zero => simpa using h0
  | succ n ih =>
    rw [List.range'_succ, List.foldl_cons]
    have := ih (lo + 1) (body lo s) (hstep lo s (le_refl _) (by omega) h0)
      (fun i t h₁ h₂ hi => hstep i t (by omega) (by omega) hi)
    have e : lo + 1 + n = lo + (n + 1) := by omega
    rw [e] at this
    exact this

theorem traceAdds_refl {F M L : Type} (P : Event → Prop) (s : MixerState F M L) :
    TraceAdds P s s :=
  ⟨[], by simp, by simp⟩

theorem traceAdds_trans {F M L : Type} {P : Event → Prop} {s t u : MixerState F M L}
    (h₁ : TraceAdds P s t) (h₂ : TraceAdds P t u) : TraceAdds P s u := by
  obtain ⟨e₁, he₁, hp₁⟩ := h₁
  obtain ⟨e₂, he₂, hp₂⟩ := h₂
  refine ⟨e₁ ++ e₂, by rw [he₂, he₁, List.append_assoc], ?_⟩
  intro e he
  rcases List.mem_append.mp he with h | h
  · exact hp₁ e h
  · exact hp₂ e h

theorem traceAdds_of_eq {F M L : Type} (P : Event → Prop) {s t : MixerState F M L}
    (h : t.trace = s.trace) : TraceAdds P s t :=
  ⟨[], by simp [h], by simp⟩

theorem traceAdds_one {F M L : Type} (P : Event → Prop) {s t : MixerState F M L} (e : Event)
    (h : t.trace = s.trace ++ [e]) (he : P e) : TraceAdds P s t :=
  ⟨[e], h, by simpa using he⟩

theorem forLoop_traceAdds {F M L : Type} (P : Event → Prop)
    (body : Nat → MixerState F M L → MixerState F M L)
    (h : ∀ i s, TraceAdds P s (body i s)) (lo hi : Nat) (s : MixerState F M L) :
    TraceAdds P s (forLoop lo hi body s) :=
  forLoop_rel (TraceAdds P) (traceAdds_refl P) (fun _ _ _ h₁ h₂ => traceAdds_trans h₁ h₂)
    body h lo hi s

theorem tick_set_arming_traceAdds {F M L : Type} (st : MixerState F M L) :
    TraceAdds (fun e => e ≠ Event.mix) st (tick_set_arming st) := by
  unfold tick_set_arming
  dsimp only
  split_ifs
  all_goals first
    | exact traceAdds_refl _ st
    | exact traceAdds_one _ _ rfl (by simp)

theorem tick_write_outputs_traceAdds {F M L : Type} (pf : Platform F M L)
    (st : MixerState F M L) :
    TraceAdds (fun e => e ≠ Event.mix) st (tick_write_outputs pf st) := by
  have h₁ : TraceAdds (fun e => e ≠ Event.mix) st
      (forLoop 0 pf.PX4IO_SERVO_COUNT servo_set_body st) :=
    forLoop_traceAdds _ _ (fun _ _ => traceAdds_one _ _ rfl (by simp)) _ _ _
  have h₂ : TraceAdds (fun e => e ≠ Event.mix) st
      (forLoop 0 pf.PX4IO_SERVO_COUNT servo_disarmed_body st) :=
    forLoop_traceAdds _ _ (fun _ _ => traceAdds_one _ _ rfl (by simp)) _ _ _
  unfold tick_write_outputs
  dsimp only
  split_ifs
  all_goals first
    | exact traceAdds_refl _ st
    | exact h₁
    | exact h₂
    | exact traceAdds_trans h₁ (traceAdds_one _ _ rfl (by simp))
    | exact traceAdds_trans h₂ (traceAdds_one _ _ rfl (by simp))
    | exact traceAdds_trans (traceAdds_trans h₂ (traceAdds_one _ _ rfl (by simp)))
        (traceAdds_one _ _ rfl (by simp))

/-! ## The servo page across the mixing and output steps -/

theorem tick_run_mixers_failsafe {F M L : Type} (pf : Platform F M L) (st : MixerState F M L)
    (h : st.source = MIX_FAILSAFE) :
    (tick_run_mixers pf st).trace = st.trace ∧
    ∀ i : Nat, i < pf.PX4IO_SERVO_COUNT →
      (tick_run_mixers pf st).r_page_servos i = st.r_page_servo_failsafe i := by
  unfold tick_run_mixers
  rw [if_pos h]
  constructor
  · exact forLoop_preserves (fun s : MixerState F M L => s.trace) (failsafe_copy_body pf)
      (fun _ _ => rfl) _ _ _
  · have key := forLoop_invariant
      (fun (k : Nat) (s : MixerState F M L) =>
        s.r_page_servo_failsafe = st.r_page_servo_failsafe ∧
        ∀ i : Nat, i < k → s.r_page_servos i = st.r_page_servo_failsafe i)
      (failsafe_copy_body pf) 0 pf.PX4IO_SERVO_COUNT (Nat.zero_le _) st
      ⟨rfl, fun i hi => absurd hi (Nat.not_lt_zero i)⟩
      (by
        intro k t _ _ ht
        refine ⟨ht.1, ?_⟩
        intro i hi
        show Function.update t.r_page_servos k (t.r_page_servo_failsafe k) i = _
        by_cases hik : i = k
        · subst hik
          rw [Function.update_same, ht.1]
        · rw [Function.update_noteq hik]
          exact ht.2 i (by omega))
    exact key.2

theorem tick_set_arming_r_page_servos {F M L : Type} (st : MixerState F M L) :
    (tick_set_arming st).r_page_servos = st.r_page_servos := by
  unfold tick_set_arming
  dsimp only
  split_ifs <;> rfl

theorem tick_set_arming_armed {F M L : Type} (st : MixerState F M L) :
    (tick_set_arming st).mixer_servos_armed =
      (st.should_arm || st.should_arm_nothrottle || st.should_always_enable_pwm ||
        hasFlag st.r_setup_arming PX4IO_P_SETUP_ARMING_LOCKDOWN) := by
  unfold tick_set_arming
  cases hl : hasFlag st.r_setup_arming PX4IO_P_SETUP_ARMING_LOCKDOWN <;>
  cases ha : st.mixer_servos_armed <;>
  cases h₁ : st.should_arm <;>
  cases h₂ : st.should_arm_nothrottle <;>
  cases h₃ : st.should_always_enable_pwm <;>
  simp [ha]

theorem servo_disarmed_loop {F M L : Type} (st : MixerState F M L) (n : Nat) :
    ∀ i : Nat, (forLoop 0 n servo_disarmed_body st).r_page_servos i =
      if i < n then st.r_page_servo_disarmed i else st.r_page_servos i := by
  have key := forLoop_invariant
    (fun (k : Nat) (s : MixerState F M L) =>
      s.r_page_servo_disarmed = st.r_page_servo_disarmed ∧
      ∀ i : Nat, s.r_page_servos i =
        if i < k then st.r_page_servo_disarmed i else st.r_page_servos i)
    servo_disarmed_body 0 n (Nat.zero_le _) st
    ⟨rfl, fun i => by simp⟩
    (by
      intro k t _ _ ht
      refine ⟨ht.1, ?_⟩
      intro i
      show Function.update t.r_page_servos k (t.r_page_servo_disarmed k) i = _
      by_cases hik : i = k
      · subst hik
        rw [Function.update_same, ht.1]
        simp
      · rw [Function.update_noteq hik, ht.2 i]
        by_cases hlt : i < k
        · have : i < k + 1 := by omega
          simp [hlt, this]
        · have : ¬ i < k + 1 := by omega
          simp [hlt, this])
  exact key.2

/-- The servo page after the output step: untouched when the servo outputs are
written, the disarmed values on every channel when the disarmed outputs are
written. -/
theorem tick_write_outputs_r_page_servos {F M L : Type} (pf : Platform F M L)
    (st : MixerState F M L) (i : Nat) :
    (tick_write_outputs pf st).r_page_servos i =
      if (st.mixer_servos_armed && (st.should_arm || st.should_arm_nothrottle) &&
          !hasFlag st.r_setup_arming PX4IO_P_SETUP_ARMING_LOCKDOWN) = true then
        st.r_page_servos i
      else if (st.mixer_servos_armed &&
          (st.should_always_enable_pwm ||
            hasFlag st.r_setup_arming PX4IO_P_SETUP_ARMING_LOCKDOWN)) = true then
        (if i < pf.PX4IO_SERVO_COUNT then st.r_page_servo_disarmed i else st.r_page_servos i)
      else st.r_page_servos i := by
  have h₁ : (forLoop 0 pf.PX4IO_SERVO_COUNT servo_set_body st).r_page_servos =
      st.r_page_servos :=
    forLoop_preserves (fun s : MixerState F M L => s.r_page_servos) servo_set_body
      (fun _ _ => rfl) _ _ _
  have h₂ := servo_disarmed_loop st pf.PX4IO_SERVO_COUNT i
  unfold tick_write_outputs
  dsimp only
  split_ifs <;> first | rfl | exact congrFun h₁ i | exact h₂.trans (by simp [*])

theorem sameOutputs_refl {F M L : Type} (s : MixerState F M L) : SameOutputs s s := by
  constructor <;> rfl

theorem sameOutputs_trans {F M L : Type} {s t u : MixerState F M L} (h₁ : SameOutputs s t)
    (h₂ : SameOutputs t u) : SameOutputs s u := by
  constructor
  · exact h₂.trace.trans h₁.trace
  · exact h₂.r_page_servos.trans h₁.r_page_servos
  · exact h₂.r_page_servo_failsafe.trans h₁.r_page_servo_failsafe
  · exact h₂.r_page_servo_disarmed.trans h₁.r_page_servo_disarmed
  · exact h₂.mixer_servos_armed.trans h₁.mixer_servos_armed
  · exact h₂.r_setup_features.trans h₁.r_setup_features
  · exact h₂.r_page_actuators.trans h₁.r_page_actuators
  · exact h₂.pwm_limit.trans h₁.pwm_limit
  · exact h₂.r_mixer_limits.trans h₁.r_mixer_limits
  · exact h₂.in_mixer.trans h₁.in_mixer
  · exact h₂.mixer_group.trans h₁.mixer_group
  · exact h₂.mixer_text.trans h₁.mixer_text
  · exact h₂.mixer_text_length.trans h₁.mixer_text_length

theorem tick_fmu_freshness_outputs {F M L : Type} (now : Nat) (st : MixerState F M L) :
    SameOutputs st (tick_fmu_freshness now st) := by
  unfold tick_fmu_freshness
  split_ifs <;> constructor <;> rfl

theorem tick_select_source_outputs {F M L : Type} (st : MixerState F M L) :
    SameOutputs st (tick_select_source st) := by
  unfold tick_select_source
  dsimp only
  split_ifs <;> constructor <;> rfl

theorem tick_should_arm_outputs {F M L : Type} (st : MixerState F M L) :
    SameOutputs st (tick_should_arm st) := by
  unfold tick_should_arm
  constructor <;> rfl

theorem tick_latch_failsafe_outputs {F M L : Type} (st : MixerState F M L) :
    SameOutputs st (tick_latch_failsafe st) := by
  unfold tick_latch_failsafe
  split_ifs <;> constructor <;> rfl

theorem tick_force_failsafe_outputs {F M L : Type} (st : MixerState F M L) :
    SameOutputs st (tick_force_failsafe st) := by
  unfold tick_force_failsafe
  split_ifs <;> constructor <;> rfl

theorem tick_failsafe_flag_outputs {F M L : Type} (st : MixerState F M L) :
    SameOutputs st (tick_failsafe_flag st) := by
  unfold tick_failsafe_flag
  split_ifs <;> constructor <;> rfl

theorem tick_before_mixing_frame {F M L : Type} (now : Nat) (st : MixerState F M L) :
    SameOutputs st (tick_before_mixing now st) := by
  unfold tick_before_mixing tick_arbitrated
  exact sameOutputs_trans (sameOutputs_trans (sameOutputs_trans (sameOutputs_trans
    (sameOutputs_trans (tick_fmu_freshness_outputs now st) (tick_select_source_outputs _))
    (tick_should_arm_outputs _)) (tick_latch_failsafe_outputs _))
    (tick_force_failsafe_outputs _)) (tick_failsafe_flag_outputs _)

theorem mixer_tick_lockdown {F M L : Type} (pf : Platform F M L) (now : Nat)
    (st : MixerState F M L) :
    hasFlag (mixer_tick pf now st).r_setup_arming PX4IO_P_SETUP_ARMING_LOCKDOWN =
      hasFlag st.r_setup_arming PX4IO_P_SETUP_ARMING_LOCKDOWN := by
  unfold PX4IO_P_SETUP_ARMING_LOCKDOWN
  rw [mixer_tick_r_setup_arming, tick_latch_failsafe_r_setup_arming,
    tick_arbitrated_r_setup_arming]
  simp

/-- The servo page at the end of `mixer_tick`, from the page the mixing step
leaves: the output step replaces it by the disarmed values in lockdown, and when
only `should_always_enable_pwm` holds. -/
theorem mixer_tick_r_page_servos {F M L : Type} (pf : Platform F M L) (now : Nat)
    (st : MixerState F M L) (i : Nat) :
    (mixer_tick pf now st).r_page_servos i =
      if (hasFlag st.r_setup_arming PX4IO_P_SETUP_ARMING_LOCKDOWN ||
          (!(mixer_tick pf now st).should_arm && !(mixer_tick pf now st).should_arm_nothrottle &&
            (mixer_tick pf now st).should_always_enable_pwm)) = true ∧
          i < pf.PX4IO_SERVO_COUNT then
        st.r_page_servo_disarmed i
      else (tick_run_mixers pf (tick_before_mixing now st)).r_page_servos i := by
  have e₆ := tick_run_mixers_same pf (tick_before_mixing now st)
  have e₇ := tick_set_arming_same (tick_run_mixers pf (tick_before_mixing now st))
  have e₈ := tick_write_outputs_same pf
    (tick_set_arming (tick_run_mixers pf (tick_before_mixing now st)))
  have hl := mixer_tick_lockdown pf now st
  have e : mixer_tick pf now st = tick_write_outputs pf
    (tick_set_arming (tick_run_mixers pf (tick_before_mixing now st))) := rfl
  rw [← hl]
  rw [e] at hl ⊢
  rw [e₈.should_arm, e₈.should_arm_nothrottle, e₈.should_always_enable_pwm, e₈.r_setup_arming,
    tick_write_outputs_r_page_servos, tick_set_arming_armed, tick_set_arming_r_page_servos,
    e₇.should_arm, e₇.should_arm_nothrottle, e₇.should_always_enable_pwm, e₇.r_setup_arming,
    e₇.r_page_servo_disarmed, e₆.r_page_servo_disarmed,
    (tick_before_mixing_frame now st).r_page_servo_disarmed]
  cases (tick_run_mixers pf (tick_before_mixing now st)).should_arm <;>
  cases (tick_run_mixers pf (tick_before_mixing now st)).should_arm_nothrottle <;>
  cases (tick_run_mixers pf (tick_before_mixing now st)).should_always_enable_pwm <;>
  cases hasFlag (tick_run_mixers pf (tick_before_mixing now st)).r_setup_arming
    PX4IO_P_SETUP_ARMING_LOCKDOWN <;>
  by_cases hi : i < pf.PX4IO_SERVO_COUNT <;> simp [hi]

/-- C7, as amended: in every state in which the final source of `mixer_tick` is
FAILSAFE, the tick does not run the mixer pipeline (no call of `mix`, hence no
call of the input callback), and the servo page equals the failsafe servo page,
channel for channel, after the mixing step; it still does at the end of the tick
unless the output step writes the disarmed values, which it does in lockdown and
when `should_always_enable_pwm` holds while `should_arm` and
`should_arm_nothrottle` are false: then the servo page equals the disarmed page. -/
theorem C7_failsafe_source_output {F M L : Type} (pf : Platform F M L) (now : Nat)
    (st : MixerState F M L) (h : (mixer_tick pf now st).source = MIX_FAILSAFE) :
    TraceAdds (fun e => e ≠ Event.mix) st (mixer_tick pf now st) ∧
    (mixer_tick pf now st).r_page_servo_failsafe = st.r_page_servo_failsafe ∧
    (∀ i : Nat, i < pf.PX4IO_SERVO_COUNT →
      (tick_run_mixers pf (tick_before_mixing now st)).r_page_servos i =
        st.r_page_servo_failsafe i) ∧
    ((hasFlag st.r_setup_arming PX4IO_P_SETUP_ARMING_LOCKDOWN = false ∧
        ((mixer_tick pf now st).should_arm = true ∨
          (mixer_tick pf now st).should_arm_nothrottle = true ∨
          (mixer_tick pf now st).should_always_enable_pwm = false)) →
      ∀ i : Nat, i < pf.PX4IO_SERVO_COUNT →
        (mixer_tick pf now st).r_page_servos i =
          (mixer_tick pf now st).r_page_servo_failsafe i) ∧
    ((hasFlag st.r_setup_arming PX4IO_P_SETUP_ARMING_LOCKDOWN = true ∨
        ((mixer_tick pf now st).should_arm = false ∧
          (mixer_tick pf now st).should_arm_nothrottle = false ∧
          (mixer_tick pf now st).should_always_enable_pwm = true)) →
      ∀ i : Nat, i < pf.PX4IO_SERVO_COUNT →
        (mixer_tick pf now st).r_page_servos i =
          (mixer_tick pf now st).r_page_servo_disarmed i) := by
  have hsame : SameSetup (tick_before_mixing now st) (mixer_tick pf now st) :=
    mixer_tick_same pf now st
  have hpre := tick_before_mixing_frame now st
  have h₅ : (tick_before_mixing now st).source = MIX_FAILSAFE := by
    rw [← hsame.source]
    exact h
  obtain ⟨htr, hsv⟩ := tick_run_mixers_failsafe pf (tick_before_mixing now st) h₅
  have hfs : (mixer_tick pf now st).r_page_servo_failsafe = st.r_page_servo_failsafe := by
    rw [hsame.r_page_servo_failsafe, hpre.r_page_servo_failsafe]
  have hds : (mixer_tick pf now st).r_page_servo_disarmed = st.r_page_servo_disarmed := by
    rw [hsame.r_page_servo_disarmed, hpre.r_page_servo_disarmed]
  refine ⟨?_, hfs, ?_, ?_, ?_⟩
  · have t₅ : TraceAdds (fun e => e ≠ Event.mix) st (tick_before_mixing now st) :=
      traceAdds_of_eq _ hpre.trace
    have t₆ : TraceAdds (fun e => e ≠ Event.mix) (tick_before_mixing now st)
        (tick_run_mixers pf (tick_before_mixing now st)) := traceAdds_of_eq _ htr
    exact traceAdds_trans (traceAdds_trans (traceAdds_trans t₅ t₆) (tick_set_arming_traceAdds _))
      (tick_write_outputs_traceAdds pf _)
  · intro i hi
    rw [hsv i hi, hpre.r_page_servo_failsafe]
  · rintro ⟨hl, hc⟩ i hi
    rw [mixer_tick_r_page_servos, hfs, hl]
    have hn : ¬ ((false || (!(mixer_tick pf now st).should_arm &&
        !(mixer_tick pf now st).should_arm_nothrottle &&
        (mixer_tick pf now st).should_always_enable_pwm)) = true ∧
        i < pf.PX4IO_SERVO_COUNT) := by
      rcases hc with hc | hc | hc <;> simp [hc]
    rw [if_neg hn, hsv i hi, hpre.r_page_servo_failsafe]
  · intro hc i hi
    rw [mixer_tick_r_page_servos, hds]
    have hp : (hasFlag st.r_setup_arming PX4IO_P_SETUP_ARMING_LOCKDOWN ||
        (!(mixer_tick pf now st).should_arm &&
        !(mixer_tick pf now st).should_arm_nothrottle &&
        (mixer_tick pf now st).should_always_enable_pwm)) = true ∧
        i < pf.PX4IO_SERVO_COUNT := by
      rcases hc with hc | ⟨h₁, h₂, h₃⟩
      · simp [hc, hi]
      · simp [h₁, h₂, h₃, hi]
    rw [if_pos hp]

/-- The counterexample to C7 as stated: on the reference platform in lockdown
the final source of the tick is FAILSAFE, yet channel 0 of the servo page holds
the disarmed value 900 at the end of the tick and not the failsafe value 1000. -/
theorem C7_counterexample :
    (mixer_tick refPlatform 0 refLockdownState).source = MIX_FAILSAFE ∧
    ¬ (∀ i : Nat, i < refPlatform.PX4IO_SERVO_COUNT →
      (mixer_tick refPlatform 0 refLockdownState).r_page_servos i =
        (mixer_tick refPlatform 0 refLockdownState).r_page_servo_failsafe i) := by
  refine ⟨by decide, ?_⟩
  intro hall
  exact absurd (hall 0 (by decide)) (by decide)

/-- The witness of C7: on the reference platform, with all flags clear, the final
source is FAILSAFE and the servo page ends as the failsafe page. -/
theorem C7_failsafe_source_output_witness :
    (mixer_tick refPlatform 0 refFailsafeState).source = MIX_FAILSAFE ∧
    ∀ i : Nat, i < refPlatform.PX4IO_SERVO_COUNT →
      (mixer_tick refPlatform 0 refFailsafeState).r_page_servos i =
        (mixer_tick refPlatform 0 refFailsafeState).r_page_servo_failsafe i :=
  ⟨by decide,
    (C7_failsafe_source_output refPlatform 0 refFailsafeState (by decide)).2.2.2.1
      ⟨by decide, Or.inr (Or.inr (by decide))⟩⟩

/-! ## The input callback -/

/-- C10: on its two retry paths `mixer_handle_text` returns a non-zero status and
corrupts nothing. When SAFETY_OFF and FMU_ARMED are both set it returns 1 and the
whole state is unchanged. When that guard does not fire but a mix is executing
(`in_mixer` set) it returns 1 and the state is the one before with MIXER_OK
cleared in the status register: the text buffer, its length, the mixer
definition and every other status flag are unchanged. -/
theorem C10_retry_paths {F M L : Type} (pf : Platform F M L) (buffer : List Nat) (length : Nat)
    (st : MixerState F M L) :
    ((hasFlag st.r_status_flags PX4IO_P_STATUS_FLAGS_SAFETY_OFF = true ∧
        hasFlag st.r_setup_arming PX4IO_P_SETUP_ARMING_FMU_ARMED = true) →
      mixer_handle_text pf buffer length st = (1, st)) ∧
    (¬ (hasFlag st.r_status_flags PX4IO_P_STATUS_FLAGS_SAFETY_OFF = true ∧
        hasFlag st.r_setup_arming PX4IO_P_SETUP_ARMING_FMU_ARMED = true) →
      st.in_mixer = true →
      (mixer_handle_text pf buffer length st).1 = 1 ∧
      (mixer_handle_text pf buffer length st).2 =
        { st with
          r_status_flags := clearFlag st.r_status_flags PX4IO_P_STATUS_FLAGS_MIXER_OK } ∧
      hasFlag (mixer_handle_text pf buffer length st).2.r_status_flags
        PX4IO_P_STATUS_FLAGS_MIXER_OK = false ∧
      (∀ j : Nat, j < 16 → BIT j ≠ PX4IO_P_STATUS_FLAGS_MIXER_OK →
        hasFlag (mixer_handle_text pf buffer length st).2.r_status_flags (BIT j) =
          hasFlag st.r_status_flags (BIT j)) ∧
      (mixer_handle_text pf buffer length st).2.mixer_text = st.mixer_text ∧
      (mixer_handle_text pf buffer length st).2.mixer_text_length = st.mixer_text_length ∧
      (mixer_handle_text pf buffer length st).2.mixer_group = st.mixer_group ∧
      (mixer_handle_text pf buffer length st).2.trace = st.trace) := by
  constructor
  · rintro ⟨h₁, h₂⟩
    unfold mixer_handle_text
    simp [h₁, h₂]
  · intro hg hm
    have hc : ¬ (hasFlag st.r_status_flags PX4IO_P_STATUS_FLAGS_SAFETY_OFF &&
        hasFlag st.r_setup_arming PX4IO_P_SETUP_ARMING_FMU_ARMED) = true := by
      simpa using hg
    have e : mixer_handle_text pf buffer length st =
        (1, { st with
          r_status_flags := clearFlag st.r_status_flags PX4IO_P_STATUS_FLAGS_MIXER_OK }) := by
      unfold mixer_handle_text
      rw [if_neg hc]
      dsimp only
      rw [if_pos hm]
    rw [e]
    refine ⟨rfl, rfl, ?_, ?_, rfl, rfl, rfl, rfl⟩
    · simp [PX4IO_P_STATUS_FLAGS_MIXER_OK, hasFlag_clearFlag_BIT]
    · intro j hj h8
      have h8' : ¬ (8 = j) := fun e => h8 (by rw [← e]; rfl)
      simp [PX4IO_P_STATUS_FLAGS_MIXER_OK, hasFlag_clearFlag_BIT, hj, h8']

/-- The witness of C10: on the reference platform, a message delivered in flight
(safety off and FMU armed) is refused with status 1 and the state unchanged, and
a message delivered while a mix is executing is refused with status 1 and
MIXER_OK cleared. -/
theorem C10_retry_paths_witness :
    mixer_handle_text refPlatform [0, 0, 1, 65] 4 refInFlightState = (1, refInFlightState) ∧
    (mixer_handle_text refPlatform [0, 0, 1, 65] 4 refMixingState).1 = 1 ∧
    hasFlag (mixer_handle_text refPlatform [0, 0, 1, 65] 4 refMixingState).2.r_status_flags
      PX4IO_P_STATUS_FLAGS_MIXER_OK = false ∧
    (mixer_handle_text refPlatform [0, 0, 1, 65] 4 refMixingState).2.mixer_text_length =
      refMixingState.mixer_text_length :=
  ⟨(C10_retry_paths refPlatform [0, 0, 1, 65] 4 refInFlightState).1 ⟨by decide, by decide⟩,
    ((C10_retry_paths refPlatform [0, 0, 1, 65] 4 refMixingState).2 (by decide) rfl).1,
    ((C10_retry_paths refPlatform [0, 0, 1, 65] 4 refMixingState).2 (by decide) rfl).2.2.1,
    ((C10_retry_paths refPlatform [0, 0, 1, 65] 4 refMixingState).2 (by decide)
      rfl).2.2.2.2.2.1⟩

/-- The witness of C4: on the reference platform with FORCE_FAILSAFE latched and
fresh FMU data, the arbiter chooses the FMU, the final source is FAILSAFE and the
FAILSAFE status flag is set after the tick. -/
theorem C4_forced_failsafe_and_status_witness :
    (tick_arbitrated 200 refForcedState).source = MIX_FMU ∧
    (mixer_tick refPlatform 200 refForcedState).source = MIX_FAILSAFE ∧
    hasFlag (mixer_tick refPlatform 200 refForcedState).r_status_flags
      PX4IO_P_STATUS_FLAGS_FAILSAFE = true :=
  ⟨by decide,
    (C4_forced_failsafe_and_status refPlatform 200 refForcedState).1 (by decide),
    (C4_forced_failsafe_and_status refPlatform 200 refForcedState).2.2.mpr (by decide)⟩

/-- The witness of C5: on the reference platform with FMU data received at time
100, the freshness step at time 500100 (elapsed time exactly 500000) sets FMU_OK,
and at time 500101 it clears FMU_OK and raises the FMU_LOST alarm. -/
theorem C5_fmu_freshness_witness :
    hasFlag (tick_fmu_freshness 500100 refFreshState).r_status_flags
      PX4IO_P_STATUS_FLAGS_FMU_OK = true ∧
    hasFlag (tick_fmu_freshness 500101 refFreshState).r_status_flags
      PX4IO_P_STATUS_FLAGS_FMU_OK = false ∧
    hasFlag (tick_fmu_freshness 500101 refFreshState).r_status_alarms
      PX4IO_P_STATUS_ALARMS_FMU_LOST = true :=
  ⟨((C5_fmu_freshness 500100 refFreshState).2.1 (by decide)).1,
    ((C5_fmu_freshness 500101 refFreshState).1 (Or.inr (by decide))).1,
    ((C5_fmu_freshness 500101 refFreshState).1 (Or.inr (by decide))).2.1⟩

/-! ## The mixer text loader -/

theorem clearFlag_clearFlag (r m : Nat) : clearFlag (clearFlag r m) m = clearFlag r m := by
  unfold clearFlag
  rw [Nat.and_assoc, Nat.and_self]

/-- The message is handed to `handle_text_append` when it passes the guards and
its action is APPEND. -/
theorem mixer_handle_text_append {F M L : Type} (pf : Platform F M L) (buffer : List Nat)
    (length : Nat) (st : MixerState F M L) (hg : passes_guards pf length st)
    (ha : pf.msg_action buffer = pf.F2I_MIXER_ACTION_APPEND)
    (hne : pf.F2I_MIXER_ACTION_APPEND ≠ pf.F2I_MIXER_ACTION_RESET) :
    mixer_handle_text pf buffer length st =
      handle_text_append pf buffer (payload_length pf length)
        { st with
          r_status_flags := clearFlag st.r_status_flags PX4IO_P_STATUS_FLAGS_MIXER_OK } := by
  obtain ⟨h₁, h₂, h₃⟩ := hg
  have hc : ¬ (hasFlag st.r_status_flags PX4IO_P_STATUS_FLAGS_SAFETY_OFF &&
      hasFlag st.r_setup_arming PX4IO_P_SETUP_ARMING_FMU_ARMED) = true := by
    simpa using h₁
  have hl : ¬ length < pf.sizeof_px4io_mixdata := by omega
  have hr : ¬ pf.msg_action buffer = pf.F2I_MIXER_ACTION_RESET := by
    rw [ha]
    exact hne
  unfold mixer_handle_text
  rw [if_neg hc]
  dsimp only
  rw [if_neg (by simp [h₂]), if_neg hl, if_neg hr, if_pos ha]
  rfl

/-- The message is handed to `handle_text_append`, after the reset of the mixer
group and of the buffer length, when it passes the guards and its action is
RESET. -/
theorem mixer_handle_text_reset {F M L : Type} (pf : Platform F M L) (buffer : List Nat)
    (length : Nat) (st : MixerState F M L) (hg : passes_guards pf length st)
    (ha : pf.msg_action buffer = pf.F2I_MIXER_ACTION_RESET) :
    mixer_handle_text pf buffer length st =
      handle_text_append pf buffer (payload_length pf length)
        { st with
          r_status_flags := clearFlag st.r_status_flags PX4IO_P_STATUS_FLAGS_MIXER_OK
          mixer_group := pf.reset st.mixer_group
          trace := st.trace ++ [Event.reset]
          mixer_text_length := 0 } := by
  obtain ⟨h₁, h₂, h₃⟩ := hg
  have hc : ¬ (hasFlag st.r_status_flags PX4IO_P_STATUS_FLAGS_SAFETY_OFF &&
      hasFlag st.r_setup_arming PX4IO_P_SETUP_ARMING_FMU_ARMED) = true := by
    simpa using h₁
  have hl : ¬ length < pf.sizeof_px4io_mixdata := by omega
  unfold mixer_handle_text
  rw [if_neg hc]
  dsimp only
  rw [if_neg (by simp [h₂]), if_neg hl, if_pos ha]
  rfl

/-- The overflow branch of `handle_text_append`. -/
theorem handle_text_append_overflow {F M L : Type} (pf : Platform F M L) (buffer : List Nat)
    (text_length : Nat) (st : MixerState F M L)
    (h : (st.mixer_text_length + text_length + 1) % 2 ^ 32 > sizeof_mixer_text) :
    handle_text_append pf buffer text_length st =
      (0, { st with
        r_status_flags := clearFlag st.r_status_flags PX4IO_P_STATUS_FLAGS_MIXER_OK }) := by
  unfold handle_text_append
  rw [if_pos h]

/-- C11: for every APPEND message that passes the guards and whose payload length
plus the current buffer length plus one terminator byte exceeds the capacity of
200 bytes (the sum being representable in `unsigned`), `mixer_handle_text` leaves
MIXER_OK cleared, leaves the buffer length and every byte of the buffer
unchanged, does not call the parser (the trace of calls is unchanged) and does
not change the mixer definition: the payload is dropped. -/
theorem C11_append_overflow {F M L : Type} (pf : Platform F M L) (buffer : List Nat)
    (length : Nat) (st : MixerState F M L) (hg : passes_guards pf length st)
    (ha : pf.msg_action buffer = pf.F2I_MIXER_ACTION_APPEND)
    (hne : pf.F2I_MIXER_ACTION_APPEND ≠ pf.F2I_MIXER_ACTION_RESET)
    (hfit : st.mixer_text_length + payload_length pf length + 1 < 2 ^ 32)
    (hover : st.mixer_text_length + payload_length pf length + 1 > 200) :
    hasFlag (mixer_handle_text pf buffer length st).2.r_status_flags
      PX4IO_P_STATUS_FLAGS_MIXER_OK = false ∧
    (mixer_handle_text pf buffer length st).2.mixer_text_length = st.mixer_text_length ∧
    (∀ i : Nat, (mixer_handle_text pf buffer length st).2.mixer_text i = st.mixer_text i) ∧
    (mixer_handle_text pf buffer length st).2.trace = st.trace ∧
    (mixer_handle_text pf buffer length st).2.mixer_group = st.mixer_group ∧
    (mixer_handle_text pf buffer length st).2 =
      { st with
        r_status_flags := clearFlag st.r_status_flags PX4IO_P_STATUS_FLAGS_MIXER_OK } := by
  have e : mixer_handle_text pf buffer length st =
      (0, { st with
        r_status_flags := clearFlag st.r_status_flags PX4IO_P_STATUS_FLAGS_MIXER_OK }) := by
    rw [mixer_handle_text_append pf buffer length st hg ha hne,
      handle_text_append_overflow pf buffer _ _
        (by
          show (st.mixer_text_length + payload_length pf length + 1) % 2 ^ 32 > sizeof_mixer_text
          rw [Nat.mod_eq_of_lt hfit]
          exact hover)]
    dsimp only
    rw [clearFlag_clearFlag]
  rw [e]
  refine ⟨?_, rfl, fun _ => rfl, rfl, rfl, rfl⟩
  simp [PX4IO_P_STATUS_FLAGS_MIXER_OK, hasFlag_clearFlag_BIT]

/-- The witness of C11: on the reference platform, with 150 bytes waiting in the
buffer, an APPEND message with a payload of 60 bytes overflows; the buffer length
stays 150, MIXER_OK is cleared and the parser is not called. -/
theorem C11_append_overflow_witness :
    hasFlag (mixer_handle_text refPlatform (refMessage 1 (List.replicate 60 65)) 63
      refBufferedState).2.r_status_flags PX4IO_P_STATUS_FLAGS_MIXER_OK = false ∧
    (mixer_handle_text refPlatform (refMessage 1 (List.replicate 60 65)) 63
      refBufferedState).2.mixer_text_length = 150 ∧
    (mixer_handle_text refPlatform (refMessage 1 (List.replicate 60 65)) 63
      refBufferedState).2.trace = [] :=
  have h := C11_append_overflow refPlatform (refMessage 1 (List.replicate 60 65)) 63
    refBufferedState ⟨by decide, rfl, by decide⟩ (by decide) (by decide) (by decide) (by decide)
  ⟨h.1, h.2.1, h.2.2.2.1⟩

theorem handle_text_append_status {F M L : Type} (pf : Platform F M L) (buffer : List Nat)
    (text_length : Nat) (st : MixerState F M L) :
    (handle_text_append pf buffer text_length st).1 = 0 := by
  unfold handle_text_append
  dsimp only
  split_ifs <;> rfl

/-- C12, as amended: the status returned by `mixer_handle_text` is 1 exactly on
the two retry paths (safety off with the FMU armed, or a mix executing) and 0 in
every other case. In particular the status is 0 for an APPEND message whose
payload overflows the text buffer: the overflow shows only in MIXER_OK being
left cleared, and the payload is not handed to the parser. The status is 0 as
well for a message shorter than the header, which is not processed either. -/
theorem C12_status_code {F M L : Type} (pf : Platform F M L) (buffer : List Nat)
    (length : Nat) (st : MixerState F M L) :
    ((mixer_handle_text pf buffer length st).1 = 1 ↔
      ((hasFlag st.r_status_flags PX4IO_P_STATUS_FLAGS_SAFETY_OFF = true ∧
          hasFlag st.r_setup_arming PX4IO_P_SETUP_ARMING_FMU_ARMED = true) ∨
        st.in_mixer = true)) ∧
    ((mixer_handle_text pf buffer length st).1 = 0 ∨
      (mixer_handle_text pf buffer length st).1 = 1) ∧
    (passes_guards pf length st →
      pf.msg_action buffer = pf.F2I_MIXER_ACTION_APPEND →
      pf.F2I_MIXER_ACTION_APPEND ≠ pf.F2I_MIXER_ACTION_RESET →
      st.mixer_text_length + payload_length pf length + 1 < 2 ^ 32 →
      st.mixer_text_length + payload_length pf length + 1 > 200 →
      (mixer_handle_text pf buffer length st).1 = 0 ∧
      (mixer_handle_text pf buffer length st).2.trace = st.trace ∧
      hasFlag (mixer_handle_text pf buffer length st).2.r_status_flags
        PX4IO_P_STATUS_FLAGS_MIXER_OK = false) ∧
    (¬ (hasFlag st.r_status_flags PX4IO_P_STATUS_FLAGS_SAFETY_OFF = true ∧
          hasFlag st.r_setup_arming PX4IO_P_SETUP_ARMING_FMU_ARMED = true) →
      st.in_mixer = false → length < pf.sizeof_px4io_mixdata →
      (mixer_handle_text pf buffer length st).1 = 0 ∧
      (mixer_handle_text pf buffer length st).2.trace = st.trace ∧
      (mixer_handle_text pf buffer length st).2.mixer_text_length = st.mixer_text_length) := by
  have hst : (mixer_handle_text pf buffer length st).1 =
      if (hasFlag st.r_status_flags PX4IO_P_STATUS_FLAGS_SAFETY_OFF &&
          hasFlag st.r_setup_arming PX4IO_P_SETUP_ARMING_FMU_ARMED) = true then 1
      else if st.in_mixer = true then 1 else 0 := by
    unfold mixer_handle_text
    dsimp only
    split_ifs <;> first | rfl | exact handle_text_append_status pf _ _ _
  refine ⟨?_, ?_, ?_, ?_⟩
  · rw [hst]
    cases hasFlag st.r_status_flags PX4IO_P_STATUS_FLAGS_SAFETY_OFF <;>
    cases hasFlag st.r_setup_arming PX4IO_P_SETUP_ARMING_FMU_ARMED <;>
    cases st.in_mixer <;> simp
  · rw [hst]
    split_ifs <;> simp
  · intro hg ha hne hfit hover
    have e : mixer_handle_text pf buffer length st =
        (0, { st with
          r_status_flags := clearFlag (clearFlag st.r_status_flags PX4IO_P_STATUS_FLAGS_MIXER_OK)
            PX4IO_P_STATUS_FLAGS_MIXER_OK }) := by
      rw [mixer_handle_text_append pf buffer length st hg ha hne,
        handle_text_append_overflow pf buffer _ _
          (by
            show (st.mixer_text_length + payload_length pf length + 1) % 2 ^ 32 >
              sizeof_mixer_text
            rw [Nat.mod_eq_of_lt hfit]
            exact hover)]
    rw [e]
    refine ⟨rfl, rfl, ?_⟩
    simp [PX4IO_P_STATUS_FLAGS_MIXER_OK, hasFlag_clearFlag_BIT]
  · intro h₁ h₂ h₃
    have hc : ¬ (hasFlag st.r_status_flags PX4IO_P_STATUS_FLAGS_SAFETY_OFF &&
        hasFlag st.r_setup_arming PX4IO_P_SETUP_ARMING_FMU_ARMED) = true := by
      simpa using h₁
    have e : mixer_handle_text pf buffer length st =
        (0, { st with
          r_status_flags := clearFlag st.r_status_flags PX4IO_P_STATUS_FLAGS_MIXER_OK }) := by
      unfold mixer_handle_text
      rw [if_neg hc]
      dsimp only
      rw [if_neg (by simp [h₂]), if_pos h₃]
    rw [e]
    exact ⟨rfl, rfl, rfl⟩

/-- The counterexample to C12 as stated: on the reference platform, with nothing
armed and an empty buffer, an APPEND message with a payload of 200 bytes
overflows the text buffer (200 + 1 > 200), is not handed to the parser, and the
status returned is 0. -/
theorem C12_counterexample :
    passes_guards refPlatform 203 refFreshState ∧
    refFreshState.mixer_text_length + payload_length refPlatform 203 + 1 > 200 ∧
    (mixer_handle_text refPlatform (refMessage 1 (List.replicate 200 65)) 203
      refFreshState).1 = 0 ∧
    (mixer_handle_text refPlatform (refMessage 1 (List.replicate 200 65)) 203
      refFreshState).2.trace = [] ∧
    (mixer_handle_text refPlatform (refMessage 1 (List.replicate 200 65)) 203
      refFreshState).2.mixer_text_length = 0 := by
  refine ⟨⟨by decide, rfl, by decide⟩, by decide, by decide, by decide, by decide⟩

/-! ## Arrays as lists, `memcpy` -/

theorem page_list_length (f : Nat → Nat) (n : Nat) : (page_list f n).length = n := by
  simp [page_list]

theorem page_list_congr (f g : Nat → Nat) (n : Nat) (h : ∀ i, i < n → f i = g i) :
    page_list f n = page_list g n := by
  unfold page_list
  apply List.map_congr_left
  intro i hi
  exact h i (List.mem_range.mp hi)

theorem page_list_add (f : Nat → Nat) (a b : Nat) :
    page_list f (a + b) = page_list f a ++ page_list (fun i => f (a + i)) b := by
  unfold page_list
  rw [List.range_add, List.map_append, List.map_map]
  rfl

theorem page_list_drop (f : Nat → Nat) (n k : Nat) (h : k ≤ n) :
    (page_list f n).drop k = page_list (fun i => f (k + i)) (n - k) := by
  have e : n = k + (n - k) := by omega
  conv_lhs => rw [e, page_list_add]
  rw [List.drop_left' (page_list_length f k)]

theorem memcpy_apply (buf : Nat → Nat) (dst : Nat) (src : Nat → Nat) (n i : Nat) :
    memcpy buf dst src n i = if dst ≤ i ∧ i < dst + n then src (i - dst) else buf i := by
  unfold memcpy
  have key := forLoop_invariant
    (fun (k : Nat) (b : Nat → Nat) =>
      ∀ j : Nat, b j = if dst ≤ j ∧ j < dst + k then src (j - dst) else buf j)
    (fun i b => Function.update b (dst + i) (src i)) 0 n (Nat.zero_le _) buf
    (by
      intro j
      show buf j = _
      rw [if_neg (by omega)])
    (by
      intro k b _ _ hb j
      show Function.update b (dst + k) (src k) j = _
      by_cases hj : j = dst + k
      · subst hj
        rw [Function.update_same, if_pos (by omega)]
        congr 1
        omega
      · rw [Function.update_noteq hj, hb j]
        by_cases h₁ : dst ≤ j ∧ j < dst + k
        · have : dst ≤ j ∧ j < dst + (k + 1) := ⟨h₁.1, by omega⟩
          rw [if_pos h₁, if_pos this]
        · have : ¬ (dst ≤ j ∧ j < dst + (k + 1)) := by
            intro h
            exact h₁ ⟨h.1, by omega⟩
          rw [if_neg h₁, if_neg this])
  exact key i

theorem memcpy_within_apply (buf : Nat → Nat) (src n i : Nat) :
    memcpy_within buf 0 src n i = if i < n then buf (src + i) else buf i := by
  unfold memcpy_within
  have key := forLoop_invariant
    (fun (k : Nat) (b : Nat → Nat) =>
      ∀ j : Nat, b j = if j < k then buf (src + j) else buf j)
    (fun i b => Function.update b (0 + i) (b (src + i))) 0 n (Nat.zero_le _) buf
    (fun j => by simp)
    (by
      intro k b _ _ hb j
      show Function.update b (0 + k) (b (src + k)) j = _
      rw [Nat.zero_add]
      by_cases hj : j = k
      · subst hj
        rw [Function.update_same, hb (src + j)]
        have : ¬ src + j < j := by omega
        simp [this]
      · rw [Function.update_noteq hj, hb j]
        by_cases h₁ : j < k
        · have : j < k + 1 := by omega
          rw [if_pos h₁, if_pos this]
        · have : ¬ j < k + 1 := by omega
          rw [if_neg h₁, if_neg this])
  exact key i

/-- The branch of `handle_text_append` in which the payload fits: the parser is
called on `parser_text`, the buffer length becomes the number of bytes the parser
left, and when the parser consumed something and left something, what it left is
copied to the base of the buffer. -/
theorem handle_text_append_room {F M L : Type} (pf : Platform F M L) (buffer : List Nat)
    (t : Nat) (st : MixerState F M L) (h : st.mixer_text_length + t + 1 ≤ 200) :
    handle_text_append pf buffer t st =
      (0, { st with
        mixer_text :=
          if (pf.load_from_buf st.mixer_group (parser_text pf buffer t st)
                (st.mixer_text_length + t)).2 ≠ st.mixer_text_length + t ∧
              (pf.load_from_buf st.mixer_group (parser_text pf buffer t st)
                (st.mixer_text_length + t)).2 > 0 then
            memcpy_within (parser_text pf buffer t st) 0
              ((st.mixer_text_length + t + 2 ^ 32 -
                (pf.load_from_buf st.mixer_group (parser_text pf buffer t st)
                  (st.mixer_text_length + t)).2) % 2 ^ 32)
              (pf.load_from_buf st.mixer_group (parser_text pf buffer t st)
                (st.mixer_text_length + t)).2
          else parser_text pf buffer t st
        mixer_text_length :=
          (pf.load_from_buf st.mixer_group (parser_text pf buffer t st)
            (st.mixer_text_length + t)).2
        mixer_group :=
          (pf.load_from_buf st.mixer_group (parser_text pf buffer t st)
            (st.mixer_text_length + t)).1
        trace := st.trace ++
          [Event.load_from_buf
            (page_list (parser_text pf buffer t st) (st.mixer_text_length + t + 1))
            (st.mixer_text_length + t)] }) := by
  have h₁ : ¬ (st.mixer_text_length + t + 1) % 2 ^ 32 > sizeof_mixer_text := by
    rw [Nat.mod_eq_of_lt (by omega)]
    unfold sizeof_mixer_text
    omega
  have h₂ : (st.mixer_text_length + t) % 2 ^ 32 = st.mixer_text_length + t :=
    Nat.mod_eq_of_lt (by omega)
  unfold handle_text_append
  rw [if_neg h₁]
  simp only [h₂]
  unfold parser_text
  generalize pf.load_from_buf st.mixer_group
    (Function.update
      (memcpy st.mixer_text st.mixer_text_length (fun i => (pf.msg_text buffer).getD i 0) t)
      (st.mixer_text_length + t) 0)
    (st.mixer_text_length + t) = p
  by_cases hr : p.2 = st.mixer_text_length + t
  · simp [hr]
  · by_cases hz : p.2 > 0
    · simp [hr, hz]
    · simp [hr, hz]

theorem parser_text_prefix {F M L : Type} (pf : Platform F M L) (buffer : List Nat)
    (length : Nat) (st : MixerState F M L) :
    page_list (parser_text pf buffer (payload_length pf length) st)
        (st.mixer_text_length + payload_length pf length) =
      buffer_text st ++ payload pf buffer length := by
  rw [page_list_add]
  congr 1
  · apply page_list_congr
    intro i hi
    unfold parser_text
    rw [Function.update_noteq (by omega), memcpy_apply, if_neg (by omega)]
  · unfold payload page_list
    apply List.map_congr_left
    intro i hi
    have hi' := List.mem_range.mp hi
    unfold parser_text
    rw [Function.update_noteq (by omega), memcpy_apply, if_pos ⟨by omega, by omega⟩,
      Nat.add_sub_cancel_left]

theorem parser_text_terminated {F M L : Type} (pf : Platform F M L) (buffer : List Nat)
    (length : Nat) (st : MixerState F M L) :
    page_list (parser_text pf buffer (payload_length pf length) st)
        (st.mixer_text_length + payload_length pf length + 1) =
      buffer_text st ++ payload pf buffer length ++ [0] := by
  rw [page_list_add, parser_text_prefix]
  congr 1
  unfold parser_text page_list
  rw [show List.range 1 = [0] from rfl, List.map_cons, List.map_nil, Nat.add_zero,
    Function.update_same]

/-- The result of `mixer_handle_text` for an APPEND message that passes the guards
and whose payload fits. -/
theorem mixer_handle_text_room {F M L : Type} (pf : Platform F M L) (buffer : List Nat)
    (length : Nat) (st : MixerState F M L) (hg : passes_guards pf length st)
    (ha : pf.msg_action buffer = pf.F2I_MIXER_ACTION_APPEND)
    (hne : pf.F2I_MIXER_ACTION_APPEND ≠ pf.F2I_MIXER_ACTION_RESET)
    (hroom : st.mixer_text_length + payload_length pf length + 1 ≤ 200) :
    mixer_handle_text pf buffer length st =
      (0, { st with
        r_status_flags := clearFlag st.r_status_flags PX4IO_P_STATUS_FLAGS_MIXER_OK
        mixer_text :=
          if (parse_result pf buffer length st).2 ≠
                st.mixer_text_length + payload_length pf length ∧
              (parse_result pf buffer length st).2 > 0 then
            memcpy_within (parser_text pf buffer (payload_length pf length) st) 0
              ((st.mixer_text_length + payload_length pf length + 2 ^ 32 -
                (parse_result pf buffer length st).2) % 2 ^ 32)
              (parse_result pf buffer length st).2
          else parser_text pf buffer (payload_length pf length) st
        mixer_text_length := (parse_result pf buffer length st).2
        mixer_group := (parse_result pf buffer length st).1
        trace := st.trace ++
          [Event.load_from_buf
            (page_list (parser_text pf buffer (payload_length pf length) st)
              (st.mixer_text_length + payload_length pf length + 1))
            (st.mixer_text_length + payload_length pf length)] }) := by
  have e := handle_text_append_room pf buffer (payload_length pf length)
    { st with r_status_flags := clearFlag st.r_status_flags PX4IO_P_STATUS_FLAGS_MIXER_OK }
    hroom
  rw [mixer_handle_text_append pf buffer length st hg ha hne]
  exact e

/-- C14: for every APPEND message that passes the guards and whose payload `p`
fits behind the text `b` waiting in the buffer (with the terminator, at most 200
bytes): the parser is called on `b` followed by `p`, terminated by a zero byte
at index |b|+|p|, with length |b|+|p|; afterwards the buffer length is the number
`r` of bytes the parser reports as left; if `r` differs from |b|+|p| (and is at
most |b|+|p|) the first `r` bytes of the buffer are the last `r` bytes of `b`
followed by `p`; if the parser consumes nothing (`r` = |b|+|p|) the buffer holds
`b` followed by `p`. -/
theorem C14_append_parse {F M L : Type} (pf : Platform F M L) (buffer : List Nat)
    (length : Nat) (st : MixerState F M L) (hg : passes_guards pf length st)
    (ha : pf.msg_action buffer = pf.F2I_MIXER_ACTION_APPEND)
    (hne : pf.F2I_MIXER_ACTION_APPEND ≠ pf.F2I_MIXER_ACTION_RESET)
    (hroom : st.mixer_text_length + payload_length pf length + 1 ≤ 200) :
    page_list (parser_text pf buffer (payload_length pf length) st)
        (st.mixer_text_length + payload_length pf length + 1) =
      buffer_text st ++ payload pf buffer length ++ [0] ∧
    (mixer_handle_text pf buffer length st).2.trace =
      st.trace ++ [Event.load_from_buf (buffer_text st ++ payload pf buffer length ++ [0])
        ((buffer_text st).length + (payload pf buffer length).length)] ∧
    (mixer_handle_text pf buffer length st).2.mixer_group = (parse_result pf buffer length st).1 ∧
    (mixer_handle_text pf buffer length st).2.mixer_text_length =
      (parse_result pf buffer length st).2 ∧
    ((parse_result pf buffer length st).2 ≠
        (buffer_text st).length + (payload pf buffer length).length →
      (parse_result pf buffer length st).2 ≤
        (buffer_text st).length + (payload pf buffer length).length →
      page_list (mixer_handle_text pf buffer length st).2.mixer_text
          (parse_result pf buffer length st).2 =
        (buffer_text st ++ payload pf buffer length).drop
          ((buffer_text st).length + (payload pf buffer length).length -
            (parse_result pf buffer length st).2)) ∧
    ((parse_result pf buffer length st).2 =
        (buffer_text st).length + (payload pf buffer length).length →
      page_list (mixer_handle_text pf buffer length st).2.mixer_text
          ((buffer_text st).length + (payload pf buffer length).length) =
        buffer_text st ++ payload pf buffer length) := by
  have hb : (buffer_text st).length = st.mixer_text_length := page_list_length _ _
  have hp : (payload pf buffer length).length = payload_length pf length := by
    simp [payload]
  rw [hb, hp, mixer_handle_text_room pf buffer length st hg ha hne hroom]
  have ht := parser_text_terminated pf buffer length st
  have hpre := parser_text_prefix pf buffer length st
  refine ⟨ht, ?_, rfl, rfl, ?_, ?_⟩
  · show st.trace ++ [Event.load_from_buf
      (page_list (parser_text pf buffer (payload_length pf length) st)
        (st.mixer_text_length + payload_length pf length + 1))
      (st.mixer_text_length + payload_length pf length)] = _
    rw [ht]
  · intro hne' hle
    show page_list (if _ then _ else _) _ = _
    generalize (parse_result pf buffer length st).2 = r at hne' hle ⊢
    rw [← hpre, page_list_drop _ _ _ (by omega)]
    have hsub : st.mixer_text_length + payload_length pf length -
        (st.mixer_text_length + payload_length pf length - r) = r := by omega
    rw [hsub]
    apply page_list_congr
    intro i hi
    have hmod : (st.mixer_text_length + payload_length pf length + 2 ^ 32 - r) % 2 ^ 32 =
        st.mixer_text_length + payload_length pf length - r := by
      have : st.mixer_text_length + payload_length pf length + 2 ^ 32 - r =
          (st.mixer_text_length + payload_length pf length - r) + 2 ^ 32 := by omega
      rw [this, Nat.add_mod_right, Nat.mod_eq_of_lt (by omega)]
    rw [if_pos ⟨hne', by omega⟩, memcpy_within_apply, if_pos hi, hmod]
  · intro heq
    show page_list (if _ then _ else _) _ = _
    rw [if_neg (fun h => h.1 heq)]
    exact hpre

/-! ## The calls `mixer_tick` makes -/

theorem tick_run_mixers_trace {F M L : Type} (pf : Platform F M L) (st : MixerState F M L) :
    (tick_run_mixers pf st).trace = st.trace ++ run_mixers_events st := by
  unfold tick_run_mixers run_mixers_events
  by_cases h : st.source = MIX_FAILSAFE
  · rw [if_pos h, if_neg (fun hh => hh.1 h), List.append_nil]
    exact forLoop_preserves (fun s : MixerState F M L => s.trace) (failsafe_copy_body pf)
      (fun _ _ => rfl) _ _ _
  · rw [if_neg h]
    split_ifs with h₁ h₂ h₂
    · dsimp only
      rw [forLoop_preserves (fun s : MixerState F M L => s.trace) (store_actuators_body pf _)
        (fun _ _ => rfl),
        forLoop_preserves (fun s : MixerState F M L × (Nat → F) => s.1.trace)
          (clamp_unused_body pf) (fun _ _ => rfl)]
    · exact absurd ⟨h, h₁⟩ h₂
    · exact absurd h₂.2 h₁
    · rw [List.append_nil]

theorem tick_set_arming_trace {F M L : Type} (st : MixerState F M L) :
    (tick_set_arming st).trace = st.trace ++ set_arming_events st := by
  unfold tick_set_arming set_arming_events
  dsimp only
  split_ifs <;> simp_all

theorem servo_set_loop {F M L : Type} (st : MixerState F M L) (n : Nat) :
    (forLoop 0 n servo_set_body st).r_setup_features = st.r_setup_features ∧
    (forLoop 0 n servo_set_body st).r_page_servos = st.r_page_servos ∧
    (forLoop 0 n servo_set_body st).trace =
      st.trace ++ (List.range n).map (fun i => Event.up_pwm_servo_set i (st.r_page_servos i)) := by
  have key := forLoop_invariant
    (fun (k : Nat) (s : MixerState F M L) =>
      s.r_setup_features = st.r_setup_features ∧ s.r_page_servos = st.r_page_servos ∧
      s.trace = st.trace ++
        (List.range k).map (fun i => Event.up_pwm_servo_set i (st.r_page_servos i)))
    servo_set_body 0 n (Nat.zero_le _) st
    ⟨rfl, rfl, by simp⟩
    (by
      intro k t _ _ ht
      refine ⟨ht.1, ht.2.1, ?_⟩
      show t.trace ++ [Event.up_pwm_servo_set k (t.r_page_servos k)] = _
      rw [ht.2.2, ht.2.1, List.range_succ, List.map_append, List.append_assoc]
      rfl)
  exact key

theorem servo_disarmed_loop_trace {F M L : Type} (st : MixerState F M L) (n : Nat) :
    (forLoop 0 n servo_disarmed_body st).r_setup_features = st.r_setup_features ∧
    (forLoop 0 n servo_disarmed_body st).r_page_servo_disarmed = st.r_page_servo_disarmed ∧
    (forLoop 0 n servo_disarmed_body st).trace =
      st.trace ++
        (List.range n).map (fun i => Event.up_pwm_servo_set i (st.r_page_servo_disarmed i)) := by
  have key := forLoop_invariant
    (fun (k : Nat) (s : MixerState F M L) =>
      s.r_setup_features = st.r_setup_features ∧
      s.r_page_servo_disarmed = st.r_page_servo_disarmed ∧
      s.trace = st.trace ++
        (List.range k).map (fun i => Event.up_pwm_servo_set i (st.r_page_servo_disarmed i)))
    servo_disarmed_body 0 n (Nat.zero_le _) st
    ⟨rfl, rfl, by simp⟩
    (by
      intro k t _ _ ht
      refine ⟨ht.1, ht.2.1, ?_⟩
      show t.trace ++ [Event.up_pwm_servo_set k (t.r_page_servo_disarmed k)] = _
      rw [ht.2.2, ht.2.1, List.range_succ, List.map_append, List.append_assoc]
      rfl)
  exact key

theorem tick_write_outputs_trace {F M L : Type} (pf : Platform F M L) (st : MixerState F M L) :
    (tick_write_outputs pf st).trace = st.trace ++ write_outputs_events pf st := by
  obtain ⟨a₁, a₂, a₃⟩ := servo_set_loop st pf.PX4IO_SERVO_COUNT
  obtain ⟨b₁, b₂, b₃⟩ := servo_disarmed_loop_trace st pf.PX4IO_SERVO_COUNT
  unfold tick_write_outputs write_outputs_events
  dsimp only
  split_ifs <;> simp_all

theorem mixer_tick_trace {F M L : Type} (pf : Platform F M L) (now : Nat)
    (st : MixerState F M L) :
    (mixer_tick pf now st).trace =
      st.trace ++ (run_mixers_events (tick_before_mixing now st) ++
        set_arming_events (tick_run_mixers pf (tick_before_mixing now st)) ++
        write_outputs_events pf
          (tick_set_arming (tick_run_mixers pf (tick_before_mixing now st)))) := by
  have e : mixer_tick pf now st = tick_write_outputs pf
    (tick_set_arming (tick_run_mixers pf (tick_before_mixing now st))) := rfl
  rw [e, tick_write_outputs_trace, tick_set_arming_trace, tick_run_mixers_trace,
    (tick_before_mixing_frame now st).trace, List.append_assoc, List.append_assoc,
    List.append_assoc]

theorem tick_events_eq {F M L : Type} (pf : Platform F M L) (now : Nat)
    (st : MixerState F M L) :
    tick_events pf now st =
      run_mixers_events (tick_before_mixing now st) ++
        set_arming_events (tick_run_mixers pf (tick_before_mixing now st)) ++
        write_outputs_events pf
          (tick_set_arming (tick_run_mixers pf (tick_before_mixing now st))) := by
  unfold tick_events
  rw [mixer_tick_trace, List.drop_left]

theorem events_of_run_mixers {F M L : Type} (st : MixerState F M L) :
    arm_calls (run_mixers_events st) = [] ∧ servo_writes (run_mixers_events st) = [] ∧
    sbus1_calls (run_mixers_events st) = [] ∧ sbus2_calls (run_mixers_events st) = [] ∧
    parser_calls (run_mixers_events st) = [] := by
  unfold run_mixers_events arm_calls servo_writes sbus1_calls sbus2_calls parser_calls
  split_ifs <;> simp

theorem events_of_set_arming {F M L : Type} (st : MixerState F M L) :
    mix_calls (set_arming_events st) = 0 ∧ servo_writes (set_arming_events st) = [] ∧
    sbus1_calls (set_arming_events st) = [] ∧ sbus2_calls (set_arming_events st) = [] ∧
    parser_calls (set_arming_events st) = [] := by
  unfold set_arming_events mix_calls servo_writes sbus1_calls sbus2_calls parser_calls
  split_ifs <;> simp

theorem events_of_write_outputs {F M L : Type} (pf : Platform F M L) (st : MixerState F M L) :
    mix_calls (write_outputs_events pf st) = 0 ∧ arm_calls (write_outputs_events pf st) = [] ∧
    parser_calls (write_outputs_events pf st) = [] := by
  unfold write_outputs_events mix_calls arm_calls parser_calls
  refine ⟨?_, ?_, ?_⟩ <;> split_ifs <;> simp [List.filterMap_map, List.count_eq_zero]

/-! ## The bound of the text buffer -/

theorem parser_calls_append (l₁ l₂ : List Event) :
    parser_calls (l₁ ++ l₂) = parser_calls l₁ ++ parser_calls l₂ := by
  unfold parser_calls
  rw [List.filterMap_append]

theorem textBufferBound_of_frame {F M L : Type} (outside : Nat → Nat) {s t : MixerState F M L}
    (h : TextBufferBound outside s) (h₁ : t.mixer_text_length = s.mixer_text_length)
    (h₂ : t.mixer_text = s.mixer_text) (evs : List Event) (h₃ : t.trace = s.trace ++ evs)
    (h₄ : parser_calls evs = []) : TextBufferBound outside t := by
  obtain ⟨a, b, c⟩ := h
  refine ⟨by rw [h₁]; exact a, fun i hi => by rw [h₂]; exact b i hi, ?_⟩
  rw [h₃, parser_calls_append, h₄, List.append_nil]
  exact c

theorem mixer_tick_textBufferBound {F M L : Type} (pf : Platform F M L) (now : Nat)
    (outside : Nat → Nat) (st : MixerState F M L) (h : TextBufferBound outside st) :
    TextBufferBound outside (mixer_tick pf now st) := by
  have hs := mixer_tick_same pf now st
  have hb := tick_before_mixing_frame now st
  refine textBufferBound_of_frame outside h ?_ ?_ _ (mixer_tick_trace pf now st) ?_
  · exact hs.mixer_text_length.trans hb.mixer_text_length
  · exact hs.mixer_text.trans hb.mixer_text
  · rw [parser_calls_append, parser_calls_append, (events_of_run_mixers _).2.2.2.2,
      (events_of_set_arming _).2.2.2.2, (events_of_write_outputs pf _).2.2]
    rfl

theorem mixer_set_failsafe_textBufferBound {F M L : Type} (pf : Platform F M L)
    (outside : Nat → Nat) (st : MixerState F M L) (h : TextBufferBound outside st) :
    TextBufferBound outside (mixer_set_failsafe pf st) := by
  unfold mixer_set_failsafe
  dsimp only
  split_ifs
  · exact h
  · refine textBufferBound_of_frame outside h ?_ ?_ [Event.mix] ?_ (by simp [parser_calls])
    · exact (forLoop_preserves (fun s : MixerState F M L => s.mixer_text_length)
        failsafe_disable_body (fun _ _ => rfl) _ _ _).trans
        (forLoop_preserves (fun s : MixerState F M L => s.mixer_text_length)
          (failsafe_scale_body pf _) (fun _ _ => rfl) _ _ _)
    · exact (forLoop_preserves (fun s : MixerState F M L => s.mixer_text)
        failsafe_disable_body (fun _ _ => rfl) _ _ _).trans
        (forLoop_preserves (fun s : MixerState F M L => s.mixer_text)
          (failsafe_scale_body pf _) (fun _ _ => rfl) _ _ _)
    · exact (forLoop_preserves (fun s : MixerState F M L => s.trace)
        failsafe_disable_body (fun _ _ => rfl) _ _ _).trans
        (forLoop_preserves (fun s : MixerState F M L => s.trace)
          (failsafe_scale_body pf _) (fun _ _ => rfl) _ _ _)

theorem handle_text_append_textBufferBound {F M L : Type} (pf : Platform F M L)
    (hp : parser_bounded pf) (buffer : List Nat) (t : Nat) (outside : Nat → Nat)
    (st : MixerState F M L) (h : TextBufferBound outside st)
    (ht : t + sizeof_mixer_text < 2 ^ 32) :
    TextBufferBound outside (handle_text_append pf buffer t st).2 := by
  obtain ⟨a, b, c⟩ := h
  unfold sizeof_mixer_text at a b c ht
  by_cases hroom : st.mixer_text_length + t + 1 ≤ 200
  · rw [handle_text_append_room pf buffer t st hroom]
    have hr := hp st.mixer_group (parser_text pf buffer t st) (st.mixer_text_length + t)
    have hout : ∀ i : Nat, 200 ≤ i → parser_text pf buffer t st i = outside i := by
      intro i hi
      unfold parser_text
      rw [Function.update_noteq (by omega), memcpy_apply, if_neg (by omega)]
      exact b i hi
    refine ⟨?_, ?_, ?_⟩
    · show (pf.load_from_buf st.mixer_group (parser_text pf buffer t st)
        (st.mixer_text_length + t)).2 + 1 ≤ sizeof_mixer_text
      unfold sizeof_mixer_text
      omega
    · intro i hi
      unfold sizeof_mixer_text at hi
      show (ite _ _ _ : Nat → Nat) i = _
      split_ifs
      · rw [memcpy_within_apply, if_neg (by omega)]
        exact hout i hi
      · exact hout i hi
    · intro n hn
      change n ∈ parser_calls (st.trace ++ [Event.load_from_buf _ (st.mixer_text_length + t)])
        at hn
      rw [parser_calls_append] at hn
      rcases List.mem_append.mp hn with hn | hn
      · exact c n hn
      · have : n = st.mixer_text_length + t := by simpa [parser_calls] using hn
        unfold sizeof_mixer_text
        omega
  · have hover : (st.mixer_text_length + t + 1) % 2 ^ 32 > sizeof_mixer_text := by
      rw [Nat.mod_eq_of_lt (by omega)]
      unfold sizeof_mixer_text
      omega
    rw [handle_text_append_overflow pf buffer t st hover]
    exact ⟨a, b, c⟩

theorem mixer_handle_text_textBufferBound {F M L : Type} (pf : Platform F M L)
    (hp : parser_bounded pf) (buffer : List Nat) (length : Nat) (outside : Nat → Nat)
    (st : MixerState F M L) (h : TextBufferBound outside st)
    (hl : payload_length pf length + sizeof_mixer_text < 2 ^ 32) :
    TextBufferBound outside (mixer_handle_text pf buffer length st).2 := by
  have ht : (length - pf.sizeof_px4io_mixdata) % 2 ^ 32 + sizeof_mixer_text < 2 ^ 32 := hl
  obtain ⟨a, b, c⟩ := h
  unfold mixer_handle_text
  dsimp only
  split_ifs
  · exact ⟨a, b, c⟩
  · exact ⟨a, b, c⟩
  · exact ⟨a, b, c⟩
  · refine handle_text_append_textBufferBound pf hp buffer _ outside _ ⟨?_, b, ?_⟩ ht
    · show 0 + 1 ≤ sizeof_mixer_text
      unfold sizeof_mixer_text
      omega
    · intro n hn
      change n ∈ parser_calls (st.trace ++ [Event.reset]) at hn
      rw [parser_calls_append] at hn
      rcases List.mem_append.mp hn with hn | hn
      · exact c n hn
      · simp [parser_calls] at hn
  · exact handle_text_append_textBufferBound pf hp buffer _ outside _ ⟨a, b, c⟩ ht
  · exact ⟨a, b, c⟩

theorem run_ops_textBufferBound {F M L : Type} (pf : Platform F M L) (hp : parser_bounded pf)
    (outside : Nat → Nat) (ops : List CoreOp) (hfit : ∀ op ∈ ops, op_fits pf op)
    (st : MixerState F M L) (h : TextBufferBound outside st) :
    TextBufferBound outside (run_ops pf ops st) := by
  unfold run_ops
  induction ops generalizing st with
  | nil => exact h
  | cons op ops ih =>
    rw [List.foldl_cons]
    apply ih (fun o ho => hfit o (List.mem_cons_of_mem _ ho))
    have hop := hfit op (List.mem_cons_self _ _)
    cases op with
    | tick now => exact mixer_tick_textBufferBound pf now outside st h
    | handle_text buffer length =>
      exact mixer_handle_text_textBufferBound pf hp buffer length outside st h hop
    | set_failsafe => exact mixer_set_failsafe_textBufferBound pf outside st h
    | environment status arming received_time => exact h

/-- The bound of the text buffer is an invariant of the loader for messages
whose payload length cannot make the sum of line 437 wrap. Starting from the empty
buffer, after every sequence of calls of `mixer_handle_text` with messages of any
action and of any length whose payload is below 2^32 - 200 bytes, interleaved with
ticks, failsafe precomputations and writes to the flags, the buffer length is at
most 199, every call of the parser was made with its terminator at an index of at
most 199, and no byte behind the 200 bytes of the array has changed; assuming
that the parser never reports more unconsumed bytes than it was given. -/
theorem text_buffer_bound_of_fits {F M L : Type} (pf : Platform F M L)
    (hp : parser_bounded pf) (ops : List CoreOp) (hfit : ∀ op ∈ ops, op_fits pf op)
    (st : MixerState F M L) (h₀ : st.mixer_text_length = 0) (htr : st.trace = []) :
    (run_ops pf ops st).mixer_text_length ≤ 199 ∧
    (∀ n ∈ parser_calls (run_ops pf ops st).trace, n ≤ 199) ∧
    (∀ i : Nat, 200 ≤ i → (run_ops pf ops st).mixer_text i = st.mixer_text i) := by
  have h : TextBufferBound st.mixer_text st := by
    refine ⟨?_, fun _ _ => rfl, ?_⟩
    · rw [h₀]
      unfold sizeof_mixer_text
      omega
    · rw [htr]
      intro n hn
      simp [parser_calls] at hn
  obtain ⟨a, b, c⟩ := run_ops_textBufferBound pf hp st.mixer_text ops hfit st h
  unfold sizeof_mixer_text at a b c
  exact ⟨by omega, fun n hn => by have := c n hn; omega, b⟩

/-- On the reference platform, whose parser consumes nothing, the sequence
`refLoadOps` run from the initial state keeps the buffer length at most 199. -/
theorem text_buffer_bound_refLoadOps :
    (run_ops refPlatform refLoadOps (refState 0 0)).mixer_text_length ≤ 199 ∧
    (∀ n ∈ parser_calls (run_ops refPlatform refLoadOps (refState 0 0)).trace, n ≤ 199) ∧
    (∀ i : Nat, 200 ≤ i →
      (run_ops refPlatform refLoadOps (refState 0 0)).mixer_text i = (refState 0 0).mixer_text i) :=
  text_buffer_bound_of_fits refPlatform (fun _ _ n => Nat.le_refl n) refLoadOps
    (by
      intro op hop
      simp only [refLoadOps, List.mem_cons, List.mem_singleton, List.not_mem_nil, or_false]
        at hop
      rcases hop with rfl | rfl | rfl | rfl | rfl <;>
        first
          | trivial
          | (show (_ : Nat) + 200 < 2 ^ 32; decide))
    (refState 0 0) rfl rfl

theorem append_room_trace {F M L : Type} (pf : Platform F M L) (buffer : List Nat)
    (length : Nat) (st : MixerState F M L) (hg : passes_guards pf length st)
    (ha : pf.msg_action buffer = pf.F2I_MIXER_ACTION_APPEND)
    (hne : pf.F2I_MIXER_ACTION_APPEND ≠ pf.F2I_MIXER_ACTION_RESET)
    (hroom : st.mixer_text_length + payload_length pf length + 1 ≤ 200) :
    (mixer_handle_text pf buffer length st).2.trace =
      st.trace ++ [Event.load_from_buf (buffer_text st ++ payload pf buffer length ++ [0])
        ((buffer_text st).length + (payload pf buffer length).length)] := by
  have hb : (buffer_text st).length = st.mixer_text_length := page_list_length _ _
  have hp : (payload pf buffer length).length = payload_length pf length := by
    simp [payload]
  rw [hb, hp, mixer_handle_text_room pf buffer length st hg ha hne hroom,
    ← parser_text_terminated pf buffer length st]


theorem handle_text_append_text {F M L : Type} (pf : Platform F M L) (b₁ b₂ : List Nat)
    (t : Nat) (st : MixerState F M L) (h : pf.msg_text b₁ = pf.msg_text b₂) :
    handle_text_append pf b₁ t st = handle_text_append pf b₂ t st := by
  unfold handle_text_append
  rw [h]

/-- C15: a RESET message is a full reset followed by an APPEND of the same
payload. For every state that passes the guards, `mixer_handle_text` on a message
with action RESET gives the same status and the same state as
`mixer_handle_text` on the message with action APPEND, the same text and the
same length run from the state in which the mixer definition has been emptied
and the buffer length set to 0. When the payload fits, the parser is called once,
on the payload alone. -/
theorem C15_reset_then_append {F M L : Type} (pf : Platform F M L) (bufR bufA : List Nat)
    (length : Nat) (st : MixerState F M L) (hg : passes_guards pf length st)
    (hR : pf.msg_action bufR = pf.F2I_MIXER_ACTION_RESET)
    (hA : pf.msg_action bufA = pf.F2I_MIXER_ACTION_APPEND)
    (hne : pf.F2I_MIXER_ACTION_APPEND ≠ pf.F2I_MIXER_ACTION_RESET)
    (htext : pf.msg_text bufR = pf.msg_text bufA) :
    mixer_handle_text pf bufR length st = mixer_handle_text pf bufA length (reset_state pf st) ∧
    (payload_length pf length + 1 ≤ 200 →
      (mixer_handle_text pf bufR length st).2.trace =
        st.trace ++ [Event.reset,
          Event.load_from_buf (payload pf bufR length ++ [0]) (payload pf bufR length).length]) := by
  have hg' : passes_guards pf length (reset_state pf st) := hg
  have e : mixer_handle_text pf bufR length st =
      mixer_handle_text pf bufA length (reset_state pf st) := by
    rw [mixer_handle_text_reset pf bufR length st hg hR,
      mixer_handle_text_append pf bufA length (reset_state pf st) hg' hA hne,
      handle_text_append_text pf bufR bufA _ _ htext]
    rfl
  refine ⟨e, ?_⟩
  intro hroom
  have hroom' : (reset_state pf st).mixer_text_length + payload_length pf length + 1 ≤ 200 := by
    show 0 + payload_length pf length + 1 ≤ 200
    omega
  have h14 := append_room_trace pf bufA length (reset_state pf st) hg' hA hne hroom'
  have hb : buffer_text (reset_state pf st) = [] := rfl
  have hp : payload pf bufR length = payload pf bufA length := by
    unfold payload
    rw [htext]
  rw [e, h14, hb, hp]
  show st.trace ++ [Event.reset] ++ _ = _
  simp

/-! ## Witnesses for the mixer text loader -/

/-- The witness of C12: on the reference platform the status is 1 while a mix is
executing, and 0 for an APPEND message of 60 bytes that overflows a buffer
holding 150 bytes. -/
theorem C12_status_code_witness :
    (mixer_handle_text refPlatform (refMessage 1 [65]) 4 refMixingState).1 = 1 ∧
    (mixer_handle_text refPlatform (refMessage 1 (List.replicate 60 65)) 63
      refBufferedState).1 = 0 :=
  ⟨(C12_status_code refPlatform (refMessage 1 [65]) 4 refMixingState).1.mpr (Or.inr rfl),
    ((C12_status_code refPlatform (refMessage 1 (List.replicate 60 65)) 63
      refBufferedState).2.2.1 ⟨by decide, rfl, by decide⟩ (by decide) (by decide) (by decide)
      (by decide)).1⟩

/-- The witness of C14: on the reference platform with a parser that leaves the
last two bytes, appending `ACD` to a buffer holding `BB` calls the parser on
`BBACD` with a terminator and length 5; the parser leaves 2 bytes, the buffer
length becomes 2 and the buffer starts with `CD`. -/
theorem C14_append_parse_witness :
    (parse_result refParsingPlatform (refMessage 1 [65, 67, 68]) 6 refTwoBytesState).2 = 2 ∧
    (mixer_handle_text refParsingPlatform (refMessage 1 [65, 67, 68]) 6
      refTwoBytesState).2.mixer_text_length = 2 ∧
    page_list (mixer_handle_text refParsingPlatform (refMessage 1 [65, 67, 68]) 6
        refTwoBytesState).2.mixer_text
      (parse_result refParsingPlatform (refMessage 1 [65, 67, 68]) 6 refTwoBytesState).2 =
      [67, 68] ∧
    (mixer_handle_text refParsingPlatform (refMessage 1 [65, 67, 68]) 6
      refTwoBytesState).2.trace = [Event.load_from_buf [66, 66, 65, 67, 68, 0] 5] :=
  have h := C14_append_parse refParsingPlatform (refMessage 1 [65, 67, 68]) 6 refTwoBytesState
    ⟨by decide, rfl, by decide⟩ (by decide) (by decide) (by decide)
  ⟨by decide, h.2.2.2.1.trans (by decide),
    (h.2.2.2.2.1 (by decide) (by decide)).trans (by decide), h.2.1.trans (by decide)⟩

/-- The witness of C15: on the reference platform, with 150 bytes waiting in the
buffer, a RESET message with the payload `A` gives the result of the APPEND
message with the same payload run from the reset state, and the parser is called
on `A` alone. -/
theorem C15_reset_then_append_witness :
    mixer_handle_text refPlatform (refMessage 0 [65]) 4 refBufferedState =
      mixer_handle_text refPlatform (refMessage 1 [65]) 4
        (reset_state refPlatform refBufferedState) ∧
    (mixer_handle_text refPlatform (refMessage 0 [65]) 4 refBufferedState).2.trace =
      [Event.reset, Event.load_from_buf [65, 0] 1] :=
  have h := C15_reset_then_append refPlatform (refMessage 0 [65]) (refMessage 1 [65]) 4
    refBufferedState ⟨by decide, rfl, by decide⟩ (by decide) (by decide) (by decide) rfl
  ⟨h.1, (h.2 (by decide)).trans (by decide)⟩

/-! ## Failsafe precomputation -/

theorem forLoop_empty {σ : Type} (lo hi : Nat) (body : Nat → σ → σ) (s : σ) (h : hi ≤ lo) :
    forLoop lo hi body s = s := by
  unfold forLoop
  rw [Nat.sub_eq_zero_of_le h]
  rfl

theorem failsafe_scale_loop {F M L : Type} (pf : Platform F M L) (outputs : Nat → F) (m : Nat)
    (st : MixerState F M L) (j : Nat) :
    (forLoop 0 m (failsafe_scale_body pf outputs) st).r_page_servo_failsafe j =
      if j < m then scale_to_pwm pf (outputs j) else st.r_page_servo_failsafe j := by
  have key := forLoop_invariant
    (fun (k : Nat) (s : MixerState F M L) =>
      ∀ i : Nat, s.r_page_servo_failsafe i =
        if i < k then scale_to_pwm pf (outputs i) else st.r_page_servo_failsafe i)
    (failsafe_scale_body pf outputs) 0 m (Nat.zero_le _) st
    (fun i => by simp)
    (by
      intro k t _ _ ht i
      show Function.update t.r_page_servo_failsafe k (scale_to_pwm pf (outputs k)) i = _
      by_cases hik : i = k
      · subst hik
        rw [Function.update_same, if_pos (by omega)]
      · rw [Function.update_noteq hik, ht i]
        by_cases hlt : i < k
        · rw [if_pos hlt, if_pos (by omega)]
        · rw [if_neg hlt, if_neg (by omega)])
  exact key j

theorem failsafe_disable_loop {F M L : Type} (lo hi : Nat) (st : MixerState F M L) (j : Nat) :
    (forLoop lo hi failsafe_disable_body st).r_page_servo_failsafe j =
      if lo ≤ j ∧ j < hi then 0 else st.r_page_servo_failsafe j := by
  by_cases hle : lo ≤ hi
  · have key := forLoop_invariant
      (fun (k : Nat) (s : MixerState F M L) =>
        ∀ i : Nat, s.r_page_servo_failsafe i =
          if lo ≤ i ∧ i < k then 0 else st.r_page_servo_failsafe i)
      failsafe_disable_body lo hi hle st
      (by
        intro i
        show st.r_page_servo_failsafe i = _
        rw [if_neg (by omega)])
      (by
        intro k t _ _ ht i
        show Function.update t.r_page_servo_failsafe k 0 i = _
        by_cases hik : i = k
        · subst hik
          rw [Function.update_same, if_pos ⟨by omega, by omega⟩]
        · rw [Function.update_noteq hik, ht i]
          by_cases hlt : lo ≤ i ∧ i < k
          · rw [if_pos hlt, if_pos ⟨hlt.1, by omega⟩]
          · rw [if_neg hlt, if_neg (fun h => hlt ⟨h.1, by omega⟩)])
    exact key j
  · rw [forLoop_empty lo hi _ _ (by omega), if_neg (by omega)]

/-- C16: in every state in which FAILSAFE_CUSTOM is set or MIXER_OK is clear,
`mixer_set_failsafe` does nothing: the state, the failsafe servo page included,
is unchanged and the mixer pipeline is not run. In every other state it runs the
pipeline exactly once (one call of `mix`) and sets the failsafe servo page to
`output*600 + 1500` on every channel below the mixed count and to 0 on every
channel from the mixed count up to the channel count. -/
theorem C16_set_failsafe {F M L : Type} (pf : Platform F M L) (st : MixerState F M L) :
    ((hasFlag st.r_setup_arming PX4IO_P_SETUP_ARMING_FAILSAFE_CUSTOM = true ∨
        hasFlag st.r_status_flags PX4IO_P_STATUS_FLAGS_MIXER_OK = false) →
      mixer_set_failsafe pf st = st) ∧
    (hasFlag st.r_setup_arming PX4IO_P_SETUP_ARMING_FAILSAFE_CUSTOM = false →
      hasFlag st.r_status_flags PX4IO_P_STATUS_FLAGS_MIXER_OK = true →
      (mixer_set_failsafe pf st).trace = st.trace ++ [Event.mix] ∧
      (∀ i : Nat, i < (failsafe_mix pf st).2.1 →
        (mixer_set_failsafe pf st).r_page_servo_failsafe i =
          pf.toU16 (pf.fadd (pf.fmul ((failsafe_mix pf st).1 i) (pf.ofInt 600))
            (pf.ofInt 1500))) ∧
      (∀ i : Nat, (failsafe_mix pf st).2.1 ≤ i → i < pf.PX4IO_SERVO_COUNT →
        (mixer_set_failsafe pf st).r_page_servo_failsafe i = 0) ∧
      (∀ i : Nat, (failsafe_mix pf st).2.1 ≤ i → pf.PX4IO_SERVO_COUNT ≤ i →
        (mixer_set_failsafe pf st).r_page_servo_failsafe i = st.r_page_servo_failsafe i)) := by
  constructor
  · intro h
    have hc : (hasFlag st.r_setup_arming PX4IO_P_SETUP_ARMING_FAILSAFE_CUSTOM ||
        !hasFlag st.r_status_flags PX4IO_P_STATUS_FLAGS_MIXER_OK) = true := by
      rcases h with h | h <;> simp [h]
    unfold mixer_set_failsafe
    rw [if_pos hc]
  · intro h₁ h₂
    have hc : ¬ (hasFlag st.r_setup_arming PX4IO_P_SETUP_ARMING_FAILSAFE_CUSTOM ||
        !hasFlag st.r_status_flags PX4IO_P_STATUS_FLAGS_MIXER_OK) = true := by
      simp [h₁, h₂]
    have e : mixer_set_failsafe pf st =
        forLoop (failsafe_mix pf st).2.1 pf.PX4IO_SERVO_COUNT failsafe_disable_body
          (forLoop 0 (failsafe_mix pf st).2.1 (failsafe_scale_body pf (failsafe_mix pf st).1)
            { st with
              r_mixer_limits := (failsafe_mix pf st).2.2
              trace := st.trace ++ [Event.mix] }) := by
      unfold mixer_set_failsafe
      rw [if_neg hc]
      rfl
    rw [e]
    refine ⟨?_, ?_, ?_, ?_⟩
    · exact (forLoop_preserves (fun s : MixerState F M L => s.trace)
        failsafe_disable_body (fun _ _ => rfl) _ _ _).trans
        (forLoop_preserves (fun s : MixerState F M L => s.trace)
          (failsafe_scale_body pf _) (fun _ _ => rfl) _ _ _)
    · intro i hi
      rw [failsafe_disable_loop, if_neg (by omega), failsafe_scale_loop, if_pos hi]
      rfl
    · intro i hi hn
      rw [failsafe_disable_loop, if_pos ⟨hi, hn⟩]
    · intro i hi hn
      rw [failsafe_disable_loop, if_neg (by omega), failsafe_scale_loop, if_neg (by omega)]

/-- C16, at a concrete input: on the reference platform, in the state a tick
leaves with the mixer loaded and a zero FMU demand, the failsafe value of
channel 0 is 1500 and one call of `mix` is added. -/
theorem C16_set_failsafe_witness :
    (mixer_set_failsafe refPlatform (refState 0 0) = refState 0 0) ∧
    (mixer_set_failsafe refPlatform
        (mixer_tick refPlatform 200 (refPassThroughState 0))).r_page_servo_failsafe 0 = 1500 ∧
    (mixer_set_failsafe refPlatform
        (mixer_tick refPlatform 200 (refPassThroughState 0))).r_page_servo_failsafe 1 = 0 :=
  ⟨(C16_set_failsafe refPlatform (refState 0 0)).1 (Or.inr (by decide)),
   (((C16_set_failsafe refPlatform (mixer_tick refPlatform 200 (refPassThroughState 0))).2
      (by decide) (by decide)).2.1 0 (by decide)).trans (by decide),
   ((C16_set_failsafe refPlatform (mixer_tick refPlatform 200 (refPassThroughState 0))).2
      (by decide) (by decide)).2.2.1 1 (by decide) (by decide)⟩

/-- C17, evaluated on the code: the two states that a tick at time 200 leaves from
`refPassThroughState 5000` and `refPassThroughState 0` agree on the mixer
definition, the mixer limits, the status, arming and feature flags and on the
selected source (the FMU), and differ in the FMU control page only; in the first,
the callback resolves control 0 of group 0 to 0.5 and not to 0, and
`mixer_set_failsafe` gives channel 0 the failsafe value 1800 in the first state
and 1500 in the second. The failsafe page is not independent of the control page. -/
theorem C17_failsafe_reads_controls :
    (mixer_tick refPlatform 200 (refPassThroughState 5000)).mixer_group =
      (mixer_tick refPlatform 200 (refPassThroughState 0)).mixer_group ∧
    (mixer_tick refPlatform 200 (refPassThroughState 5000)).r_mixer_limits =
      (mixer_tick refPlatform 200 (refPassThroughState 0)).r_mixer_limits ∧
    (mixer_tick refPlatform 200 (refPassThroughState 5000)).r_status_flags =
      (mixer_tick refPlatform 200 (refPassThroughState 0)).r_status_flags ∧
    (mixer_tick refPlatform 200 (refPassThroughState 5000)).r_setup_arming =
      (mixer_tick refPlatform 200 (refPassThroughState 0)).r_setup_arming ∧
    (mixer_tick refPlatform 200 (refPassThroughState 5000)).r_setup_features =
      (mixer_tick refPlatform 200 (refPassThroughState 0)).r_setup_features ∧
    (mixer_tick refPlatform 200 (refPassThroughState 5000)).source = MIX_FMU ∧
    (mixer_tick refPlatform 200 (refPassThroughState 0)).source = MIX_FMU ∧
    mixer_callback refPlatform (mixer_tick refPlatform 200 (refPassThroughState 5000)) 0 0
      (some 0) = (0, some 5000) ∧
    (mixer_set_failsafe refPlatform
      (mixer_tick refPlatform 200 (refPassThroughState 5000))).r_page_servo_failsafe 0 = 1800 ∧
    (mixer_set_failsafe refPlatform
      (mixer_tick refPlatform 200 (refPassThroughState 0))).r_page_servo_failsafe 0 = 1500 := by
  decide

/-! ## Arming edges and the disarmed outputs -/

theorem arm_calls_append (l₁ l₂ : List Event) :
    arm_calls (l₁ ++ l₂) = arm_calls l₁ ++ arm_calls l₂ := by
  unfold arm_calls
  rw [List.filterMap_append]

theorem mix_calls_append (l₁ l₂ : List Event) :
    mix_calls (l₁ ++ l₂) = mix_calls l₁ + mix_calls l₂ := by
  unfold mix_calls
  rw [List.count_append]

theorem servo_writes_append (l₁ l₂ : List Event) :
    servo_writes (l₁ ++ l₂) = servo_writes l₁ ++ servo_writes l₂ := by
  unfold servo_writes
  rw [List.filterMap_append]

theorem tick_fmu_freshness_outputs_armed {F M L : Type} (now : Nat) (st : MixerState F M L) :
    hasFlag (tick_fmu_freshness now st).r_status_flags PX4IO_P_STATUS_FLAGS_OUTPUTS_ARMED =
      hasFlag st.r_status_flags PX4IO_P_STATUS_FLAGS_OUTPUTS_ARMED := by
  unfold tick_fmu_freshness
  split_ifs <;>
    simp [PX4IO_P_STATUS_FLAGS_OUTPUTS_ARMED, PX4IO_P_STATUS_FLAGS_FMU_OK,
      PX4IO_P_STATUS_FLAGS_FMU_INITIALIZED, hasFlag_setFlag_BIT, hasFlag_clearFlag_BIT]

theorem tick_before_mixing_outputs_armed {F M L : Type} (now : Nat) (st : MixerState F M L) :
    hasFlag (tick_before_mixing now st).r_status_flags PX4IO_P_STATUS_FLAGS_OUTPUTS_ARMED =
      hasFlag st.r_status_flags PX4IO_P_STATUS_FLAGS_OUTPUTS_ARMED := by
  unfold tick_before_mixing
  unfold PX4IO_P_STATUS_FLAGS_OUTPUTS_ARMED
  rw [tick_failsafe_flag_hasFlag _ 0 (by decide) (by decide), tick_latched_r_status_flags,
    tick_arbitrated_r_status_flags]
  exact tick_fmu_freshness_outputs_armed now st

theorem tick_set_arming_mirror {F M L : Type} (st : MixerState F M L)
    (h : hasFlag st.r_status_flags PX4IO_P_STATUS_FLAGS_OUTPUTS_ARMED = st.mixer_servos_armed) :
    hasFlag (tick_set_arming st).r_status_flags PX4IO_P_STATUS_FLAGS_OUTPUTS_ARMED =
      (tick_set_arming st).mixer_servos_armed := by
  unfold tick_set_arming
  dsimp only
  split_ifs
  all_goals first
    | exact h
    | simp [PX4IO_P_STATUS_FLAGS_OUTPUTS_ARMED, hasFlag_setFlag_BIT, hasFlag_clearFlag_BIT]

theorem set_arming_events_arm_calls {F M L : Type} (st : MixerState F M L) :
    arm_calls (set_arming_events st) =
      if (st.should_arm || st.should_arm_nothrottle || st.should_always_enable_pwm ||
          hasFlag st.r_setup_arming PX4IO_P_SETUP_ARMING_LOCKDOWN) = st.mixer_servos_armed
      then []
      else [st.should_arm || st.should_arm_nothrottle || st.should_always_enable_pwm ||
          hasFlag st.r_setup_arming PX4IO_P_SETUP_ARMING_LOCKDOWN] := by
  unfold set_arming_events arm_calls
  cases hl : hasFlag st.r_setup_arming PX4IO_P_SETUP_ARMING_LOCKDOWN <;>
  cases ha : st.mixer_servos_armed <;>
  cases h₁ : st.should_arm <;>
  cases h₂ : st.should_arm_nothrottle <;>
  cases h₃ : st.should_always_enable_pwm <;>
  simp

/-- The state before the arming step of a tick has the arming booleans and the
LOCKDOWN flag of the end of the tick, and the arm state of its start. -/
theorem tick_run_mixers_arming {F M L : Type} (pf : Platform F M L) (now : Nat)
    (st : MixerState F M L) :
    (tick_run_mixers pf (tick_before_mixing now st)).should_arm =
      (mixer_tick pf now st).should_arm ∧
    (tick_run_mixers pf (tick_before_mixing now st)).should_arm_nothrottle =
      (mixer_tick pf now st).should_arm_nothrottle ∧
    (tick_run_mixers pf (tick_before_mixing now st)).should_always_enable_pwm =
      (mixer_tick pf now st).should_always_enable_pwm ∧
    hasFlag (tick_run_mixers pf (tick_before_mixing now st)).r_setup_arming
        PX4IO_P_SETUP_ARMING_LOCKDOWN =
      hasFlag st.r_setup_arming PX4IO_P_SETUP_ARMING_LOCKDOWN ∧
    (tick_run_mixers pf (tick_before_mixing now st)).mixer_servos_armed =
      st.mixer_servos_armed := by
  have e₆ := tick_run_mixers_same pf (tick_before_mixing now st)
  have e := mixer_tick_same pf now st
  refine ⟨?_, ?_, ?_, ?_, ?_⟩
  · rw [e₆.should_arm, e.should_arm]
    rfl
  · rw [e₆.should_arm_nothrottle, e.should_arm_nothrottle]
    rfl
  · rw [e₆.should_always_enable_pwm, e.should_always_enable_pwm]
    rfl
  · rw [← mixer_tick_lockdown pf now st, e.r_setup_arming, e₆.r_setup_arming]
    rfl
  · rw [(tick_run_mixers_status pf _).mixer_servos_armed,
      (tick_before_mixing_frame now st).mixer_servos_armed]

/-- C18: with `needs_to_arm` the disjunction of the three arming booleans of the
tick and of LOCKDOWN: after `mixer_tick` the hardware arm state equals
`needs_to_arm`; `up_pwm_servo_arm` is called in the tick exactly when
`needs_to_arm` differs from the arm state before the tick, then once and with the
argument `needs_to_arm`; and if the OUTPUTS_ARMED status flag mirrored the arm
state before the tick, it mirrors it after. -/
theorem C18_arming_edges {F M L : Type} (pf : Platform F M L) (now : Nat)
    (st : MixerState F M L) :
    (mixer_tick pf now st).mixer_servos_armed =
      ((mixer_tick pf now st).should_arm || (mixer_tick pf now st).should_arm_nothrottle ||
        (mixer_tick pf now st).should_always_enable_pwm ||
        hasFlag st.r_setup_arming PX4IO_P_SETUP_ARMING_LOCKDOWN) ∧
    arm_calls (tick_events pf now st) =
      (if ((mixer_tick pf now st).should_arm || (mixer_tick pf now st).should_arm_nothrottle ||
            (mixer_tick pf now st).should_always_enable_pwm ||
            hasFlag st.r_setup_arming PX4IO_P_SETUP_ARMING_LOCKDOWN) = st.mixer_servos_armed
        then []
        else [(mixer_tick pf now st).should_arm || (mixer_tick pf now st).should_arm_nothrottle ||
            (mixer_tick pf now st).should_always_enable_pwm ||
            hasFlag st.r_setup_arming PX4IO_P_SETUP_ARMING_LOCKDOWN]) ∧
    (hasFlag st.r_status_flags PX4IO_P_STATUS_FLAGS_OUTPUTS_ARMED = st.mixer_servos_armed →
      hasFlag (mixer_tick pf now st).r_status_flags PX4IO_P_STATUS_FLAGS_OUTPUTS_ARMED =
        (mixer_tick pf now st).mixer_servos_armed) := by
  obtain ⟨h₁, h₂, h₃, hl, ha⟩ := tick_run_mixers_arming pf now st
  have e : mixer_tick pf now st = tick_write_outputs pf
    (tick_set_arming (tick_run_mixers pf (tick_before_mixing now st))) := rfl
  have e₈ := tick_write_outputs_status pf
    (tick_set_arming (tick_run_mixers pf (tick_before_mixing now st)))
  refine ⟨?_, ?_, ?_⟩
  · rw [← h₁, ← h₂, ← h₃, ← hl, ← tick_set_arming_armed, e, e₈.mixer_servos_armed]
  · rw [tick_events_eq, arm_calls_append, arm_calls_append, (events_of_run_mixers _).1,
      (events_of_write_outputs pf _).2.1, List.nil_append, List.append_nil,
      set_arming_events_arm_calls, h₁, h₂, h₃, hl, ha]
  · intro hm
    rw [e, e₈.r_status_flags, e₈.mixer_servos_armed]
    apply tick_set_arming_mirror
    rw [(tick_run_mixers_status pf _).r_status_flags, tick_before_mixing_outputs_armed, ha]
    exact hm

theorem servo_writes_servo_set (n : Nat) (page : Nat → Nat) :
    servo_writes ((List.range n).map (fun i => Event.up_pwm_servo_set i (page i))) =
      (List.range n).map (fun i => (i, page i)) := by
  unfold servo_writes
  rw [List.filterMap_map]
  induction List.range n with
  | nil => rfl
  | cons a l ih => simp [List.filterMap_cons, ih]

theorem write_outputs_events_disarmed {F M L : Type} (pf : Platform F M L)
    (st : MixerState F M L) (ha : st.mixer_servos_armed = true)
    (h : hasFlag st.r_setup_arming PX4IO_P_SETUP_ARMING_LOCKDOWN = true ∨
      (st.should_always_enable_pwm = true ∧ st.should_arm = false ∧
        st.should_arm_nothrottle = false)) :
    servo_writes (write_outputs_events pf st) =
      (List.range pf.PX4IO_SERVO_COUNT).map (fun i => (i, st.r_page_servo_disarmed i)) := by
  have h₁ : ¬ (st.mixer_servos_armed && (st.should_arm || st.should_arm_nothrottle) &&
      !hasFlag st.r_setup_arming PX4IO_P_SETUP_ARMING_LOCKDOWN) = true := by
    rcases h with h | ⟨_, h₂, h₃⟩
    · simp [h]
    · simp [h₂, h₃]
  have h₂ : (st.mixer_servos_armed &&
      (st.should_always_enable_pwm ||
        hasFlag st.r_setup_arming PX4IO_P_SETUP_ARMING_LOCKDOWN)) = true := by
    rcases h with h | ⟨h, _, _⟩ <;> simp [h, ha]
  unfold write_outputs_events
  rw [if_neg h₁, if_pos h₂, servo_writes_append, servo_writes_append, servo_writes_servo_set]
  have e₁ : servo_writes (if hasFlag st.r_setup_features PX4IO_P_SETUP_FEATURES_SBUS1_OUT = true
      then [Event.sbus1_output (page_list st.r_page_servo_disarmed pf.PX4IO_SERVO_COUNT)]
      else []) = [] := by
    split_ifs <;> rfl
  have e₂ : servo_writes (if hasFlag st.r_setup_features PX4IO_P_SETUP_FEATURES_SBUS2_OUT = true
      then [Event.sbus2_output (page_list st.r_page_servo_disarmed pf.PX4IO_SERVO_COUNT)]
      else []) = [] := by
    split_ifs <;> rfl
  rw [e₁, e₂, List.append_nil, List.append_nil]

theorem run_mixers_events_lockdown {F M L : Type} (st : MixerState F M L)
    (h : hasFlag st.r_setup_arming PX4IO_P_SETUP_ARMING_LOCKDOWN = true) :
    run_mixers_events st = [] := by
  unfold run_mixers_events
  rw [if_neg]
  simp [h]

/-- C19: in every state with LOCKDOWN set, `mixer_tick` does not call the mixer,
ends with the hardware armed, writes to every output channel its disarmed value
and nothing else (the calls of `up_pwm_servo_set` of the tick are channel `i` with
the disarmed value of `i`, once each, in order), and leaves the servo page equal
to the disarmed page on every channel. The same arm state, writes and servo page
result without LOCKDOWN when the tick computes `should_always_enable_pwm` true and
`should_arm` and `should_arm_nothrottle` both false. -/
theorem C19_lockdown_outputs {F M L : Type} (pf : Platform F M L) (now : Nat)
    (st : MixerState F M L) :
    (hasFlag st.r_setup_arming PX4IO_P_SETUP_ARMING_LOCKDOWN = true →
      mix_calls (tick_events pf now st) = 0) ∧
    (hasFlag st.r_setup_arming PX4IO_P_SETUP_ARMING_LOCKDOWN = true ∨
        ((mixer_tick pf now st).should_always_enable_pwm = true ∧
          (mixer_tick pf now st).should_arm = false ∧
          (mixer_tick pf now st).should_arm_nothrottle = false) →
      (mixer_tick pf now st).mixer_servos_armed = true ∧
      servo_writes (tick_events pf now st) =
        (List.range pf.PX4IO_SERVO_COUNT).map (fun i => (i, st.r_page_servo_disarmed i)) ∧
      ∀ i : Nat, i < pf.PX4IO_SERVO_COUNT →
        (mixer_tick pf now st).r_page_servos i = st.r_page_servo_disarmed i) := by
  obtain ⟨h₁, h₂, h₃, hl, _⟩ := tick_run_mixers_arming pf now st
  have e₅ := tick_before_mixing_frame now st
  have e₆ := tick_run_mixers_same pf (tick_before_mixing now st)
  have e₇ := tick_set_arming_same (tick_run_mixers pf (tick_before_mixing now st))
  have e : mixer_tick pf now st = tick_write_outputs pf
    (tick_set_arming (tick_run_mixers pf (tick_before_mixing now st))) := rfl
  have e₈ := tick_write_outputs_status pf
    (tick_set_arming (tick_run_mixers pf (tick_before_mixing now st)))
  constructor
  · intro h
    rw [tick_events_eq, mix_calls_append, mix_calls_append, (events_of_set_arming _).1,
      (events_of_write_outputs pf _).1, run_mixers_events_lockdown]
    · rfl
    · rw [← e₆.r_setup_arming, hl]
      exact h
  · intro h
    have harm : (mixer_tick pf now st).mixer_servos_armed = true := by
      rw [e, e₈.mixer_servos_armed, tick_set_arming_armed, h₁, h₂, h₃, hl]
      rcases h with h | ⟨h, _, _⟩ <;> simp [h]
    refine ⟨harm, ?_, ?_⟩
    · rw [tick_events_eq, servo_writes_append, servo_writes_append,
        (events_of_run_mixers _).2.1, (events_of_set_arming _).2.1, List.nil_append,
        List.nil_append, write_outputs_events_disarmed, e₇.r_page_servo_disarmed,
        e₆.r_page_servo_disarmed, e₅.r_page_servo_disarmed]
      · rw [← e₈.mixer_servos_armed]
        exact harm
      · rw [e₇.r_setup_arming, e₇.should_always_enable_pwm, e₇.should_arm,
          e₇.should_arm_nothrottle, hl, h₁, h₂, h₃]
        exact h
    · intro i hi
      rw [mixer_tick_r_page_servos, if_pos]
      refine ⟨?_, hi⟩
      rcases h with h | ⟨h, h', h''⟩
      · simp [h]
      · simp [h, h', h'']

/-- C18, at a concrete input: a tick of the reference platform in lockdown, from
the disarmed state with OUTPUTS_ARMED clear, ends armed, calls
`up_pwm_servo_arm(true)` once and sets OUTPUTS_ARMED. -/
theorem C18_arming_edges_witness :
    (mixer_tick refPlatform 200 refLockdownState).mixer_servos_armed = true ∧
    arm_calls (tick_events refPlatform 200 refLockdownState) = [true] ∧
    hasFlag (mixer_tick refPlatform 200 refLockdownState).r_status_flags
      PX4IO_P_STATUS_FLAGS_OUTPUTS_ARMED = true :=
  ⟨(C18_arming_edges refPlatform 200 refLockdownState).1.trans (by decide),
   (C18_arming_edges refPlatform 200 refLockdownState).2.1.trans (by decide),
   ((C18_arming_edges refPlatform 200 refLockdownState).2.2 (by decide)).trans (by decide)⟩

/-- C19, at a concrete input: a tick of the reference platform in lockdown does
not call the mixer, ends armed, writes 900 to each of the eight channels and
reports 900 on channel 0. -/
theorem C19_lockdown_outputs_witness :
    mix_calls (tick_events refPlatform 200 refLockdownState) = 0 ∧
    (mixer_tick refPlatform 200 refLockdownState).mixer_servos_armed = true ∧
    servo_writes (tick_events refPlatform 200 refLockdownState) =
      [(0, 900), (1, 900), (2, 900), (3, 900), (4, 900), (5, 900), (6, 900), (7, 900)] ∧
    (mixer_tick refPlatform 200 refLockdownState).r_page_servos 0 = 900 :=
  ⟨(C19_lockdown_outputs refPlatform 200 refLockdownState).1 (by decide),
   ((C19_lockdown_outputs refPlatform 200 refLockdownState).2 (Or.inl (by decide))).1,
   ((C19_lockdown_outputs refPlatform 200 refLockdownState).2 (Or.inl (by decide))).2.1.trans
     (by decide),
   (((C19_lockdown_outputs refPlatform 200 refLockdownState).2 (Or.inl (by decide))).2.2 0
     (by decide)).trans (by decide)⟩

/-- C20, evaluated on the code: with both the SBUS1_OUT and the SBUS2_OUT feature
selected, a tick in lockdown calls both `sbus1_output` and `sbus2_output`, each
once with the disarmed values, while a tick that writes the live servo page calls
`sbus2_output` only. -/
theorem C20_both_sbus_encoders :
    hasFlag refBothSbusLockdownState.r_setup_features PX4IO_P_SETUP_FEATURES_SBUS1_OUT = true ∧
    hasFlag refBothSbusLockdownState.r_setup_features PX4IO_P_SETUP_FEATURES_SBUS2_OUT = true ∧
    sbus1_calls (tick_events refPlatform 200 refBothSbusLockdownState) =
      [[900, 900, 900, 900, 900, 900, 900, 900]] ∧
    sbus2_calls (tick_events refPlatform 200 refBothSbusLockdownState) =
      [[900, 900, 900, 900, 900, 900, 900, 900]] ∧
    sbus1_calls (tick_events refPlatform 200 refBothSbusArmedState) = [] ∧
    sbus2_calls (tick_events refPlatform 200 refBothSbusArmedState) =
      [[0, 0, 0, 0, 0, 0, 0, 0]] := by
  decide

end Mixer
